import Mathlib

/-!
# govnah: `luna_methods.c`

A shallow embedding of the service's request handlers and of the JSON text
escaper they share, with the properties of the specification stated and
settled over it.

Conventions of the embedding.

* A C `char` is a `Nat` (its value as an `unsigned char`), a C string is the
  `List Nat` of its bytes.  Reading a string past its last byte yields the
  terminating NUL, `0`.
* The static output buffer `esc_buffer` is a `List Nat` in a flat memory: a
  write beyond the current end of the list lands in the memory that follows
  the buffer and makes the list longer.  The state records how far the writes
  reached (`extent`), so that the size of the buffer can be compared with it.
* `MAXBUFLEN` and `MAXLINLEN` come from `luna_methods.h`, which is not part of
  the sources at hand; they are parameters.
* The static arrays `line`, `filename`, `directory` and `errorText` have
  `MAXLINLEN` bytes, `buffer`, `esc_buffer` and `run_command_buffer` have
  `MAXBUFLEN` bytes, and the local arrays `command` have `MAXLINLEN` bytes.  A
  write that does not fit its array is undefined in C.  The handlers of
  scripts, listings, commands and single values are followed up to the first
  such write (`fits`, `undefined_after`): every `sprintf`, `strcpy` and
  `strcat` of theirs is tested, save those of a fixed text no longer than one
  the same run has already stored in an array of the same size.  In
  `set_cpufreq_params_method` the texts formatted are kept as they are: the
  path handed to `fopen` is the text, whatever its length.
-/

namespace Govnah

/-! ## Strings and memory -/

/-- Bytes of an ASCII string literal of the source. -/
def cstr (s : String) : List Nat := s.toList.map Char.toNat

/-- C `strlen`: the number of bytes before the first NUL. -/
def strlen (str : List Nat) : Nat := (str.takeWhile (fun b => b ≠ 0)).length

/-- The C string stored at the start of a memory region: the bytes before the
first NUL. -/
def c_string (mem : List Nat) : List Nat := mem.takeWhile (fun b => b ≠ 0)

/-- C `memcpy(mem + dst, src, src.length)` on a flat memory: the bytes of `src`
replace those at offsets `dst ..`, the memory growing when the write goes
beyond its end. -/
def memcpy (mem : List Nat) (dst : Nat) (src : List Nat) : List Nat :=
  mem.take dst ++ List.replicate (dst - mem.length) 0 ++ src ++ mem.drop (dst + src.length)

/-! ## `json_escape_str` -/

/-- The table `json_hex_chars` of `json_escape_str`. -/
def json_hex_chars : List Nat := cstr "0123456789abcdef"

/-- The local variables of `json_escape_str` together with `esc_buffer`.
`resultsPt` is kept as an offset into `esc_buffer`; `extent` is one more than
the highest offset of `esc_buffer` written so far. -/
structure EscState where
  esc_buffer : List Nat
  extent : Nat
  resultsPt : Nat
  pos : Nat
  start_offset : Nat
deriving Repr, DecidableEq

/-- A write of `src` at `resultsPt` (which the write itself does not move). -/
def EscState.write (st : EscState) (src : List Nat) : EscState :=
  { st with
    esc_buffer := memcpy st.esc_buffer st.resultsPt src
    extent := max st.extent (st.resultsPt + src.length) }

/-- The guarded chunk copy
`if (pos - start_offset > 0) { memcpy(resultsPt, str + start_offset, pos - start_offset);
resultsPt += pos - start_offset; }`, which occurs three times in the source. -/
def copy_chunk (str : List Nat) (st : EscState) : EscState :=
  if st.pos - st.start_offset > 0 then
    { st.write ((str.drop st.start_offset).take (st.pos - st.start_offset)) with
      resultsPt := st.resultsPt + (st.pos - st.start_offset) }
  else st

/-- The two bytes copied for a character of the first `case` group of the
`switch` (the `if ... else if` chain of lines 87-92). -/
def escape_pair (c : Nat) : List Nat :=
  if c = 8 then cstr "\\b"
  else if c = 10 then cstr "\\n"
  else if c = 13 then cstr "\\r"
  else if c = 9 then cstr "\\t"
  else if c = 34 then cstr "\\\""
  else if c = 92 then cstr "\\\\"
  else []

/-- The bytes `sprintf(resultsPt, "\\u00%c%c", json_hex_chars[c >> 4],
json_hex_chars[c & 0xf])` stores: six characters and the terminating NUL. -/
def sprintf_u00 (c : Nat) : List Nat :=
  cstr "\\u00" ++ [json_hex_chars.getD (c >>> 4) 0, json_hex_chars.getD (c &&& 0xf) 0, 0]

/-- One pass through the body of the `do ... while (c)` loop, for the
character `c = str[pos]`. -/
def escape_step (str : List Nat) (st : EscState) (c : Nat) : EscState :=
  if c = 0 then
    -- case '\0': terminate the copying
    st
  else if c = 8 ∨ c = 10 ∨ c = 13 ∨ c = 9 ∨ c = 34 ∨ c = 92 then
    let st1 := copy_chunk str st
    let st2 := { st1.write (escape_pair c) with resultsPt := st1.resultsPt + 2 }
    { st2 with pos := st.pos + 1, start_offset := st.pos + 1 }
  else if c < 32 ∨ c > 127 then
    let st1 := copy_chunk str st
    -- the sprintf stores at resultsPt and the source leaves resultsPt where it was
    let st2 := st1.write (sprintf_u00 c)
    { st2 with pos := st.pos + 1, start_offset := st.pos + 1 }
  else
    { st with pos := st.pos + 1 }

/-- The `do ... while (c)` loop of `json_escape_str`; `none` when the fuel is
used up before the loop ends. -/
def escape_loop (str : List Nat) : Nat → EscState → Option EscState
  | 0, _ => none
  | fuel + 1, st =>
    let c := str.getD st.pos 0
    let st1 := escape_step str st c
    if c ≠ 0 then escape_loop str fuel st1 else some st1

/-- The whole of `json_escape_str`, returning the final state.  `esc_buffer` is
the content the static buffer has when the function is entered.  The loop body
runs once per byte of the string and once for its NUL, which is the fuel
given. -/
def json_escape_run (MAXBUFLEN : Nat) (esc_buffer : List Nat) (str : List Nat) :
    Option EscState :=
  -- strcpy(esc_buffer, "")
  let st0 : EscState :=
    { esc_buffer := memcpy esc_buffer 0 [0], extent := 1, resultsPt := 0, pos := 0,
      start_offset := 0 }
  if strlen str > MAXBUFLEN then some st0
  else
    match escape_loop str (strlen str + 1) st0 with
    | none => none
    | some st =>
      -- copy the final chunk, then memcpy(resultsPt, "\0", 1)
      some ((copy_chunk str st).write [0])

/-- The string `json_escape_str` returns: the C string at the start of
`esc_buffer` when the function is left. -/
def json_escape_str (MAXBUFLEN : Nat) (esc_buffer : List Nat) (str : List Nat) :
    Option (List Nat) :=
  (json_escape_run MAXBUFLEN esc_buffer str).map (fun st => c_string st.esc_buffer)

/-- Whether the call `json_escape_str(str)` keeps every write within the
`MAXBUFLEN` bytes of `esc_buffer` (how far the writes reach does not depend on
what the buffer held before). -/
def escape_within (MAXBUFLEN : Nat) (str : List Nat) : Bool :=
  match json_escape_run MAXBUFLEN [] str with
  | some st => decide (st.extent ≤ MAXBUFLEN)
  | none => false

/-- What one input byte contributes to the returned string: a summary of
`escape_step`, related to it by `json_escape_run_spec`. -/
def emitted (c : Nat) : List Nat :=
  if c = 8 ∨ c = 10 ∨ c = 13 ∨ c = 9 ∨ c = 34 ∨ c = 92 then escape_pair c
  else if c < 32 ∨ c > 127 then []
  else [c]

/-- The contributions of the bytes of a string, in order. -/
def escaped : List Nat → List Nat
  | [] => []
  | c :: s => emitted c ++ escaped s

/-- The text the loop has produced so far: what stands before `resultsPt`
followed by the chunk of the input that waits to be copied. -/
def produced (str : List Nat) (st : EscState) : List Nat :=
  st.esc_buffer.take st.resultsPt ++ (str.drop st.start_offset).take (st.pos - st.start_offset)

/-- The relations between the variables that every pass of the loop keeps. -/
def EscInv (str : List Nat) (st : EscState) : Prop :=
  st.resultsPt ≤ st.esc_buffer.length ∧ st.start_offset ≤ st.pos ∧ st.pos ≤ str.length

/-- The per-byte image the specification names for the escaper: the six
two-character escapes, every other byte unchanged. -/
def spec_image (c : Nat) : List Nat :=
  if c = 8 then cstr "\\b"
  else if c = 10 then cstr "\\n"
  else if c = 13 then cstr "\\r"
  else if c = 9 then cstr "\\t"
  else if c = 34 then cstr "\\\""
  else if c = 92 then cstr "\\\\"
  else [c]

/-- A token of a JSON-string-safe text: a printable byte other than the double
quote and the backslash, one of the six two-character escapes, or `\u00`
followed by two lowercase hexadecimal digits. -/
def safe_token (t : List Nat) : Bool :=
  match t with
  | [c] => decide (32 ≤ c ∧ c ≤ 127 ∧ c ≠ 34 ∧ c ≠ 92)
  | [92, x] => decide (x ∈ [98, 110, 114, 116, 34, 92])
  | [92, 117, 48, 48, h, l] => decide (h ∈ json_hex_chars ∧ l ∈ json_hex_chars)
  | _ => false

/-! ## Requests

The payload of a request is the tree the JSON parser of the service hands to
the handlers.  A member of an object is kept as the pair of its label and its
value, the elements of an array as a list: `child` of a label is the value,
`child` of an array its first element and `next` the element after. -/

/-- The parsed JSON tree (`json_t`), by node type. -/
inductive json_t where
  | JSON_STRING (text : List Nat)
  | JSON_NUMBER (text : List Nat)
  | JSON_OBJECT (members : List (List Nat × json_t))
  | JSON_ARRAY (elements : List json_t)
  | JSON_TRUE
  | JSON_FALSE
  | JSON_NULL
deriving Repr

/-- The library call `json_find_first_label`: the first member of the
object whose label is `text_label`; the result stands for `label->child`. -/
def json_find_first_label (object : json_t) (text_label : List Nat) : Option json_t :=
  match object with
  | .JSON_OBJECT members =>
    (members.find? (fun m => decide (c_string m.1 = c_string text_label))).map Prod.snd
  | _ => none

/-- The macro `ALLOWED_CHARS`. -/
def ALLOWED_CHARS : List Nat :=
  cstr "abcdefghijklmnopqrstuvwxyzABCDEFGHIJKLMNOPQRSTUVWXYZ0123456789_"

/-- C `strspn`: the length of the longest prefix made of bytes of `accept`. -/
def strspn (s accept : List Nat) : Nat :=
  (s.takeWhile (fun b => decide (b ≠ 0 ∧ b ∈ accept))).length

/-- The global `cpufreqdir`. -/
def cpufreqdir : List Nat := cstr "/sys/devices/system/cpu/cpu0/cpufreq"

/-- The test the handlers make on the `name` and on the `value` of an entry:
`!node || (node->child->type != JSON_STRING) ||
(strspn(node->child->text, ALLOWED_CHARS) != strlen(node->child->text))`.
`none` when the test fires, else the text as a C string. -/
def allowed_text (node : Option json_t) : Option (List Nat) :=
  match node with
  | some (.JSON_STRING text) =>
    if strspn text ALLOWED_CHARS ≠ strlen text then none else some (c_string text)
  | _ => none

/-- The outcome of the three tests made on an array entry, in the order of
the source: the type of the entry, its `name`, its `value`. -/
inductive entry_check where
  | not_object
  | bad_name
  | bad_value
  | valid (name value : List Nat)
deriving Repr, DecidableEq

/-- The tests on an entry shared by `set_cpufreq_params_method`,
`stick_cpufreq_params_method` and the compcache handlers. -/
def check_entry (entry : json_t) : entry_check :=
  match entry with
  | .JSON_OBJECT members =>
    match allowed_text (json_find_first_label (.JSON_OBJECT members) (cstr "name")) with
    | none => .bad_name
    | some name =>
      match allowed_text (json_find_first_label (.JSON_OBJECT members) (cstr "value")) with
      | none => .bad_value
      | some value => .valid name value
  | _ => .not_object

/-! ## The world outside the process

A handler talks to the file system and to the bus through library calls.  The
calls it makes are recorded in a trace, each with the success the world gave
it; the world decides the success of a call from the call and from what
happened before. -/

/-- A call that leaves the process. -/
inductive Call where
  | fopen (path mode : List Nat)
  | fputs (path text : List Nat)
  | fgets (path : List Nat)
  | fclose (path : List Nat)
  | unlink (path : List Nat)
  | opendir (path : List Nat)
  | stat (path : List Nat)
  | closedir (path : List Nat)
  | LSMessageReply (text : List Nat)
  | fscanf (path : List Nat)
  | popen (command : List Nat)
  | pclose (command : List Nat)
  | LSCall (uri payload : List Nat)
deriving Repr, DecidableEq

/-- A call together with its success. -/
structure Event where
  call : Call
  ok : Bool
deriving Repr, DecidableEq

/-- The world: the success of the next call given the calls made so far, the
names a directory lists, the mode `stat` reports, the bytes a file delivers
when read, and the bytes a command writes to its standard output when it is
started after the calls made so far.  The success of a `pclose` is an exit
status of zero. -/
structure World where
  ok : List Event → Call → Bool
  readdir : List Nat → List (List Nat)
  st_mode : List Nat → Nat
  content : List Nat → List Nat
  stdout : List Event → List Nat → List Nat

/-- Make a call: the event is appended to the trace and the success returned. -/
def World.call (w : World) (tr : List Event) (c : Call) : List Event × Bool :=
  (tr ++ [⟨c, w.ok tr c⟩], w.ok tr c)

/-- What a handler did: the trace of its calls, the value it returned (`none`
when it has not returned) and whether it left the behaviour C defines.  A write
that does not fit the array it goes to is undefined in C: a run ends at the
first such write with `undefined` set, its trace holds the calls made before,
and nothing is said of what the process does next.  A run with `ret = none`
that is not undefined has used up its fuel. -/
structure Run where
  trace : List Event
  ret : Option Bool
  undefined : Bool
deriving Repr, DecidableEq

/-- The end of every handler,
`if (!LSMessageReply(lshandle, message, text, &lserror)) goto error; return true;`
with `error:` printing the error and returning false. -/
def reply (w : World) (tr : List Event) (text : List Nat) : Run :=
  ⟨(w.call tr (.LSMessageReply text)).1, some (w.call tr (.LSMessageReply text)).2, false⟩

/-- Whether an array of `size` bytes holds `text` together with the NUL that
ends it. -/
def fits (size : Nat) (text : List Nat) : Bool := decide (text.length < size)

/-- The run that ends, after the calls of `tr`, at a write beyond an array. -/
def undefined_after (tr : List Event) : Run := ⟨tr, none, true⟩

/-- The statement `sprintf(buffer, ...)` that stores `text` in
`buffer[MAXBUFLEN]`, followed by the reply with `buffer`. -/
def reply_buffer (w : World) (MAXBUFLEN : Nat) (tr : List Event) (text : List Nat) : Run :=
  if fits MAXBUFLEN text then reply w tr text else undefined_after tr

/-- Either the handler has returned, or control goes on with a state. -/
inductive Flow (σ : Type) where
  | returned (r : Run)
  | next (s : σ)

/-- The text
`sprintf(buffer, "{\"errorText\": \"%s\", \"returnValue\": false, \"errorCode\": -1 }", errorText)`
leaves in `buffer`. -/
def error_reply (errorText : List Nat) : List Nat :=
  cstr "\x7b\"errorText\": \"" ++ errorText ++
    cstr "\", \"returnValue\": false, \"errorCode\": -1 \x7d"

/-- The text `sprintf(buffer, "{\"returnValue\": true }")` leaves in `buffer`. -/
def true_reply : List Nat := cstr "\x7b\"returnValue\": true \x7d"

/-- The fixed reply
`{"returnValue": false, "errorCode": -1, "errorText": "Invalid or missing <what>"}`. -/
def invalid_reply (what : List Nat) : List Nat :=
  cstr "\x7b\"returnValue\": false, \"errorCode\": -1, \"errorText\": \"Invalid or missing " ++
    what ++ cstr "\"\x7d"

/-- The block that writes one value into one file (lines 717-731 and 774-788):
`fopen(filename, "w")`, then `fputs` and `fclose`, each failure setting `error`
and `errorText`.  Returns the trace, `error` and `errorText`. -/
def write_value (w : World) (tr : List Event) (filename value : List Nat)
    (error : Bool) (errorText : List Nat) : List Event × Bool × List Nat :=
  let fp := w.call tr (.fopen filename (cstr "w"))
  if !fp.2 then (fp.1, true, cstr "Unable to open " ++ filename)
  else
    let wr := w.call fp.1 (.fputs filename value)
    let error1 := if !wr.2 then true else error
    let errorText1 := if !wr.2 then cstr "Unable to write to " ++ filename else errorText
    let cl := w.call wr.1 (.fclose filename)
    let error2 := if !cl.2 then true else error1
    let errorText2 := if !cl.2 then cstr "Unable to close " ++ filename else errorText1
    (cl.1, error2, errorText2)

/-! ## `set_cpufreq_params` -/

/-- The variables of `set_cpufreq_params_method` that live across its loops. -/
structure SetState where
  trace : List Event
  error : Bool
  errorText : List Nat
  governor : Option (List Nat)
  buffer : List Nat

/-- The `while (genericEntry)` loop of `set_cpufreq_params_method`
(lines 685-740), `directory` being `cpufreqdir`. -/
def set_generic_loop (w : World) : List json_t → SetState → Flow SetState
  | [], s => .next s
  | genericEntry :: rest, s =>
    match check_entry genericEntry with
    | .not_object =>
      .returned (reply w s.trace (invalid_reply (cstr "genericParams array element")))
    | .bad_name => .returned (reply w s.trace (invalid_reply (cstr "name genericEntry")))
    | .bad_value => .returned (reply w s.trace (invalid_reply (cstr "value genericEntry")))
    | .valid name value =>
      let governor := if name = cstr "scaling_governor" then some value else s.governor
      let filename := cpufreqdir ++ cstr "/" ++ name
      let wv := write_value w s.trace filename value s.error s.errorText
      if wv.2.1 then
        -- sprintf(buffer, ...); break;
        .next ⟨wv.1, wv.2.1, wv.2.2, governor, error_reply wv.2.2⟩
      else
        set_generic_loop w rest ⟨wv.1, wv.2.1, wv.2.2, governor, s.buffer⟩

/-- The `while (governorEntry)` loop of `set_cpufreq_params_method`
(lines 746-797), `directory` being `cpufreqdir/governor`. -/
def set_governor_loop (w : World) (directory : List Nat) :
    List json_t → SetState → Flow SetState
  | [], s => .next s
  | governorEntry :: rest, s =>
    match check_entry governorEntry with
    | .not_object =>
      .returned (reply w s.trace (invalid_reply (cstr "governorParams array element")))
    | .bad_name => .returned (reply w s.trace (invalid_reply (cstr "name governorEntry")))
    | .bad_value => .returned (reply w s.trace (invalid_reply (cstr "value governorEntry")))
    | .valid name value =>
      let filename := directory ++ cstr "/" ++ name
      let wv := write_value w s.trace filename value s.error s.errorText
      if wv.2.1 then
        .next ⟨wv.1, wv.2.1, wv.2.2, s.governor, error_reply wv.2.2⟩
      else
        set_governor_loop w directory rest ⟨wv.1, wv.2.1, wv.2.2, s.governor, s.buffer⟩

/-- The handler `set_cpufreq_params_method`; `object` is the payload of the
message. -/
def set_cpufreq_params_method (w : World) (object : json_t) : Run :=
  match json_find_first_label object (cstr "genericParams") with
  | some (.JSON_ARRAY genericParams) =>
    match json_find_first_label object (cstr "governorParams") with
    | some (.JSON_ARRAY governorParams) =>
      match set_generic_loop w genericParams ⟨[], false, [], none, true_reply⟩ with
      | .returned r => r
      | .next s =>
        match s.governor with
        | some governor =>
          match set_governor_loop w (cpufreqdir ++ cstr "/" ++ governor) governorParams s with
          | .returned r => r
          | .next s1 => reply w s1.trace s1.buffer
        | none => reply w s.trace s.buffer
    | _ => reply w [] (invalid_reply (cstr "governorParams array"))
  | _ => reply w [] (invalid_reply (cstr "genericParams array"))

/-! ## Sticky scripts -/

/-- A run of consecutive statements `if (fputs(text, fp) < 0) error = true;`,
one per text, on the stream opened on `path`. -/
def fputs_each (w : World) (path : List Nat) :
    List (List Nat) → List Event × Bool → List Event × Bool
  | [], s => s
  | text :: rest, s =>
    fputs_each w path rest
      ((w.call s.1 (.fputs path text)).1, if !(w.call s.1 (.fputs path text)).2 then true else s.2)

/-- The block `(void)fclose(fp); (void)unlink(filename); sprintf(buffer, ...);`
followed by the reply, taken when a write to the script failed. -/
def abandon_script (w : World) (MAXBUFLEN : Nat) (tr : List Event) (filename text : List Nat) :
    Run :=
  reply_buffer w MAXBUFLEN (w.call (w.call tr (.fclose filename)).1 (.unlink filename)).1 text

/-- The three lines of a script that leave it unless the last boot and
shutdown were healthy. -/
def boot_gates : List (List Nat) :=
  [cstr "[ \"`/usr/bin/lunaprop -m com.palm.properties.prevBootPanicked`\" = \"false\" ] || exit 0\n",
   cstr "[ \"`/usr/bin/lunaprop -m com.palm.properties.prevShutdownClean`\" = \"true\" ] || exit 0\n",
   cstr "[ \"`/usr/bin/lunaprop -m -n com.palm.system last_umount_clean`\"  = \"true\" ] || exit 0\n"]

/-- The script file of `stick_cpufreq_params_method`. -/
def govnah_settings : List Nat := cstr "/var/palm/event.d/org.webosinternals.govnah-settings"

/-- The texts of the ten `fputs` of lines 854-863. -/
def settings_header : List (List Nat) :=
  [cstr "description \"Govnah Settings\"\n", cstr "\n", cstr "start on stopped finish\n",
   cstr "\n", cstr "script\n", cstr "\n"] ++ boot_gates ++ [cstr "\n"]

/-- The line `sprintf(line, "echo -n '%s' > %s/%s\n", value, directory, name)`. -/
def echo_line (value directory name : List Nat) : List Nat :=
  cstr "echo -n \x27" ++ value ++ cstr "\x27 > " ++ directory ++ cstr "/" ++ name ++ cstr "\n"

/-- The variables of `stick_cpufreq_params_method` that live across its loops. -/
structure StickState where
  trace : List Event
  governor : Option (List Nat)

/-- The `while (genericEntry)` loop of `stick_cpufreq_params_method`
(lines 877-904).  An entry that fails a test is met by `continue`, which goes
back to the loop condition with `genericEntry` unchanged.  Each pass takes one
unit of fuel.  The line of an entry is formatted into `line[MAXLINLEN]`. -/
def stick_generic_loop (w : World) (MAXLINLEN MAXBUFLEN : Nat) :
    Nat → List json_t → StickState → Flow StickState
  | _, [], s => .next s
  | 0, _ :: _, s => .returned ⟨s.trace, none, false⟩
  | fuel + 1, genericEntry :: rest, s =>
    match check_entry genericEntry with
    | .valid name value =>
      let governor := if name = cstr "scaling_governor" then some value else s.governor
      -- sprintf(line, "echo -n '%s' > %s/%s\n", value, directory, name)
      if fits MAXLINLEN (echo_line value cpufreqdir name) then
        let wr := w.call s.trace (.fputs govnah_settings (echo_line value cpufreqdir name))
        if !wr.2 then
          .returned (abandon_script w MAXBUFLEN wr.1 govnah_settings
            (error_reply (cstr "Unable to open " ++ govnah_settings)))
        else stick_generic_loop w MAXLINLEN MAXBUFLEN fuel rest ⟨wr.1, governor⟩
      else .returned (undefined_after s.trace)
    | _ => stick_generic_loop w MAXLINLEN MAXBUFLEN fuel (genericEntry :: rest) s

/-- The `while (governorEntry)` loop of `stick_cpufreq_params_method`
(lines 910-933), with the same `continue` and the same `line[MAXLINLEN]`. -/
def stick_governor_loop (w : World) (MAXLINLEN MAXBUFLEN : Nat) (directory : List Nat) :
    Nat → List json_t → StickState → Flow StickState
  | _, [], s => .next s
  | 0, _ :: _, s => .returned ⟨s.trace, none, false⟩
  | fuel + 1, governorEntry :: rest, s =>
    match check_entry governorEntry with
    | .valid name value =>
      -- sprintf(line, "echo -n '%s' > %s/%s\n", value, directory, name)
      if fits MAXLINLEN (echo_line value directory name) then
        let wr := w.call s.trace (.fputs govnah_settings (echo_line value directory name))
        if !wr.2 then
          .returned (abandon_script w MAXBUFLEN wr.1 govnah_settings
            (error_reply (cstr "Unable to write to " ++ govnah_settings)))
        else stick_governor_loop w MAXLINLEN MAXBUFLEN directory fuel rest ⟨wr.1, s.governor⟩
      else .returned (undefined_after s.trace)
    | _ => stick_governor_loop w MAXLINLEN MAXBUFLEN directory fuel (governorEntry :: rest) s

/-- The end of both script writers (lines 936-959 and 1309-1332): the two
closing `fputs`, the test of `error`, `fclose` and the reply.  The reply of
success is the text `buffer` holds since the handler was entered. -/
def finish_script (w : World) (MAXBUFLEN : Nat) (tr : List Event) (filename : List Nat)
    (error : Bool) : Run :=
  let ft := fputs_each w filename [cstr "\n", cstr "end script\n"] (tr, error)
  if ft.2 then
    abandon_script w MAXBUFLEN ft.1 filename (error_reply (cstr "Unable to write to " ++ filename))
  else
    let cl := w.call ft.1 (.fclose filename)
    if !cl.2 then reply_buffer w MAXBUFLEN cl.1 (error_reply (cstr "Unable to close " ++ filename))
    else reply w cl.1 true_reply

/-- The handler `stick_cpufreq_params_method`, each of its two loops running on
`fuel`.  The handler writes into `buffer[MAXBUFLEN]` and into `filename`,
`directory` and `line`, of `MAXLINLEN` bytes each. -/
def stick_cpufreq_params_method (w : World) (MAXLINLEN MAXBUFLEN fuel : Nat) (object : json_t) :
    Run :=
  -- sprintf(buffer, "{\"returnValue\": true }")
  if fits MAXBUFLEN true_reply then
    match json_find_first_label object (cstr "genericParams") with
    | some (.JSON_ARRAY genericParams) =>
      match json_find_first_label object (cstr "governorParams") with
      | some (.JSON_ARRAY governorParams) =>
        -- sprintf(filename, "/var/palm/event.d/org.webosinternals.govnah-settings")
        if fits MAXLINLEN govnah_settings then
          let fp := w.call [] (.fopen govnah_settings (cstr "w"))
          if !fp.2 then
            reply_buffer w MAXBUFLEN fp.1 (error_reply (cstr "Unable to open " ++ govnah_settings))
          else
            let hd := fputs_each w govnah_settings settings_header (fp.1, false)
            if hd.2 then
              abandon_script w MAXBUFLEN hd.1 govnah_settings
                (error_reply (cstr "Unable to write to " ++ govnah_settings))
            -- sprintf(directory, "%s", cpufreqdir)
            else if fits MAXLINLEN cpufreqdir then
              match stick_generic_loop w MAXLINLEN MAXBUFLEN fuel genericParams ⟨hd.1, none⟩ with
              | .returned r => r
              | .next s =>
                match s.governor with
                | some governor =>
                  -- sprintf(directory, "%s/%s", cpufreqdir, governor)
                  if fits MAXLINLEN (cpufreqdir ++ cstr "/" ++ governor) then
                    match stick_governor_loop w MAXLINLEN MAXBUFLEN
                        (cpufreqdir ++ cstr "/" ++ governor) fuel governorParams s with
                    | .returned r => r
                    | .next s1 => finish_script w MAXBUFLEN s1.trace govnah_settings false
                  else undefined_after s.trace
                | none => finish_script w MAXBUFLEN s.trace govnah_settings false
            else undefined_after hd.1
        else undefined_after []
      | _ => reply w [] (invalid_reply (cstr "governorParams array"))
    | _ => reply w [] (invalid_reply (cstr "genericParams array"))
  else undefined_after []

/-- The script file of `stick_compcache_config_method`. -/
def govnah_compcache : List Nat := cstr "/var/palm/event.d/org.webosinternals.govnah-compcache"

/-- The texts of the eleven `fputs` of lines 1278-1288. -/
def compcache_header : List (List Nat) :=
  [cstr "description \"Govnah CompCache Configuration\"\n", cstr "\n",
   cstr "start on stopped finish\n", cstr "stop on runlevel [!2]\n", cstr "\n",
   cstr "script\n", cstr "\n"] ++ boot_gates ++ [cstr "\n"]

/-- The line
`sprintf(line, "insmod ... memlimit_kb=%s backing_swap=/dev/mapper/store-swap\n", memlimit)`
of `stick_compcache_config_method` (lines 1302-1304). -/
def ramzswap_line (memlimit : List Nat) : List Nat :=
  cstr "insmod /lib/modules/`uname -r`/extra/ramzswap.ko memlimit_kb=" ++ memlimit ++
    cstr " backing_swap=/dev/mapper/store-swap\n"

/-- The texts of the five `fputs` of lines 1300-1307. -/
def compcache_commands (memlimit : List Nat) : List (List Nat) :=
  [cstr "swapoff -a\n",
   cstr "insmod /lib/modules/`uname -r`/extra/xvmalloc.ko\n",
   ramzswap_line memlimit,
   cstr "sleep 3\n",
   cstr "swapon /dev/ramzswap0 -p 1\n"]

/-- The variables `enable` and `memlimit` of the compcache handlers. -/
structure CompcacheConfig where
  enable : Bool
  memlimit : Option (List Nat)
deriving Repr, DecidableEq

/-- The `while (entry)` loop over `compcacheConfig` (lines 1084-1102 and
1232-1250), with `continue` on an entry that fails a test; `none` when the
fuel is used up. -/
def compcache_entry_loop : Nat → List json_t → CompcacheConfig → Option CompcacheConfig
  | _, [], s => some s
  | 0, _ :: _, _ => none
  | fuel + 1, entry :: rest, s =>
    match check_entry entry with
    | .valid name value =>
      let enable :=
        if name = cstr "compcache_enabled" then decide (value = cstr "1") else s.enable
      let memlimit := if name = cstr "compcache_memlimit" then some value else s.memlimit
      compcache_entry_loop fuel rest ⟨enable, memlimit⟩
    | _ => compcache_entry_loop fuel (entry :: rest) s

/-- The handler `stick_compcache_config_method`.  The handler writes into
`buffer[MAXBUFLEN]`, `filename[MAXLINLEN]` and `line[MAXLINLEN]`; the line with
the memory limit is formatted after the first two commands are written. -/
def stick_compcache_config_method (w : World) (MAXLINLEN MAXBUFLEN fuel : Nat)
    (object : json_t) : Run :=
  -- sprintf(buffer, "{\"returnValue\": true }")
  if fits MAXBUFLEN true_reply then
    match json_find_first_label object (cstr "compcacheConfig") with
    | some (.JSON_ARRAY compcacheConfig) =>
      match compcache_entry_loop fuel compcacheConfig ⟨false, none⟩ with
      | none => ⟨[], none, false⟩
      | some cfg =>
        match cfg.memlimit with
        | none => reply w [] (invalid_reply (cstr "memlimit"))
        | some memlimit =>
          -- sprintf(filename, "/var/palm/event.d/org.webosinternals.govnah-compcache")
          if fits MAXLINLEN govnah_compcache then
            if !cfg.enable then
              reply w (w.call [] (.unlink govnah_compcache)).1 true_reply
            else
              let fp := w.call [] (.fopen govnah_compcache (cstr "w"))
              if !fp.2 then
                reply_buffer w MAXBUFLEN fp.1
                  (error_reply (cstr "Unable to open " ++ govnah_compcache))
              else
                let hd := fputs_each w govnah_compcache compcache_header (fp.1, false)
                if hd.2 then
                  abandon_script w MAXBUFLEN hd.1 govnah_compcache
                    (error_reply (cstr "Unable to write to " ++ govnah_compcache))
                else
                  let c2 := fputs_each w govnah_compcache ((compcache_commands memlimit).take 2)
                    (hd.1, false)
                  -- sprintf(line, "insmod ... memlimit_kb=%s ...\n", memlimit)
                  if fits MAXLINLEN (ramzswap_line memlimit) then
                    let cm := fputs_each w govnah_compcache
                      ((compcache_commands memlimit).drop 2) c2
                    finish_script w MAXBUFLEN cm.1 govnah_compcache cm.2
                  else undefined_after c2.1
          else undefined_after []
    | _ => reply w [] (invalid_reply (cstr "compcacheConfig array"))
  else undefined_after []

/-- Whether a file stands at `path` after the calls of a trace, given whether
one stood there before: a successful `fopen` for writing creates it, a
successful `unlink` removes it. -/
def file_exists (path : List Nat) : List Event → Bool → Bool
  | [], before => before
  | ev :: rest, before =>
    if ev.call = .fopen path (cstr "w") ∧ ev.ok = true then file_exists path rest true
    else if ev.call = .unlink path ∧ ev.ok = true then file_exists path rest false
    else file_exists path rest before

/-! ## `get_cpufreq_params` -/

/-- The permission bit `S_IWUSR` of `sys/stat.h`. -/
def S_IWUSR : Nat := 0o200

/-- The file type bit `S_IFDIR` of `sys/stat.h`. -/
def S_IFDIR : Nat := 0o040000

/-- The bytes of a stream up to and including its first newline. -/
def first_line : List Nat → List Nat
  | [] => []
  | b :: rest => if b = 10 then [b] else b :: first_line rest

/-- C `fgets(line, n, fp)` on a stream that delivers `content`: at most `n - 1`
bytes, none after the first newline; `none` (NULL) when the stream is at its
end. -/
def fgets (n : Nat) (content : List Nat) : Option (List Nat) :=
  if content = [] then none else some (first_line (content.take (n - 1)))

/-- The variables of `get_cpufreq_params_method` that live across its loop. -/
structure GetState where
  trace : List Event
  error : Bool
  first : Bool
  buffer : List Nat

/-- The names the loop of `get_cpufreq_params_method` passes over. -/
def skipped_names : List (List Nat) :=
  [cstr ".", cstr "..", cstr "stats", cstr "affected_cpus", cstr "scaling_driver"]

/-- The text appended to `buffer` for one parameter file (lines 617-618). -/
def param_object (first : Bool) (d_name : List Nat) (writeable : Bool) (value : List Nat) :
    List Nat :=
  (if first then [] else cstr ", ") ++ cstr "\x7b\"name\": \"" ++ d_name ++
    cstr "\", \"writeable\": " ++ (if writeable then cstr "true" else cstr "false") ++
    cstr ", \"value\": \"" ++ value ++ cstr "\"\x7d"

/-- The statements `sprintf(errorText, ...); error = true;` and, once the file
is dealt with, `sprintf(buffer, "{\"errorText\": \"%s\", ...}", errorText); break;`
of the loop of `get_cpufreq_params_method`, with `errorText[MAXLINLEN]` and
`buffer[MAXBUFLEN]`. -/
def get_params_break (MAXLINLEN MAXBUFLEN : Nat) (s : GetState) (tr : List Event)
    (errorText : List Nat) : Flow GetState :=
  if fits MAXLINLEN errorText && fits MAXBUFLEN (error_reply errorText) then
    .next { s with trace := tr, error := true, buffer := error_reply errorText }
  else .returned (undefined_after tr)

/-- The `while (ep = readdir (dp))` loop of `get_cpufreq_params_method`
(lines 564-622) over the names the directory lists.  The success of the
`fgets` call tells that no read error occurred; at the end of the stream
`fgets` yields NULL all the same.  The loop writes into `filename[MAXLINLEN]`,
`errorText[MAXLINLEN]`, `esc_buffer[MAXBUFLEN]` and `buffer[MAXBUFLEN]`, and
`line[strlen(line)-1] = '\0'` writes before `line` when the line read is empty.
The loop is left with `.next` at the end of the listing and at `break`. -/
def get_params_loop (w : World) (MAXLINLEN MAXBUFLEN : Nat) (directory : List Nat) :
    List (List Nat) → GetState → Flow GetState
  | [], s => .next s
  | d_name :: rest, s =>
    if d_name ∈ skipped_names then get_params_loop w MAXLINLEN MAXBUFLEN directory rest s
    else
      let filename := directory ++ cstr "/" ++ d_name
      -- sprintf(filename, "%s/%s", directory, ep->d_name)
      if fits MAXLINLEN filename then
        let st := w.call s.trace (.stat filename)
        let writeable := st.2 && decide (w.st_mode filename &&& S_IWUSR ≠ 0)
        let is_directory := st.2 && decide (w.st_mode filename &&& S_IFDIR ≠ 0)
        if is_directory then
          get_params_loop w MAXLINLEN MAXBUFLEN directory rest { s with trace := st.1 }
        else
          let fp := w.call st.1 (.fopen filename (cstr "r"))
          if !fp.2 then
            get_params_break MAXLINLEN MAXBUFLEN s fp.1 (cstr "Unable to open " ++ filename)
          else
            let rd := w.call fp.1 (.fgets filename)
            match (if rd.2 then fgets (MAXLINLEN - 1) (w.content filename) else none) with
            | none =>
              -- sprintf(errorText, "Unable to parse %s", filename)
              if fits MAXLINLEN (cstr "Unable to parse " ++ filename) then
                let cl := w.call rd.1 (.fclose filename)
                if !cl.2 then
                  get_params_break MAXLINLEN MAXBUFLEN s cl.1
                    (cstr "Unable to close " ++ filename)
                else
                  get_params_break MAXLINLEN MAXBUFLEN s cl.1
                    (cstr "Unable to parse " ++ filename)
              else .returned (undefined_after rd.1)
            | some l =>
              -- line[strlen(line)-1] = '\0'
              if c_string l = [] then .returned (undefined_after rd.1)
              else
                let cl := w.call rd.1 (.fclose filename)
                if !cl.2 then
                  get_params_break MAXLINLEN MAXBUFLEN s cl.1
                    (cstr "Unable to close " ++ filename)
                -- sprintf(buffer+strlen(buffer), ..., json_escape_str(line))
                else if escape_within MAXBUFLEN (c_string l).dropLast &&
                    fits MAXBUFLEN (s.buffer ++ param_object s.first d_name writeable
                      ((json_escape_str MAXBUFLEN [] (c_string l).dropLast).getD [])) then
                  get_params_loop w MAXLINLEN MAXBUFLEN directory rest
                    { s with trace := cl.1, first := false,
                             buffer := s.buffer ++ param_object s.first d_name writeable
                               ((json_escape_str MAXBUFLEN [] (c_string l).dropLast).getD []) }
                else .returned (undefined_after cl.1)
      else .returned (undefined_after s.trace)

/-- The handler `get_cpufreq_params_method`.  The handler writes into
`buffer[MAXBUFLEN]` and `directory[MAXLINLEN]` before its loop, and into
`buffer` again after it.  The text `{"params": [` that opens the loop is
shorter than the one `buffer` took when the handler was entered. -/
def get_cpufreq_params_method (w : World) (MAXLINLEN MAXBUFLEN : Nat) (object : json_t) : Run :=
  let governor : Option (List Nat) :=
    match json_find_first_label object (cstr "governor") with
    | some (.JSON_STRING text) => some (c_string text)
    | _ => none
  let directory :=
    match governor with
    | some g => cpufreqdir ++ cstr "/" ++ g
    | none => cpufreqdir
  -- sprintf(buffer, "{\"returnValue\": true }"); sprintf(directory, ...)
  if fits MAXBUFLEN true_reply && fits MAXLINLEN directory then
    let dp := w.call [] (.opendir directory)
    if !dp.2 then
      reply_buffer w MAXBUFLEN dp.1
        (cstr "\x7b\"errorText\": \"Unable to open " ++ directory ++
          cstr "\", \"returnValue\": false \x7d")
    else
      match get_params_loop w MAXLINLEN MAXBUFLEN directory (w.readdir directory)
          ⟨dp.1, false, true, cstr "\x7b\"params\": ["⟩ with
      | .returned r => r
      | .next s =>
        let cd := w.call s.trace (.closedir directory)
        if !cd.2 then
          reply_buffer w MAXBUFLEN cd.1 (error_reply (cstr "Unable to close " ++ directory))
        else if s.error then reply w cd.1 s.buffer
        else
          -- strcat(buffer, "], \"returnValue\": "); ... strcat(buffer, "}")
          reply_buffer w MAXBUFLEN cd.1
            (s.buffer ++ cstr "], \"returnValue\": " ++ cstr "true" ++
              (match governor with
               | some g => cstr ", \"governor\": \"" ++ g ++ cstr "\""
               | none => []) ++ cstr "\x7d")
  else undefined_after []

/-! ## Vocabulary of the properties -/

/-- An entry that passes the three tests of the handlers. -/
def valid_entry (entry : json_t) : Prop := ∃ name value, check_entry entry = .valid name value

/-- A property of the outcome of a loop: `P` of the run when the handler has
returned, `Q` of the state when control goes on. -/
def Flow.all {σ : Type} (P : Run → Prop) (Q : σ → Prop) : Flow σ → Prop
  | .returned r => P r
  | .next s => Q s

/-- The world in which every call succeeds, directories are empty and files
deliver nothing. -/
def all_ok : World :=
  { ok := fun _ _ => true, readdir := fun _ => [], st_mode := fun _ => 0, content := fun _ => [],
    stdout := fun _ _ => [] }

/-- A request payload with the two arrays of the cpufreq handlers. -/
def params_request (genericParams governorParams : List json_t) : json_t :=
  .JSON_OBJECT [(cstr "genericParams", .JSON_ARRAY genericParams),
                (cstr "governorParams", .JSON_ARRAY governorParams)]

/-- An entry `{"name": name, "value": value}` with string members. -/
def param_entry (name value : String) : json_t :=
  .JSON_OBJECT [(cstr "name", .JSON_STRING (cstr name)), (cstr "value", .JSON_STRING (cstr value))]

/-- The world in which every call succeeds but the one made after `n` others. -/
def fails_at (n : Nat) : World :=
  { ok := fun tr _ => decide (tr.length ≠ n), readdir := fun _ => [], st_mode := fun _ => 0,
    content := fun _ => [], stdout := fun _ _ => [] }

/-- A request payload with the array of the compcache handlers. -/
def compcache_request (compcacheConfig : List json_t) : json_t :=
  .JSON_OBJECT [(cstr "compcacheConfig", .JSON_ARRAY compcacheConfig)]

/-- The texts of the replies sent in a trace, in order. -/
def replies : List Event → List (List Nat)
  | [] => []
  | ev :: rest =>
    match ev.call with
    | .LSMessageReply text => text :: replies rest
    | _ => replies rest

/-! ## Commands -/

/-- What a stream still holds after `fgets(line, n, fp)` took its chunk. -/
def fgets_rest (n : Nat) (content : List Nat) : List Nat :=
  content.drop (first_line (content.take (n - 1))).length

/-- The statement `char *nl = strchr(line,'\n'); if (nl) *nl = 0;` of
`run_command`: the C string in `line` up to its first newline. -/
def chomp (line : List Nat) : List Nat := (c_string line).takeWhile (fun b => b ≠ 10)

/-- The call `json_escape_str(str)` as a handler uses it: the returned string,
which does not depend on what `esc_buffer` held before (`json_escape_str_any`). -/
def escape (MAXBUFLEN : Nat) (str : List Nat) : List Nat :=
  (json_escape_str MAXBUFLEN [] str).getD []

/-- The variables of the reading loop of `run_command`, and whether a write
of the loop went beyond `run_command_buffer` or `esc_buffer`. -/
structure ReadState where
  first : Bool
  array : Bool
  run_command_buffer : List Nat
  overrun : Bool
deriving Repr, DecidableEq

/-- The body of the loop `while (fgets(line, sizeof line, fp))` of
`run_command` for one chunk `line`.  The test
`run_command_buffer[strlen(run_command_buffer)-1] == '['` reads the last byte
of the text in the buffer and, when the buffer is empty, the byte `stray` that
stands in memory before the buffer.  The `strcat` calls append to
`run_command_buffer[MAXBUFLEN]` without a test, and `json_escape_str` writes
`esc_buffer[MAXBUFLEN]`. -/
def read_step (MAXBUFLEN stray : Nat) (escape_output : Bool) (s : ReadState) (line : List Nat) :
    ReadState :=
  let array :=
    if s.first then
      (if s.run_command_buffer.getLast?.getD stray = 91 then true else s.array)
    else s.array
  let separator :=
    if s.first then [] else (if array then cstr ", " else cstr "<br>")
  let text :=
    if escape_output then
      (if array then cstr "\"" else []) ++ escape MAXBUFLEN (chomp line) ++
        (if array then cstr "\"" else [])
    else chomp line
  let within :=
    (!escape_output || escape_within MAXBUFLEN (chomp line)) &&
      fits MAXBUFLEN (s.run_command_buffer ++ separator ++ text)
  ⟨false, array, s.run_command_buffer ++ separator ++ text, s.overrun || !within⟩

/-- The loop `while (fgets(line, sizeof line, fp))` of `run_command` on a
stream that delivers `content`; `none` when the fuel is used up before the
stream is at its end. -/
def read_loop (MAXLINLEN MAXBUFLEN stray : Nat) (escape_output : Bool) :
    Nat → List Nat → ReadState → Option ReadState
  | 0, content, s => if content = [] then some s else none
  | fuel + 1, content, s =>
    match fgets MAXLINLEN content with
    | none => some s
    | some line =>
      read_loop MAXLINLEN MAXBUFLEN stray escape_output fuel (fgets_rest MAXLINLEN content)
        (read_step MAXBUFLEN stray escape_output s line)

/-- What `run_command` leaves: the trace, `run_command_buffer`, the value
returned, and whether a write of the reading loop went beyond an array.  When
one did, the other three tell what a memory without bounds would give; a
handler does not go on from there. -/
structure CommandResult where
  trace : List Event
  run_command_buffer : List Nat
  ret : Bool
  overrun : Bool
deriving Repr, DecidableEq

/-- The function `run_command(command, escape)`, entered with the text
`run_command_buffer` in the buffer of that name; `none` when the reading loop
does not end.  The loop takes one chunk per pass, so the length of the output
is fuel enough whenever a pass takes at least one byte. -/
def run_command (w : World) (MAXLINLEN MAXBUFLEN stray : Nat) (tr : List Event)
    (run_command_buffer command : List Nat) (escape_output : Bool) : Option CommandResult :=
  let fp := w.call tr (.popen command)
  if !fp.2 then some ⟨fp.1, run_command_buffer, false, false⟩
  else
    match read_loop MAXLINLEN MAXBUFLEN stray escape_output (w.stdout tr command).length
        (w.stdout tr command) ⟨true, false, run_command_buffer, false⟩ with
    | none => none
    | some s =>
      let cl := w.call fp.1 (.pclose command)
      some ⟨cl.1, s.run_command_buffer, cl.2, s.overrun⟩

/-- A handler that started `command` after the calls of `tr` and never gets
to the end of its output. -/
def hung (w : World) (tr : List Event) (command : List Nat) : Run :=
  ⟨(w.call tr (.popen command)).1, none, false⟩

/-- A handler that started `command` after the calls of `tr` and wrote beyond
an array while it read the output. -/
def overran (w : World) (tr : List Event) (command : List Nat) : Run :=
  undefined_after (w.call tr (.popen command)).1

/-- The text `report_command_failure` builds in `buffer`: `snprintf` keeps at
most `MAXBUFLEN - 1` characters of the head, and the `strcat` calls that follow
append the rest. -/
def command_failure (MAXBUFLEN : Nat) (command : List Nat)
    (stdErrText additional : Option (List Nat)) : List Nat :=
  (cstr "\x7b\"errorText\": \"Unable to run command: " ++ escape MAXBUFLEN command ++
      cstr "\"").take (MAXBUFLEN - 1) ++
    (match stdErrText with
     | some t => cstr ", \"stdErr\": " ++ t
     | none => []) ++
    cstr ", \"returnValue\": false, \"errorCode\": -1" ++
    (match additional with
     | some t => cstr ", " ++ t
     | none => []) ++
    cstr "\x7d"

/-- The function `report_command_failure`: the text built in
`buffer[MAXBUFLEN]` and the reply.  The `strcat` calls append without a test,
and `json_escape_str` writes `esc_buffer[MAXBUFLEN]`. -/
def report_command_failure (w : World) (MAXBUFLEN : Nat) (tr : List Event)
    (command : List Nat) (stdErrText additional : Option (List Nat)) : Run :=
  if escape_within MAXBUFLEN command then
    reply_buffer w MAXBUFLEN tr (command_failure MAXBUFLEN command stdErrText additional)
  else undefined_after tr

/-- The function `simple_command`, with `run_command_buffer[MAXBUFLEN]`. -/
def simple_command (w : World) (MAXLINLEN MAXBUFLEN stray : Nat) (command : List Nat) : Run :=
  -- strcpy(run_command_buffer, "{\"stdOut\": [")
  if fits MAXBUFLEN (cstr "\x7b\"stdOut\": [") then
    match run_command w MAXLINLEN MAXBUFLEN stray [] (cstr "\x7b\"stdOut\": [") command true with
    | none => hung w [] command
    | some r =>
      if r.overrun then overran w [] command
      else if r.ret then
        -- strcat(run_command_buffer, "], \"returnValue\": true}")
        reply_buffer w MAXBUFLEN r.trace
          (r.run_command_buffer ++ cstr "], \"returnValue\": true\x7d")
      -- strcat(run_command_buffer, "]")
      else if fits MAXBUFLEN (r.run_command_buffer ++ cstr "]") then
        report_command_failure w MAXBUFLEN r.trace command
          (some ((r.run_command_buffer ++ cstr "]").drop 11)) none
      else undefined_after r.trace
  else undefined_after []

/-- The fixed reply
`{"returnValue": false, "errorCode": -1, "errorText": "<errorText>"}`. -/
def fixed_failure (errorText : List Nat) : List Nat :=
  cstr "\x7b\"returnValue\": false, \"errorCode\": -1, \"errorText\": \"" ++ errorText ++
    cstr "\"\x7d"

/-! ## Single values -/

/-- The function `read_single_line`; it writes into `buffer[MAXBUFLEN]` and,
through `json_escape_str`, into `esc_buffer[MAXBUFLEN]`. -/
def read_single_line (w : World) (MAXLINLEN MAXBUFLEN : Nat) (file : List Nat) : Run :=
  let fp := w.call [] (.fopen file (cstr "r"))
  if !fp.2 then reply_buffer w MAXBUFLEN fp.1 (error_reply (cstr "Unable to open " ++ file))
  else
    let rd := w.call fp.1 (.fgets file)
    let got := if rd.2 then fgets (MAXLINLEN - 1) (w.content file) else none
    let buffer :=
      match got with
      | some line =>
        cstr "\x7b\"value\": \"" ++ escape MAXBUFLEN (c_string line) ++
          cstr "\", \"returnValue\": true \x7d"
      | none => error_reply (cstr "Unable to parse " ++ file)
    let within :=
      match got with
      | some line => escape_within MAXBUFLEN (c_string line)
      | none => true
    if within && fits MAXBUFLEN buffer then
      let cl := w.call rd.1 (.fclose file)
      if !cl.2 then reply_buffer w MAXBUFLEN cl.1 (error_reply (cstr "Unable to close " ++ file))
      else reply w cl.1 buffer
    else undefined_after rd.1

/-- The white space `fscanf` passes over. -/
def is_space (b : Nat) : Bool := decide (b = 32 ∨ (9 ≤ b ∧ b ≤ 13))

/-- The value of a run of decimal digits. -/
def digits_value (ds : List Nat) : Nat := ds.foldl (fun acc d => acc * 10 + (d - 48)) 0

/-- The largest value of a C `int` of 32 bits. -/
def INT_MAX : Int := 2147483647

/-- The least value of a C `int` of 32 bits. -/
def INT_MIN : Int := -2147483648

/-- What `fscanf(fp, "%d", &value)` does with a stream. -/
inductive scanned where
  | no_match
  | stored (value : Int)
  | out_of_range
deriving Repr, DecidableEq

/-- C `fscanf(fp, "%d", &value)` on a stream that delivers `content`: white
space, an optional sign and at least one digit.  Without a digit nothing is
stored and the call does not return 1.  A number within the range of `int` is
stored in `value`; for a number that `int` cannot represent the behaviour is
undefined. -/
def fscanf_d (content : List Nat) : scanned :=
  let s := content.dropWhile is_space
  let negative := decide (s.head? = some 45)
  let s1 := if s.head? = some 45 ∨ s.head? = some 43 then s.drop 1 else s
  let ds := s1.takeWhile (fun b => decide (48 ≤ b ∧ b ≤ 57))
  let value : Int := if negative then - (digits_value ds : Int) else (digits_value ds : Int)
  if ds = [] then .no_match
  else if INT_MIN ≤ value ∧ value ≤ INT_MAX then .stored value
  else .out_of_range

/-- The characters `%d` prints for a value. -/
def sprintf_d (value : Int) : List Nat := cstr (toString value)

/-- The function `read_single_integer`; it writes into `buffer[MAXBUFLEN]`. -/
def read_single_integer (w : World) (MAXBUFLEN : Nat) (file : List Nat) : Run :=
  let fp := w.call [] (.fopen file (cstr "r"))
  if !fp.2 then reply_buffer w MAXBUFLEN fp.1 (error_reply (cstr "Unable to open " ++ file))
  else
    let rd := w.call fp.1 (.fscanf file)
    let got := if rd.2 then fscanf_d (w.content file) else .no_match
    let buffer :=
      match got with
      | .stored value =>
        cstr "\x7b\"value\": " ++ sprintf_d value ++ cstr ", \"returnValue\": true \x7d"
      | _ => error_reply (cstr "Unable to parse " ++ file)
    if got ≠ .out_of_range && fits MAXBUFLEN buffer then
      let cl := w.call rd.1 (.fclose file)
      if !cl.2 then reply_buffer w MAXBUFLEN cl.1 (error_reply (cstr "Unable to close " ++ file))
      else reply w cl.1 buffer
    else undefined_after rd.1
/-! ## The remaining handlers -/

/-- The handler `dummy_method`. -/
def dummy_method (w : World) : Run := reply w [] (cstr "\x7b\"returnValue\": true\x7d")

/-- The handler `get_proc_cpuinfo_method`. -/
def get_proc_cpuinfo_method (w : World) (MAXLINLEN MAXBUFLEN stray : Nat) : Run :=
  simple_command w MAXLINLEN MAXBUFLEN stray (cstr "/bin/cat /proc/cpuinfo 2>&1")

/-- The handler `get_proc_meminfo_method`. -/
def get_proc_meminfo_method (w : World) (MAXLINLEN MAXBUFLEN stray : Nat) : Run :=
  simple_command w MAXLINLEN MAXBUFLEN stray (cstr "/bin/cat /proc/meminfo 2>&1")

/-- The handler `get_proc_loadavg_method`. -/
def get_proc_loadavg_method (w : World) (MAXLINLEN MAXBUFLEN stray : Nat) : Run :=
  simple_command w MAXLINLEN MAXBUFLEN stray (cstr "/bin/cat /proc/loadavg 2>&1")

/-- The handler `get_omap34xx_temp_method`. -/
def get_omap34xx_temp_method (w : World) (MAXBUFLEN : Nat) : Run :=
  read_single_integer w MAXBUFLEN (cstr "/sys/devices/platform/omap34xx_temp/temp1_input")

/-- The handler `get_tmp105_temp_method`. -/
def get_tmp105_temp_method (w : World) (MAXBUFLEN : Nat) : Run :=
  read_single_integer w MAXBUFLEN (cstr "/sys/devices/platform/tmp105/celsius")

/-- The handler `get_tcp_congestion_control_method`. -/
def get_tcp_congestion_control_method (w : World) (MAXLINLEN MAXBUFLEN stray : Nat) : Run :=
  simple_command w MAXLINLEN MAXBUFLEN stray
    (cstr "/bin/cat /proc/sys/net/ipv4/tcp_congestion_control 2>&1")

/-- The file `set_tcp_congestion_control_method` writes. -/
def tcp_congestion_control : List Nat := cstr "/proc/sys/net/ipv4/tcp_congestion_control"

/-- The end of `set_tcp_congestion_control_method` when `error` is set:
`errorText[MAXLINLEN]` has taken `errorText`, and
`sprintf(buffer, "{\"errorText\": \"%s\", ...}", errorText)` precedes the reply. -/
def reply_error (w : World) (MAXLINLEN MAXBUFLEN : Nat) (tr : List Event)
    (errorText : List Nat) : Run :=
  if fits MAXLINLEN errorText then reply_buffer w MAXBUFLEN tr (error_reply errorText)
  else undefined_after tr

/-- The handler `set_tcp_congestion_control_method`; it writes into
`buffer[MAXBUFLEN]`, `filename[MAXLINLEN]` and `errorText[MAXLINLEN]`. -/
def set_tcp_congestion_control_method (w : World) (MAXLINLEN MAXBUFLEN : Nat)
    (object : json_t) : Run :=
  -- sprintf(buffer, "{\"returnValue\": true }")
  if fits MAXBUFLEN true_reply then
    match json_find_first_label object (cstr "value") with
    | some (.JSON_STRING text) =>
      -- sprintf(filename, "/proc/sys/net/ipv4/tcp_congestion_control")
      if fits MAXLINLEN tcp_congestion_control then
        let fp := w.call [] (.fopen tcp_congestion_control (cstr "w"))
        if !fp.2 then
          reply_error w MAXLINLEN MAXBUFLEN fp.1 (cstr "Unable to open " ++ tcp_congestion_control)
        else
          let wr := w.call fp.1 (.fputs tcp_congestion_control (c_string text))
          -- sprintf(errorText, "Unable to write to %s", filename)
          if wr.2 || fits MAXLINLEN (cstr "Unable to write to " ++ tcp_congestion_control) then
            let cl := w.call wr.1 (.fclose tcp_congestion_control)
            if !cl.2 then
              reply_error w MAXLINLEN MAXBUFLEN cl.1
                (cstr "Unable to close " ++ tcp_congestion_control)
            else if !wr.2 then
              reply_error w MAXLINLEN MAXBUFLEN cl.1
                (cstr "Unable to write to " ++ tcp_congestion_control)
            else reply w cl.1 true_reply
          else undefined_after wr.1
      else undefined_after []
    | _ => reply w [] (invalid_reply (cstr "value"))
  else undefined_after []

/-- The handler `get_tcp_allowed_congestion_control_method`. -/
def get_tcp_allowed_congestion_control_method (w : World) (MAXLINLEN MAXBUFLEN stray : Nat) :
    Run :=
  simple_command w MAXLINLEN MAXBUFLEN stray
    (cstr "/bin/cat /proc/sys/net/ipv4/tcp_allowed_congestion_control 2>&1")

/-- The handler `get_tcp_available_congestion_control_method`. -/
def get_tcp_available_congestion_control_method (w : World) (MAXLINLEN MAXBUFLEN stray : Nat) :
    Run :=
  simple_command w MAXLINLEN MAXBUFLEN stray
    (cstr "/bin/cat /proc/sys/net/ipv4/tcp_available_congestion_control 2>&1")

/-- The handler `get_scaling_cur_freq_method`. -/
def get_scaling_cur_freq_method (w : World) (MAXBUFLEN : Nat) : Run :=
  read_single_integer w MAXBUFLEN (cstr "/sys/devices/system/cpu/cpu0/cpufreq/scaling_cur_freq")

/-- The handler `get_scaling_governor_method`. -/
def get_scaling_governor_method (w : World) (MAXLINLEN MAXBUFLEN : Nat) : Run :=
  read_single_line w MAXLINLEN MAXBUFLEN
    (cstr "/sys/devices/system/cpu/cpu0/cpufreq/scaling_governor")

/-- The body shared by `unstick_cpufreq_params_method` and
`unstick_compcache_config_method`: `sprintf(buffer, "{\"returnValue\": true }")`,
`sprintf(filename, ...)`, `(void)unlink(filename)` and the reply. -/
def unstick (w : World) (MAXLINLEN MAXBUFLEN : Nat) (filename : List Nat) : Run :=
  if fits MAXBUFLEN true_reply && fits MAXLINLEN filename then
    reply w (w.call [] (.unlink filename)).1 true_reply
  else undefined_after []

/-- The handler `unstick_cpufreq_params_method`. -/
def unstick_cpufreq_params_method (w : World) (MAXLINLEN MAXBUFLEN : Nat) : Run :=
  unstick w MAXLINLEN MAXBUFLEN govnah_settings

/-- The handler `get_time_in_state_method`. -/
def get_time_in_state_method (w : World) (MAXLINLEN MAXBUFLEN stray : Nat) : Run :=
  simple_command w MAXLINLEN MAXBUFLEN stray
    (cstr "/bin/cat /sys/devices/system/cpu/cpu0/cpufreq/stats/time_in_state 2>&1")

/-- The handler `get_total_trans_method`. -/
def get_total_trans_method (w : World) (MAXLINLEN MAXBUFLEN stray : Nat) : Run :=
  simple_command w MAXLINLEN MAXBUFLEN stray
    (cstr "/bin/cat /sys/devices/system/cpu/cpu0/cpufreq/stats/total_trans 2>&1")

/-- The handler `get_trans_table_method`. -/
def get_trans_table_method (w : World) (MAXLINLEN MAXBUFLEN stray : Nat) : Run :=
  simple_command w MAXLINLEN MAXBUFLEN stray
    (cstr "/bin/cat /sys/devices/system/cpu/cpu0/cpufreq/stats/trans_table 2>&1")

/-- The command that asks `/proc/ramzswap` for the memory limit in effect. -/
def memlimit_probe : List Nat :=
  cstr "/bin/grep MemLimit /proc/ramzswap 2>/dev/null | awk \x27\x7bprint $2\x7d\x27"

/-- The reply of `get_compcache_config_method` when compcache is enabled. -/
def compcache_enabled_reply (memlimit : List Nat) : List Nat :=
  cstr "\x7b\"params\": [\x7b\"name\":\"compcache_enabled\", \"value\": \"1\", \"writeable\": true\x7d, \x7b\"name\": \"compcache_memlimit\", \"value\": \"" ++
    memlimit ++ cstr "\", \"writeable\": true\x7d], \"returnValue\": true \x7d"

/-- The reply of `get_compcache_config_method` when compcache is disabled. -/
def compcache_disabled_reply : List Nat :=
  cstr "\x7b\"params\": [\x7b\"name\":\"compcache_enabled\", \"value\": \"0\", \"writeable\": true\x7d, \x7b\"name\": \"compcache_memlimit\", \"value\": \"16384\", \"writeable\": true\x7d], \"returnValue\": true \x7d"

/-- The handler `get_compcache_config_method`; it writes into
`buffer[MAXBUFLEN]`, `run_command_buffer[MAXBUFLEN]` and the local
`command[MAXLINLEN]`. -/
def get_compcache_config_method (w : World) (MAXLINLEN MAXBUFLEN stray : Nat) : Run :=
  -- sprintf(buffer, "{\"returnValue\": true }"); strcpy(run_command_buffer, "/lib/modules/")
  if fits MAXBUFLEN true_reply && fits MAXBUFLEN (cstr "/lib/modules/") then
    match run_command w MAXLINLEN MAXBUFLEN stray [] (cstr "/lib/modules/")
        (cstr "/bin/uname -r") false with
    | none => hung w [] (cstr "/bin/uname -r")
    | some un =>
      if un.overrun then overran w [] (cstr "/bin/uname -r")
      else if !un.ret then
        reply w un.trace (fixed_failure (cstr "Unable to determine kernel version"))
      else
        let command :=
          cstr "/usr/bin/test -f " ++ un.run_command_buffer ++ cstr "/extra/ramzswap.ko"
        -- sprintf(command, "/usr/bin/test -f %s/extra/ramzswap.ko", run_command_buffer)
        if fits MAXLINLEN command then
          match run_command w MAXLINLEN MAXBUFLEN stray un.trace [] command false with
          | none => hung w un.trace command
          | some ts =>
            if ts.overrun then overran w un.trace command
            else if !ts.ret then
              reply_buffer w MAXBUFLEN ts.trace
                (cstr "\x7b\"params\": [], \"returnValue\": true \x7d")
            else
              match run_command w MAXLINLEN MAXBUFLEN stray ts.trace [] memlimit_probe
                  false with
              | none => hung w ts.trace memlimit_probe
              | some pr =>
                if pr.overrun then overran w ts.trace memlimit_probe
                else if pr.ret && decide (pr.run_command_buffer ≠ []) then
                  reply_buffer w MAXBUFLEN pr.trace
                    (compcache_enabled_reply pr.run_command_buffer)
                else reply_buffer w MAXBUFLEN pr.trace compcache_disabled_reply
        else undefined_after un.trace
  else undefined_after []

/-- One command of `set_compcache_config_method` (for instance lines
1134-1140): the text `command` is stored in the local `command[MAXLINLEN]`,
`run_command_buffer` is set to `{"stdOut": [`, `run` is run, and when it fails
`]` is appended and the failure of `command` is reported with what was
captured. -/
def run_step (w : World) (MAXLINLEN MAXBUFLEN stray : Nat) (tr : List Event)
    (run command : List Nat) : Flow (List Event) :=
  -- sprintf(command, ...); strcpy(run_command_buffer, "{\"stdOut\": [")
  if fits MAXLINLEN command && fits MAXBUFLEN (cstr "\x7b\"stdOut\": [") then
    match run_command w MAXLINLEN MAXBUFLEN stray tr (cstr "\x7b\"stdOut\": [") run true with
    | none => .returned (hung w tr run)
    | some r =>
      if r.overrun then .returned (overran w tr run)
      else if !r.ret then
        -- strcat(run_command_buffer, "]")
        if fits MAXBUFLEN (r.run_command_buffer ++ cstr "]") then
          .returned (report_command_failure w MAXBUFLEN r.trace command
            (some ((r.run_command_buffer ++ cstr "]").drop 11)) none)
        else .returned (undefined_after r.trace)
      else .next r.trace
  else .returned (undefined_after tr)

/-- Consecutive commands, each a pair of the string run and the string held in
`command`, up to the first that fails. -/
def run_steps (w : World) (MAXLINLEN MAXBUFLEN stray : Nat) :
    List (List Nat × List Nat) → List Event → Flow (List Event)
  | [], tr => .next tr
  | step :: rest, tr =>
    match run_step w MAXLINLEN MAXBUFLEN stray tr step.1 step.2 with
    | .returned r => .returned r
    | .next tr1 => run_steps w MAXLINLEN MAXBUFLEN stray rest tr1

/-- The commands of the branch `!enabled && enable` of
`set_compcache_config_method` (lines 1127-1161). -/
def enable_commands (directory memlimit : List Nat) : List (List Nat × List Nat) :=
  [(cstr "/sbin/swapoff -a 2>&1", cstr "/sbin/swapoff -a 2>&1"),
   (cstr "/sbin/insmod " ++ directory ++ cstr "/extra/xvmalloc.ko 2>&1",
    cstr "/sbin/insmod " ++ directory ++ cstr "/extra/xvmalloc.ko 2>&1"),
   (cstr "/sbin/insmod " ++ directory ++
      cstr "/extra/ramzswap.ko backing_swap=/dev/mapper/store-swap memlimit_kb=" ++ memlimit ++
      cstr " 2>&1",
    cstr "/sbin/insmod " ++ directory ++
      cstr "/extra/ramzswap.ko backing_swap=/dev/mapper/store-swap memlimit_kb=" ++ memlimit ++
      cstr " 2>&1"),
   (cstr "/bin/sleep 3 2>&1", cstr "/bin/sleep 3 2>&1"),
   (cstr "/sbin/swapon /dev/ramzswap0 -p 0 2>&1", cstr "/sbin/swapon /dev/ramzswap0 -p 0 2>&1")]

/-- The commands of the branch `enabled && !enable` of
`set_compcache_config_method` (lines 1164-1191); the third is run without the
redirection that `command` holds. -/
def disable_commands : List (List Nat × List Nat) :=
  [(cstr "/sbin/swapoff -a 2>&1", cstr "/sbin/swapoff -a 2>&1"),
   (cstr "/sbin/rmmod ramzswap 2>&1", cstr "/sbin/rmmod ramzswap 2>&1"),
   (cstr "/sbin/rmmod xvmalloc", cstr "/sbin/rmmod xvmalloc 2>&1"),
   (cstr "/sbin/swapon /dev/mapper/store-swap -p 0 2>&1",
    cstr "/sbin/swapon /dev/mapper/store-swap -p 0 2>&1")]

/-- The handler `set_compcache_config_method`; it writes into
`buffer[MAXBUFLEN]`, `run_command_buffer[MAXBUFLEN]`, `directory[MAXLINLEN]`
and the local `command[MAXLINLEN]`.  The reply of success is the text `buffer`
holds since the handler was entered. -/
def set_compcache_config_method (w : World) (MAXLINLEN MAXBUFLEN stray fuel : Nat)
    (object : json_t) : Run :=
  -- sprintf(buffer, "{\"returnValue\": true }")
  if fits MAXBUFLEN true_reply then
    match json_find_first_label object (cstr "compcacheConfig") with
    | some (.JSON_ARRAY compcacheConfig) =>
      match compcache_entry_loop fuel compcacheConfig ⟨false, none⟩ with
      | none => ⟨[], none, false⟩
      | some cfg =>
        match cfg.memlimit with
        | none => reply w [] (invalid_reply (cstr "memlimit"))
        | some memlimit =>
          -- strcpy(run_command_buffer, "/lib/modules/")
          if fits MAXBUFLEN (cstr "/lib/modules/") then
            match run_command w MAXLINLEN MAXBUFLEN stray [] (cstr "/lib/modules/")
                (cstr "/bin/uname -r") false with
            | none => hung w [] (cstr "/bin/uname -r")
            | some un =>
              if un.overrun then overran w [] (cstr "/bin/uname -r")
              else if !un.ret then
                reply w un.trace (fixed_failure (cstr "Unable to determine kernel version"))
              -- strcpy(directory, run_command_buffer)
              else if fits MAXLINLEN un.run_command_buffer then
                match run_command w MAXLINLEN MAXBUFLEN stray un.trace [] memlimit_probe
                    false with
                | none => hung w un.trace memlimit_probe
                | some pr =>
                  if pr.overrun then overran w un.trace memlimit_probe
                  else
                    let enabled := pr.ret && decide (pr.run_command_buffer ≠ [])
                    if !enabled && cfg.enable then
                      match run_steps w MAXLINLEN MAXBUFLEN stray
                          (enable_commands un.run_command_buffer memlimit) pr.trace with
                      | .returned r => r
                      | .next tr => reply w tr true_reply
                    else if enabled && !cfg.enable then
                      match run_steps w MAXLINLEN MAXBUFLEN stray disable_commands
                          pr.trace with
                      | .returned r => r
                      | .next tr => reply w tr true_reply
                    else reply w pr.trace true_reply
              else undefined_after un.trace
          else undefined_after []
    | _ => reply w [] (invalid_reply (cstr "compcacheConfig array"))
  else undefined_after []

/-- The handler `unstick_compcache_config_method`. -/
def unstick_compcache_config_method (w : World) (MAXLINLEN MAXBUFLEN : Nat) : Run :=
  unstick w MAXLINLEN MAXBUFLEN govnah_compcache

/-- The end of `getProfiles_method` and `setProfile_method`: the payload is
formatted into `line[MAXLINLEN]`, then
`if (!LSCall(...)) goto error; return true;`.  The answer to the caller is
sent later, by the callback, with `LSMessageRespond`. -/
def launch (w : World) (MAXLINLEN : Nat) (payload : List Nat) : Run :=
  if fits MAXLINLEN payload then
    ⟨(w.call [] (.LSCall (cstr "palm://com.palm.applicationManager/launch") payload)).1,
     some (w.call [] (.LSCall (cstr "palm://com.palm.applicationManager/launch") payload)).2,
     false⟩
  else undefined_after []

/-- The handler `getProfiles_method`. -/
def getProfiles_method (w : World) (MAXLINLEN : Nat) (object : json_t) : Run :=
  match json_find_first_label object (cstr "returnid") with
  | some (.JSON_STRING text) =>
    launch w MAXLINLEN
      (cstr "\x7b\"id\":\"org.webosinternals.govnah\",\"params\":\x7b\"type\":\"get-profiles\",\"returnid\":\"" ++
        c_string text ++ cstr "\"\x7d\x7d")
  | _ => reply w [] (invalid_reply (cstr "returnid"))

/-- The handler `setProfile_method`. -/
def setProfile_method (w : World) (MAXLINLEN : Nat) (object : json_t) : Run :=
  match json_find_first_label object (cstr "profileid") with
  | some (.JSON_NUMBER text) =>
    launch w MAXLINLEN
      (cstr "\x7b\"id\":\"org.webosinternals.govnah\",\"params\":\x7b\"type\":\"set-profile\",\"profileid\":" ++
        c_string text ++ cstr "\x7d\x7d")
  | _ => reply w [] (invalid_reply (cstr "profileid"))

/-- The parameters a handler runs with: the two buffer sizes of
`luna_methods.h`, the byte before `run_command_buffer`, and the fuel of the
loops that may not end. -/
structure Setting where
  MAXLINLEN : Nat
  MAXBUFLEN : Nat
  stray : Nat
  fuel : Nat

/-- The table `luna_methods`: the handler bound to each method name. -/
def luna_methods : List (String × (World → Setting → json_t → Run)) :=
  [("status", fun w _ _ => dummy_method w),
   ("get_proc_cpuinfo", fun w c _ => get_proc_cpuinfo_method w c.MAXLINLEN c.MAXBUFLEN c.stray),
   ("get_proc_meminfo", fun w c _ => get_proc_meminfo_method w c.MAXLINLEN c.MAXBUFLEN c.stray),
   ("get_proc_loadavg", fun w c _ => get_proc_loadavg_method w c.MAXLINLEN c.MAXBUFLEN c.stray),
   ("get_omap34xx_temp", fun w c _ => get_omap34xx_temp_method w c.MAXBUFLEN),
   ("get_tmp105_temp", fun w c _ => get_tmp105_temp_method w c.MAXBUFLEN),
   ("get_tcp_congestion_control",
    fun w c _ => get_tcp_congestion_control_method w c.MAXLINLEN c.MAXBUFLEN c.stray),
   ("set_tcp_congestion_control",
    fun w c o => set_tcp_congestion_control_method w c.MAXLINLEN c.MAXBUFLEN o),
   ("get_tcp_allowed_congestion_control",
    fun w c _ => get_tcp_allowed_congestion_control_method w c.MAXLINLEN c.MAXBUFLEN c.stray),
   ("get_tcp_available_congestion_control",
    fun w c _ => get_tcp_available_congestion_control_method w c.MAXLINLEN c.MAXBUFLEN c.stray),
   ("get_scaling_cur_freq", fun w c _ => get_scaling_cur_freq_method w c.MAXBUFLEN),
   ("get_scaling_governor", fun w c _ => get_scaling_governor_method w c.MAXLINLEN c.MAXBUFLEN),
   ("get_cpufreq_params", fun w c o => get_cpufreq_params_method w c.MAXLINLEN c.MAXBUFLEN o),
   ("set_cpufreq_params", fun w _ o => set_cpufreq_params_method w o),
   ("stick_cpufreq_params",
    fun w c o => stick_cpufreq_params_method w c.MAXLINLEN c.MAXBUFLEN c.fuel o),
   ("unstick_cpufreq_params",
    fun w c _ => unstick_cpufreq_params_method w c.MAXLINLEN c.MAXBUFLEN),
   ("get_time_in_state", fun w c _ => get_time_in_state_method w c.MAXLINLEN c.MAXBUFLEN c.stray),
   ("get_total_trans", fun w c _ => get_total_trans_method w c.MAXLINLEN c.MAXBUFLEN c.stray),
   ("get_trans_table", fun w c _ => get_trans_table_method w c.MAXLINLEN c.MAXBUFLEN c.stray),
   ("get_compcache_config",
    fun w c _ => get_compcache_config_method w c.MAXLINLEN c.MAXBUFLEN c.stray),
   ("set_compcache_config",
    fun w c o => set_compcache_config_method w c.MAXLINLEN c.MAXBUFLEN c.stray c.fuel o),
   ("stick_compcache_config",
    fun w c o => stick_compcache_config_method w c.MAXLINLEN c.MAXBUFLEN c.fuel o),
   ("unstick_compcache_config",
    fun w c _ => unstick_compcache_config_method w c.MAXLINLEN c.MAXBUFLEN),
   ("getProfiles", fun w c o => getProfiles_method w c.MAXLINLEN o),
   ("setProfile", fun w c o => setProfile_method w c.MAXLINLEN o)]

/-! ## Vocabulary of the properties of commands and replies -/

/-- The commands started in a trace, in order. -/
def commands : List Event → List (List Nat)
  | [] => []
  | ev :: rest =>
    match ev.call with
    | .popen command => command :: commands rest
    | _ => commands rest

/-- The calls of commands that start and exit with status zero, one after the
other. -/
def ran : List (List Nat) → List Event
  | [] => []
  | command :: rest => ⟨.popen command, true⟩ :: ⟨.pclose command, true⟩ :: ran rest

/-- The body of a line of output followed by its newline. -/
def with_newline (body : List Nat) : List Nat := body ++ [10]

/-- The variable `governor` of `get_cpufreq_params_method`. -/
def requested_governor (object : json_t) : Option (List Nat) :=
  match json_find_first_label object (cstr "governor") with
  | some (.JSON_STRING text) => some (c_string text)
  | _ => none

/-- The directory `get_cpufreq_params_method` lists. -/
def param_directory (object : json_t) : List Nat :=
  match requested_governor object with
  | some g => cpufreqdir ++ cstr "/" ++ g
  | none => cpufreqdir

/-- One object of the `params` array. -/
structure ParamEntry where
  name : List Nat
  writeable : Bool
  value : List Nat
deriving Repr, DecidableEq

/-- The text of the objects of a `params` array, `first` telling whether the
array is still empty. -/
def render_params (first : Bool) : List ParamEntry → List Nat
  | [] => []
  | e :: rest => param_object first e.name e.writeable e.value ++ render_params false rest

/-- The successful reply of `get_cpufreq_params_method` for a list of
parameters. -/
def params_reply (entries : List ParamEntry) (governor : Option (List Nat)) : List Nat :=
  cstr "\x7b\"params\": [" ++ render_params true entries ++ cstr "], \"returnValue\": " ++
    cstr "true" ++
    (match governor with
     | some g => cstr ", \"governor\": \"" ++ g ++ cstr "\""
     | none => []) ++ cstr "\x7d"

/-- The reply of `get_cpufreq_params_method` when the directory cannot be
opened. -/
def no_directory_reply (directory : List Nat) : List Nat :=
  cstr "\x7b\"errorText\": \"Unable to open " ++ directory ++
    cstr "\", \"returnValue\": false \x7d"


/-! ## Vocabulary of the properties of replies -/

/-- Whether `text` begins with `pattern`. -/
def starts_with : List Nat → List Nat → Bool
  | [], _ => true
  | _ :: _, [] => false
  | p :: ps, t :: ts => decide (p = t) && starts_with ps ts

/-- Whether `pattern` stands somewhere in `text`. -/
def occurs (pattern : List Nat) : List Nat → Bool
  | [] => starts_with pattern []
  | t :: ts => starts_with pattern (t :: ts) || occurs pattern ts

/-- A reply that holds `"returnValue": true`. -/
def affirmative (text : List Nat) : Prop := occurs (cstr "\"returnValue\": true") text = true

/-- A reply that holds `"returnValue": false, "errorCode": -1` and also
`"errorText": "`. -/
def failure_report (text : List Nat) : Prop :=
  occurs (cstr "\"returnValue\": false, \"errorCode\": -1") text = true ∧
  occurs (cstr "\"errorText\": \"") text = true

/-- A reply of one of the two kinds. -/
def settled (text : List Nat) : Prop := affirmative text ∨ failure_report text

/-- Every reply of a trace is of one of the two kinds. -/
def all_settled (tr : List Event) : Prop := ∀ text ∈ replies tr, settled text

/-- A request `{"governor": governor}`. -/
def governor_request (governor : String) : json_t :=
  .JSON_OBJECT [(cstr "governor", .JSON_STRING (cstr governor))]

/-! ## Vocabulary of the properties of the governor directory -/

/-- The world in which compcache is enabled (the MemLimit probe prints
`16384`), no other command prints anything on its standard output, and every
call succeeds but the `pclose` of `/sbin/rmmod xvmalloc`, which reports a
status that is not zero. -/
def busy_world : World :=
  { ok := fun _ c => decide (c ≠ .pclose (cstr "/sbin/rmmod xvmalloc")),
    readdir := fun _ => [], st_mode := fun _ => 0, content := fun _ => [],
    stdout := fun _ c => if c = memlimit_probe then cstr "16384\n" else [] }

/-- A world in which every call succeeds and every command prints one line of
600 double quotes. -/
def quote_world : World :=
  { ok := fun _ _ => true, readdir := fun _ => [], st_mode := fun _ => 0, content := fun _ => [],
    stdout := fun _ _ => with_newline (List.replicate 600 34) }

/-- A world in which every call succeeds and every directory lists one file,
of mode 0644 and holding `1`, whose name is
`x", "writeable": true, "value": "0"}, {"name": "stats`. -/
def quoted_world : World :=
  { ok := fun _ _ => true,
    readdir := fun _ =>
      [cstr "x\", \"writeable\": true, \"value\": \"0\"\x7d, \x7b\"name\": \"stats"],
    st_mode := fun _ => 0o100644,
    content := fun _ => cstr "1\n",
    stdout := fun _ _ => [] }

/-- The mask `S_IFMT` of the file type bits in `sys/stat.h`. -/
def S_IFMT : Nat := 0o170000

/-- The macro `S_ISDIR` of `sys/stat.h`: the mode is that of a directory. -/
def S_ISDIR (mode : Nat) : Bool := decide (mode &&& S_IFMT = S_IFDIR)

/-- A world in which every call succeeds and every directory lists one entry,
`ram0`, a block device (mode 060644) that delivers `10000`. -/
def device_world : World :=
  { ok := fun _ _ => true,
    readdir := fun _ => [cstr "ram0"],
    st_mode := fun _ => 0o060644,
    content := fun _ => cstr "10000\n",
    stdout := fun _ _ => [] }

/-- A world in which every call succeeds and every directory lists the files
`scaling_available_frequencies`, `scaling_available_governors`,
`scaling_governor` and `scaling_max_freq`, of mode 0444, each holding one line
of 300 digits. -/
def long_world : World :=
  { ok := fun _ _ => true,
    readdir := fun _ =>
      [cstr "scaling_available_frequencies", cstr "scaling_available_governors",
        cstr "scaling_governor", cstr "scaling_max_freq"],
    st_mode := fun _ => 0o100444,
    content := fun _ => List.replicate 300 48 ++ [10],
    stdout := fun _ _ => [] }

/-! ## Facts about memory and strings -/

theorem memcpy_take_past (mem : List Nat) (dst : Nat) (src : List Nat)
    (h : dst ≤ mem.length) :
    (memcpy mem dst src).take (dst + src.length) = mem.take dst ++ src := by
  unfold memcpy
  have h0 : dst - mem.length = 0 := by omega
  have hl : (mem.take dst ++ src).length = dst + src.length := by
    simp [List.length_take, Nat.min_eq_left h]
  rw [h0]
  simp only [List.replicate_zero, List.append_nil]
  rw [← hl, List.take_left']
  rfl

theorem memcpy_take_before (mem : List Nat) (dst : Nat) (src : List Nat)
    (h : dst ≤ mem.length) :
    (memcpy mem dst src).take dst = mem.take dst := by
  unfold memcpy
  have h0 : dst - mem.length = 0 := by omega
  have hl : (mem.take dst).length = dst := by
    simp [List.length_take, Nat.min_eq_left h]
  rw [h0]
  simp only [List.replicate_zero, List.append_nil, List.append_assoc]
  rw [List.take_append_of_le_length (by omega)]
  simp

theorem memcpy_length_ge (mem : List Nat) (dst : Nat) (src : List Nat) :
    dst + src.length ≤ (memcpy mem dst src).length := by
  unfold memcpy
  simp only [List.length_append, List.length_take, List.length_replicate, List.length_drop]
  omega

theorem memcpy_eq_append (mem : List Nat) (dst : Nat) (src : List Nat)
    (h : dst ≤ mem.length) :
    memcpy mem dst src = mem.take dst ++ src ++ mem.drop (dst + src.length) := by
  unfold memcpy
  have h0 : dst - mem.length = 0 := by omega
  rw [h0]
  simp

theorem c_string_append_nul (out rest : List Nat) (h : ∀ b ∈ out, b ≠ 0) :
    c_string (out ++ 0 :: rest) = out := by
  unfold c_string
  induction out with
  | nil => simp
  | cons b out ih =>
    have hb : b ≠ 0 := h b (by simp)
    have ih1 := ih (fun x hx => h x (by simp [hx]))
    simp only [List.cons_append, List.takeWhile_cons, hb, ne_eq, not_false_eq_true,
      decide_True, if_true, List.length_cons]
    simpa using ih1

theorem strlen_of_nul_free (s : List Nat) (h : ∀ b ∈ s, b ≠ 0) : strlen s = s.length := by
  unfold strlen
  induction s with
  | nil => simp
  | cons b s ih =>
    have hb : b ≠ 0 := h b (by simp)
    have ih1 := ih (fun x hx => h x (by simp [hx]))
    simp only [List.cons_append, List.takeWhile_cons, hb, ne_eq, not_false_eq_true,
      decide_True, if_true, List.length_cons]
    simpa using ih1

/-! ## The loop of `json_escape_str` -/

theorem copy_chunk_spec (str : List Nat) (st : EscState) (h : EscInv str st) :
    (copy_chunk str st).esc_buffer.take (copy_chunk str st).resultsPt = produced str st ∧
    (copy_chunk str st).resultsPt ≤ (copy_chunk str st).esc_buffer.length ∧
    (copy_chunk str st).resultsPt = (produced str st).length := by
  obtain ⟨h1, h2, h3⟩ := h
  have hlen : ((str.drop st.start_offset).take (st.pos - st.start_offset)).length
      = st.pos - st.start_offset := by
    simp only [List.length_take, List.length_drop]; omega
  unfold copy_chunk produced
  generalize (str.drop st.start_offset).take (st.pos - st.start_offset) = chunk at hlen ⊢
  by_cases hc : st.pos - st.start_offset > 0
  · rw [if_pos hc]
    simp only [EscState.write]
    rw [← hlen]
    refine ⟨memcpy_take_past _ _ _ h1, memcpy_length_ge _ _ _, ?_⟩
    simp only [List.length_append, List.length_take]; omega
  · rw [if_neg hc]
    have h0 : chunk = [] := by
      apply List.eq_nil_of_length_eq_zero; omega
    subst h0
    simp only [List.append_nil, List.length_take]
    exact ⟨trivial, h1, by omega⟩

theorem copy_chunk_pos (str : List Nat) (st : EscState) :
    (copy_chunk str st).pos = st.pos ∧ (copy_chunk str st).start_offset = st.start_offset := by
  unfold copy_chunk EscState.write
  split <;> simp

theorem escape_pair_length (c : Nat) (h : c = 8 ∨ c = 10 ∨ c = 13 ∨ c = 9 ∨ c = 34 ∨ c = 92) :
    (escape_pair c).length = 2 := by
  rcases h with h | h | h | h | h | h <;> subst h <;> rfl

theorem produced_next (str : List Nat) (st : EscState) (h : EscInv str st)
    (hp : st.pos < str.length) :
    produced str { st with pos := st.pos + 1 } = produced str st ++ [str.getD st.pos 0] := by
  obtain ⟨h1, h2, h3⟩ := h
  unfold produced
  simp only [List.append_assoc, List.append_cancel_left_eq]
  have e : st.pos + 1 - st.start_offset = (st.pos - st.start_offset) + 1 := by omega
  rw [e, List.take_succ]
  congr 1
  rw [List.getD_eq_getElem?_getD, List.getElem?_drop]
  have e2 : st.start_offset + (st.pos - st.start_offset) = st.pos := by omega
  rw [e2, List.getElem?_eq_getElem hp]
  simp

theorem escape_step_spec (str : List Nat) (st : EscState) (h : EscInv str st)
    (hp : st.pos < str.length) (hc : str.getD st.pos 0 ≠ 0) :
    EscInv str (escape_step str st (str.getD st.pos 0)) ∧
    produced str (escape_step str st (str.getD st.pos 0))
      = produced str st ++ emitted (str.getD st.pos 0) ∧
    (escape_step str st (str.getD st.pos 0)).pos = st.pos + 1 := by
  have hcc := copy_chunk_spec str st h
  have hcp := copy_chunk_pos str st
  have hnext := produced_next str st h hp
  obtain ⟨h1, h2, h3⟩ := h
  obtain ⟨c1, c2, c3⟩ := hcc
  generalize str.getD st.pos 0 = c at hc hnext ⊢
  unfold escape_step emitted
  rw [if_neg hc]
  by_cases hs : c = 8 ∨ c = 10 ∨ c = 13 ∨ c = 9 ∨ c = 34 ∨ c = 92
  · rw [if_pos hs, if_pos hs]
    have hl := escape_pair_length c hs
    have hge := memcpy_length_ge (copy_chunk str st).esc_buffer (copy_chunk str st).resultsPt
      (escape_pair c)
    have htk := memcpy_take_past (copy_chunk str st).esc_buffer (copy_chunk str st).resultsPt
      (escape_pair c) c2
    rw [hl] at hge htk
    refine ⟨⟨?_, ?_, ?_⟩, ?_, rfl⟩
    · exact hge
    · exact le_refl _
    · exact hp
    · simp only [produced, EscState.write, Nat.sub_self, List.take_zero, List.append_nil]
      rw [htk, c1]
      rfl
  · rw [if_neg hs, if_neg hs]
    by_cases hn : c < 32 ∨ c > 127
    · rw [if_pos hn, if_pos hn]
      have hge := memcpy_length_ge (copy_chunk str st).esc_buffer (copy_chunk str st).resultsPt
        (sprintf_u00 c)
      have htk := memcpy_take_before (copy_chunk str st).esc_buffer
        (copy_chunk str st).resultsPt (sprintf_u00 c) c2
      refine ⟨⟨?_, ?_, ?_⟩, ?_, rfl⟩
      · exact le_trans (Nat.le_add_right _ _) hge
      · exact le_refl _
      · exact hp
      · simp only [produced, EscState.write, Nat.sub_self, List.take_zero, List.append_nil]
        rw [htk, c1]
        rfl
    · rw [if_neg hn, if_neg hn]
      refine ⟨⟨h1, ?_, hp⟩, hnext, rfl⟩
      exact Nat.le_succ_of_le h2

theorem escaped_drop (str : List Nat) (n : Nat) (h : n < str.length) :
    escaped (str.drop n) = emitted (str.getD n 0) ++ escaped (str.drop (n + 1)) := by
  rw [List.drop_eq_getElem_cons h, List.getD_eq_getElem?_getD, List.getElem?_eq_getElem h]
  rfl

theorem escape_loop_spec (str : List Nat) (hz : ∀ b ∈ str, b ≠ 0) :
    ∀ (fuel : Nat) (st : EscState), EscInv str st → str.length - st.pos < fuel →
      ∃ st1, escape_loop str fuel st = some st1 ∧ EscInv str st1 ∧
        produced str st1 = produced str st ++ escaped (str.drop st.pos) := by
  intro fuel
  induction fuel with
  | zero => intro st _ hf; omega
  | succ fuel ih =>
    intro st hinv hf
    unfold escape_loop
    by_cases hp : st.pos < str.length
    · have hc : str.getD st.pos 0 ≠ 0 := by
        rw [List.getD_eq_getElem?_getD, List.getElem?_eq_getElem hp]
        exact hz _ (List.getElem_mem _)
      obtain ⟨s1, s2, s3⟩ := escape_step_spec str st hinv hp hc
      simp only [hc, ne_eq, not_false_eq_true, if_true]
      obtain ⟨st1, e1, e2, e3⟩ := ih _ s1 (by rw [s3]; omega)
      refine ⟨st1, e1, e2, ?_⟩
      rw [e3, s2, s3, escaped_drop str st.pos hp, List.append_assoc]
    · have hc : str.getD st.pos 0 = 0 := by
        rw [List.getD_eq_getElem?_getD, List.getElem?_eq_none (by omega)]
        rfl
      simp only [hc, ne_eq, not_true_eq_false, if_false, escape_step, if_true]
      refine ⟨st, rfl, hinv, ?_⟩
      rw [List.drop_eq_nil_of_le (by omega)]
      simp [escaped]

theorem emitted_nul_free (c : Nat) (hc : c ≠ 0) : ∀ b ∈ emitted c, b ≠ 0 := by
  unfold emitted
  by_cases hs : c = 8 ∨ c = 10 ∨ c = 13 ∨ c = 9 ∨ c = 34 ∨ c = 92
  · rw [if_pos hs]
    rcases hs with h | h | h | h | h | h <;> subst h <;> decide
  · rw [if_neg hs]
    split
    · simp
    · simpa using hc

theorem escaped_nul_free (s : List Nat) (hz : ∀ b ∈ s, b ≠ 0) : ∀ b ∈ escaped s, b ≠ 0 := by
  induction s with
  | nil => simp [escaped]
  | cons c s ih =>
    intro b hb
    simp only [escaped, List.mem_append] at hb
    rcases hb with hb | hb
    · exact emitted_nul_free c (hz c (by simp)) b hb
    · exact ih (fun x hx => hz x (by simp [hx])) b hb

/-- What a call of `json_escape_str` on a NUL-free string that passes the
length check leaves behind: the buffer starts with the contributions of the
input bytes followed by a NUL, `resultsPt` stands on that NUL, and the writes
reached at least one byte beyond it. -/
theorem json_escape_run_spec (MAXBUFLEN : Nat) (esc_buffer s : List Nat)
    (hz : ∀ b ∈ s, b ≠ 0) (hlen : s.length ≤ MAXBUFLEN) :
    ∃ st rest, json_escape_run MAXBUFLEN esc_buffer s = some st ∧
      st.esc_buffer = escaped s ++ 0 :: rest ∧
      st.resultsPt = (escaped s).length ∧
      st.resultsPt + 1 ≤ st.extent := by
  unfold json_escape_run
  rw [strlen_of_nul_free s hz]
  have hgt : ¬ (s.length > MAXBUFLEN) := by omega
  simp only [hgt, if_false]
  have hinv0 : EscInv s ⟨memcpy esc_buffer 0 [0], 1, 0, 0, 0⟩ :=
    ⟨Nat.zero_le _, le_refl _, Nat.zero_le _⟩
  obtain ⟨st1, e1, e2, e3⟩ := escape_loop_spec s hz (s.length + 1) _ hinv0
    (by simp only [Nat.sub_zero]; omega)
  rw [e1]
  have e4 : produced s st1 = escaped s := by
    rw [e3]; simp [produced]
  obtain ⟨c1, c2, c3⟩ := copy_chunk_spec s st1 e2
  rw [e4] at c1 c3
  refine ⟨_, ((copy_chunk s st1).esc_buffer.drop ((copy_chunk s st1).resultsPt + 1)), rfl, ?_,
    c3, ?_⟩
  · simp only [EscState.write]
    rw [memcpy_eq_append _ _ _ c2, c1]
    simp
  · simp only [EscState.write, List.length_singleton]
    exact Nat.le_max_right _ _

/-- The returned string is the concatenation of the contributions of the input
bytes, whatever the buffer held before. -/
theorem json_escape_str_eq (MAXBUFLEN : Nat) (esc_buffer s : List Nat)
    (hz : ∀ b ∈ s, b ≠ 0) (hlen : s.length ≤ MAXBUFLEN) :
    json_escape_str MAXBUFLEN esc_buffer s = some (escaped s) := by
  obtain ⟨st, rest, h1, h2, _, _⟩ := json_escape_run_spec MAXBUFLEN esc_buffer s hz hlen
  unfold json_escape_str
  rw [h1, Option.map_some', h2, c_string_append_nul _ _ (escaped_nul_free s hz)]

theorem escaped_eq_spec_image (s : List Nat)
    (hs : ∀ c ∈ s, (32 ≤ c ∧ c ≤ 127) ∨ c = 8 ∨ c = 10 ∨ c = 13 ∨ c = 9) :
    escaped s = (s.map spec_image).flatten := by
  induction s with
  | nil => rfl
  | cons c s ih =>
    have ih1 := ih (fun x hx => hs x (by simp [hx]))
    have hc := hs c (by simp)
    simp only [escaped, List.map_cons, List.flatten_cons, ih1]
    congr 1
    unfold emitted spec_image escape_pair
    rcases hc with ⟨h1, h2⟩ | h | h | h | h
    · by_cases h34 : c = 34
      · subst h34; rfl
      · by_cases h92 : c = 92
        · subst h92; rfl
        · have e1 : ¬ (c = 8 ∨ c = 10 ∨ c = 13 ∨ c = 9 ∨ c = 34 ∨ c = 92) := by omega
          have e2 : ¬ (c < 32 ∨ c > 127) := by omega
          have e3 : ¬ c = 8 := by omega
          have e4 : ¬ c = 10 := by omega
          have e5 : ¬ c = 13 := by omega
          have e6 : ¬ c = 9 := by omega
          rw [if_neg e1, if_neg e2]
          simp only [e3, e4, e5, e6, h34, h92, if_false]
    all_goals (subst h; rfl)

/-- Claim C1.  For a NUL-free string of at most `MAXBUFLEN` bytes, each a
printable byte (0x20..0x7F) or one of backspace, newline, carriage return and
tab, `json_escape_str` returns the concatenation, in order, of the images of
its bytes: the two-character escapes `\b`, `\n`, `\r`, `\t`, `\"`, `\\` for
backspace, newline, carriage return, tab, double quote and backslash, and the
byte itself otherwise.  In particular `a`, newline, `b` gives `a`, backslash,
`n`, `b`. -/
theorem json_escape_str_printable (MAXBUFLEN : Nat) (esc_buffer s : List Nat)
    (hz : ∀ b ∈ s, b ≠ 0) (hlen : s.length ≤ MAXBUFLEN)
    (hs : ∀ c ∈ s, (32 ≤ c ∧ c ≤ 127) ∨ c = 8 ∨ c = 10 ∨ c = 13 ∨ c = 9) :
    json_escape_str MAXBUFLEN esc_buffer s = some (s.map spec_image).flatten ∧
    (spec_image 8 = [92, 98] ∧ spec_image 10 = [92, 110] ∧ spec_image 13 = [92, 114] ∧
      spec_image 9 = [92, 116] ∧ spec_image 34 = [92, 34] ∧ spec_image 92 = [92, 92]) ∧
    (∀ c, c ≠ 8 → c ≠ 10 → c ≠ 13 → c ≠ 9 → c ≠ 34 → c ≠ 92 → spec_image c = [c]) ∧
    (3 ≤ MAXBUFLEN →
      json_escape_str MAXBUFLEN esc_buffer [97, 10, 98] = some [97, 92, 110, 98]) := by
  refine ⟨?_, by decide, ?_, ?_⟩
  · rw [json_escape_str_eq MAXBUFLEN esc_buffer s hz hlen, escaped_eq_spec_image s hs]
  · intro c h1 h2 h3 h4 h5 h6
    simp [spec_image, h1, h2, h3, h4, h5, h6]
  · intro h3
    rw [json_escape_str_eq MAXBUFLEN esc_buffer [97, 10, 98] (by decide) (by simpa using h3)]
    rfl

theorem json_escape_str_printable_witness :
    json_escape_str 3 [] [97, 10, 98] = some ([97, 10, 98].map spec_image).flatten ∧
    json_escape_str 3 [] [97, 10, 98] = some [97, 92, 110, 98] :=
  ⟨(json_escape_str_printable 3 [] [97, 10, 98] (by decide) (by decide) (by decide)).1,
   (json_escape_str_printable 3 [] [97, 10, 98] (by decide) (by decide) (by decide)).2.2.2
     (by decide)⟩

/-- Claim C2, evaluated on the code.  A byte outside printable ASCII leaves
nothing in the returned string: the six characters of `\u0001` are stored at
`resultsPt`, which is not moved past them, so what is written next (here the
final NUL) takes their place.  The input `0x01` gives the empty string and
`a`, `0x01`, `b` gives `ab`. -/
theorem json_escape_str_u00_lost (MAXBUFLEN : Nat) (esc_buffer : List Nat) :
    json_escape_str (MAXBUFLEN + 1) esc_buffer [1] = some [] ∧
    json_escape_str (MAXBUFLEN + 3) esc_buffer [97, 1, 98] = some [97, 98] ∧
    sprintf_u00 1 = cstr "\\u0001" ++ [0] := by
  refine ⟨?_, ?_, by decide⟩
  · rw [json_escape_str_eq (MAXBUFLEN + 1) esc_buffer [1] (by decide) (by simp)]
    rfl
  · rw [json_escape_str_eq (MAXBUFLEN + 3) esc_buffer [97, 1, 98] (by decide) (by simp)]
    rfl

theorem escaped_replicate_plain (n : Nat) : escaped (List.replicate n 97) = List.replicate n 97 := by
  induction n with
  | zero => rfl
  | succ n ih => simp only [List.replicate_succ, escaped, ih]; rfl

theorem escaped_replicate_quote (n : Nat) : (escaped (List.replicate n 34)).length = 2 * n := by
  induction n with
  | zero => rfl
  | succ n ih =>
    simp only [List.replicate_succ, escaped, List.length_append, ih]
    have : (emitted 34).length = 2 := by decide
    omega

/-- Claim C3, evaluated on the code.  A string of `MAXBUFLEN` letters `a`
passes the length check and the writes reach offset `MAXBUFLEN`, one byte
beyond a buffer of `MAXBUFLEN` bytes; a string of `MAXBUFLEN` double quotes
passes it too and the writes reach offset `2 * MAXBUFLEN`. -/
theorem json_escape_str_overrun (MAXBUFLEN : Nat) (esc_buffer : List Nat) :
    (∃ st, json_escape_run MAXBUFLEN esc_buffer (List.replicate MAXBUFLEN 97) = some st ∧
      MAXBUFLEN < st.extent) ∧
    (∃ st, json_escape_run MAXBUFLEN esc_buffer (List.replicate MAXBUFLEN 34) = some st ∧
      2 * MAXBUFLEN < st.extent) := by
  constructor
  · obtain ⟨st, rest, h1, _, h3, h4⟩ := json_escape_run_spec MAXBUFLEN esc_buffer
      (List.replicate MAXBUFLEN 97)
      (by intro b hb; rw [List.eq_of_mem_replicate hb]; decide) (by simp)
    rw [escaped_replicate_plain, List.length_replicate] at h3
    exact ⟨st, h1, by omega⟩
  · obtain ⟨st, rest, h1, _, h3, h4⟩ := json_escape_run_spec MAXBUFLEN esc_buffer
      (List.replicate MAXBUFLEN 34)
      (by intro b hb; rw [List.eq_of_mem_replicate hb]; decide) (by simp)
    rw [escaped_replicate_quote] at h3
    exact ⟨st, h1, by omega⟩

theorem emitted_cases (c : Nat) :
    (emitted c = [c] ∧ 32 ≤ c ∧ c ≤ 127 ∧ c ≠ 34 ∧ c ≠ 92) ∨
    (∃ x, emitted c = [92, x] ∧ x ∈ [98, 110, 114, 116, 34, 92] ∧ (c = 92 → x = 92) ∧
      (c = 8 ∨ c = 10 ∨ c = 13 ∨ c = 9 ∨ c = 34 ∨ c = 92)) ∨
    (emitted c = [] ∧ (c < 32 ∨ c > 127)) := by
  unfold emitted
  by_cases hs : c = 8 ∨ c = 10 ∨ c = 13 ∨ c = 9 ∨ c = 34 ∨ c = 92
  · rw [if_pos hs]
    right; left
    rcases hs with h | h | h | h | h | h <;> subst h
    · exact ⟨98, by decide⟩
    · exact ⟨110, by decide⟩
    · exact ⟨114, by decide⟩
    · exact ⟨116, by decide⟩
    · exact ⟨34, by decide⟩
    · exact ⟨92, by decide⟩
  · rw [if_neg hs]
    by_cases hn : c < 32 ∨ c > 127
    · rw [if_pos hn]; right; right; exact ⟨rfl, hn⟩
    · rw [if_neg hn]; left; exact ⟨rfl, by omega⟩

theorem emitted_range (c : Nat) : ∀ b ∈ emitted c, 32 ≤ b ∧ b ≤ 127 := by
  intro b hb
  rcases emitted_cases c with ⟨e, h1, h2, _⟩ | ⟨x, e, hx, _⟩ | ⟨e, _⟩
  · rw [e] at hb; simp only [List.mem_singleton] at hb; omega
  · rw [e] at hb
    simp only [List.mem_cons, List.mem_singleton, List.not_mem_nil, or_false] at hb hx
    omega
  · rw [e] at hb; simp at hb

theorem escaped_range (s : List Nat) : ∀ b ∈ escaped s, 32 ≤ b ∧ b ≤ 127 := by
  induction s with
  | nil => simp [escaped]
  | cons c s ih =>
    intro b hb
    simp only [escaped, List.mem_append] at hb
    rcases hb with hb | hb
    · exact emitted_range c b hb
    · exact ih b hb

theorem backslashes_escaped_ne (s : List Nat) :
    ∀ k : Nat, List.replicate (k + 1) 92 ++ escaped s ≠ s := by
  induction s with
  | nil => intro k h; simp [List.replicate_succ] at h
  | cons c s ih =>
    intro k h
    simp only [List.replicate_succ, List.cons_append, List.cons.injEq] at h
    obtain ⟨hc, h2⟩ := h
    subst hc
    apply ih (k + 1)
    have e : escaped (92 :: s) = 92 :: 92 :: escaped s := rfl
    rw [e] at h2
    have r : List.replicate (k + 1 + 1) 92 = List.replicate k 92 ++ [92, 92] := by
      rw [show k + 1 + 1 = k + 2 by omega, List.replicate_add]
      rfl
    rw [r, List.append_assoc]
    exact h2

theorem escaped_eq_self_iff (s : List Nat) :
    escaped s = s ↔ ∀ c ∈ s, 32 ≤ c ∧ c ≤ 127 ∧ c ≠ 34 ∧ c ≠ 92 := by
  induction s with
  | nil => simp [escaped]
  | cons c s ih =>
    simp only [escaped, List.mem_cons, forall_eq_or_imp]
    rcases emitted_cases c with ⟨e, hp⟩ | ⟨x, e, _, hx, hs⟩ | ⟨e, hn⟩
    · rw [e]
      simp only [List.singleton_append, List.cons.injEq, true_and]
      rw [ih]
      exact ⟨fun h => ⟨hp, h⟩, fun h => h.2⟩
    · rw [e]
      constructor
      · intro h
        exfalso
        simp only [List.cons_append, List.nil_append, List.cons.injEq] at h
        obtain ⟨hc, h2⟩ := h
        have hx92 : x = 92 := hx hc.symm
        subst hx92
        exact backslashes_escaped_ne s 0 h2
      · intro h
        exfalso
        omega
    · rw [e]
      constructor
      · intro h
        exfalso
        simp only [List.nil_append] at h
        have hm : c ∈ escaped s := by rw [h]; simp
        have := escaped_range s c hm
        omega
      · intro h
        exfalso
        omega

/-- Claim C4.  For a NUL-free string of at most `MAXBUFLEN` bytes, the empty
string included, `json_escape_str` returns the string itself if and only if
every byte of it lies in 0x20..0x7F and is neither a double quote nor a
backslash. -/
theorem json_escape_str_fixed_iff (MAXBUFLEN : Nat) (esc_buffer s : List Nat)
    (hz : ∀ b ∈ s, b ≠ 0) (hlen : s.length ≤ MAXBUFLEN) :
    json_escape_str MAXBUFLEN esc_buffer s = some s ↔
      ∀ c ∈ s, 32 ≤ c ∧ c ≤ 127 ∧ c ≠ 34 ∧ c ≠ 92 := by
  rw [json_escape_str_eq MAXBUFLEN esc_buffer s hz hlen, Option.some.injEq]
  exact escaped_eq_self_iff s

theorem json_escape_str_fixed_iff_witness :
    (json_escape_str 4 [] (cstr "ab_1") = some (cstr "ab_1") ↔
      ∀ c ∈ cstr "ab_1", 32 ≤ c ∧ c ≤ 127 ∧ c ≠ 34 ∧ c ≠ 92) ∧
    (json_escape_str 0 [] [] = some [] ↔
      ∀ c ∈ ([] : List Nat), 32 ≤ c ∧ c ≤ 127 ∧ c ≠ 34 ∧ c ≠ 92) :=
  ⟨json_escape_str_fixed_iff 4 [] (cstr "ab_1") (by decide) (by decide),
   json_escape_str_fixed_iff 0 [] [] (by decide) (by decide)⟩

theorem escaped_tokens (s : List Nat) :
    ∃ toks : List (List Nat), escaped s = toks.flatten ∧ ∀ t ∈ toks, safe_token t = true := by
  induction s with
  | nil => exact ⟨[], rfl, by simp⟩
  | cons c s ih =>
    obtain ⟨toks, h1, h2⟩ := ih
    rcases emitted_cases c with ⟨e, hp⟩ | ⟨x, e, hx, _⟩ | ⟨e, _⟩
    · refine ⟨[c] :: toks, by simp [escaped, e, h1], ?_⟩
      intro t ht
      simp only [List.mem_cons] at ht
      rcases ht with ht | ht
      · subst ht; simp only [safe_token]; exact decide_eq_true hp
      · exact h2 t ht
    · refine ⟨[92, x] :: toks, by simp [escaped, e, h1], ?_⟩
      intro t ht
      simp only [List.mem_cons] at ht
      rcases ht with ht | ht
      · subst ht; simp only [safe_token]; exact decide_eq_true hx
      · exact h2 t ht
    · exact ⟨toks, by simp [escaped, e, h1], h2⟩

/-- Claim C5.  For a NUL-free string of at most `MAXBUFLEN` bytes, the string
`json_escape_str` returns is a concatenation of tokens, each a single byte in
0x20..0x7F other than the double quote and the backslash, or one of the
escapes `\b`, `\n`, `\r`, `\t`, `\"`, `\\`, or `\u00XX`; and it holds no byte
below 0x20 or above 0x7F. -/
theorem json_escape_str_safe (MAXBUFLEN : Nat) (esc_buffer s : List Nat)
    (hz : ∀ b ∈ s, b ≠ 0) (hlen : s.length ≤ MAXBUFLEN) :
    ∃ toks : List (List Nat),
      json_escape_str MAXBUFLEN esc_buffer s = some toks.flatten ∧
      (∀ t ∈ toks, safe_token t = true) ∧
      (∀ b ∈ toks.flatten, 32 ≤ b ∧ b ≤ 127) := by
  obtain ⟨toks, h1, h2⟩ := escaped_tokens s
  refine ⟨toks, ?_, h2, ?_⟩
  · rw [json_escape_str_eq MAXBUFLEN esc_buffer s hz hlen, h1]
  · rw [← h1]; exact escaped_range s

theorem json_escape_str_safe_witness :
    ∃ toks : List (List Nat),
      json_escape_str 8 [] (cstr "a\"b\\") = some toks.flatten ∧
      (∀ t ∈ toks, safe_token t = true) ∧
      (∀ b ∈ toks.flatten, 32 ≤ b ∧ b ≤ 127) :=
  json_escape_str_safe 8 [] (cstr "a\"b\\") (by decide) (by decide)

/-! ## Validation -/

theorem stick_generic_loop_stuck (w : World) (MAXLINLEN MAXBUFLEN : Nat) (entry : json_t)
    (rest : List json_t) (h : ¬ valid_entry entry) :
    ∀ (fuel : Nat) (s : StickState),
      stick_generic_loop w MAXLINLEN MAXBUFLEN fuel (entry :: rest) s
        = .returned ⟨s.trace, none, false⟩ := by
  intro fuel
  induction fuel with
  | zero => intro s; rfl
  | succ fuel ih =>
    intro s
    unfold stick_generic_loop
    cases hce : check_entry entry with
    | valid name value => exact absurd ⟨name, value, hce⟩ h
    | not_object => exact ih s
    | bad_name => exact ih s
    | bad_value => exact ih s

theorem find_genericParams (gens govs : List json_t) :
    json_find_first_label (params_request gens govs) (cstr "genericParams")
      = some (.JSON_ARRAY gens) := by
  rfl

theorem find_governorParams (gens govs : List json_t) :
    json_find_first_label (params_request gens govs) (cstr "governorParams")
      = some (.JSON_ARRAY govs) := by
  rfl

theorem fits_of_length (size n : Nat) (text : List Nat) (hlen : text.length = n)
    (h : n < size) : fits size text = true := by
  unfold fits
  rw [hlen]
  exact decide_eq_true h

theorem not_fits_of_length (size : Nat) (text : List Nat) (h : size ≤ text.length) :
    fits size text = false := by
  unfold fits
  exact decide_eq_false (by omega)

/-- Claim C9, evaluated on the code.  With every call succeeding, arrays that
hold the fixed texts of the handler, and a `genericParams` array whose first
element is not an object, or is an entry whose name has a character outside
`[A-Za-z0-9_]`, `stick_cpufreq_params` opens the script, writes its header and
then stays in the first loop: whatever the fuel, it has not returned and it
has sent no reply. -/
theorem stick_cpufreq_params_hangs (MAXLINLEN MAXBUFLEN fuel : Nat) (rest govs : List json_t)
    (hline : 53 ≤ MAXLINLEN) (hbuffer : 23 ≤ MAXBUFLEN) :
    stick_cpufreq_params_method all_ok MAXLINLEN MAXBUFLEN fuel
        (params_request (.JSON_NUMBER (cstr "1") :: rest) govs)
      = ⟨(fputs_each all_ok govnah_settings settings_header
          ([⟨.fopen govnah_settings (cstr "w"), true⟩], false)).1, none, false⟩ ∧
    stick_cpufreq_params_method all_ok MAXLINLEN MAXBUFLEN fuel
        (params_request (param_entry "../etc/passwd" "1" :: rest) govs)
      = ⟨(fputs_each all_ok govnah_settings settings_header
          ([⟨.fopen govnah_settings (cstr "w"), true⟩], false)).1, none, false⟩ ∧
    replies (fputs_each all_ok govnah_settings settings_header
          ([⟨.fopen govnah_settings (cstr "w"), true⟩], false)).1 = [] := by
  have h1 : ¬ valid_entry (.JSON_NUMBER (cstr "1")) := by
    rintro ⟨n, v, h⟩; cases h
  have h2 : ¬ valid_entry (param_entry "../etc/passwd" "1") := by
    rintro ⟨n, v, h⟩
    have : check_entry (param_entry "../etc/passwd" "1") = .bad_name := by decide
    rw [this] at h; cases h
  have hb : fits MAXBUFLEN true_reply = true := fits_of_length _ 22 _ (by decide) (by omega)
  have hf : fits MAXLINLEN govnah_settings = true := fits_of_length _ 52 _ (by decide) (by omega)
  have hc : fits MAXLINLEN cpufreqdir = true := fits_of_length _ 36 _ (by decide) (by omega)
  have hd : (fputs_each all_ok govnah_settings settings_header
      ((all_ok.call [] (.fopen govnah_settings (cstr "w"))).1, false)).2 = false := by decide
  have ho : (all_ok.call [] (.fopen govnah_settings (cstr "w"))).2 = true := rfl
  refine ⟨?_, ?_, by decide⟩
  · unfold stick_cpufreq_params_method
    rw [find_genericParams, find_governorParams]
    simp only [hb, hf, hc, ho, hd, Bool.not_true, Bool.false_eq_true, if_false, if_true]
    rw [stick_generic_loop_stuck all_ok _ _ _ rest h1]
    rfl
  · unfold stick_cpufreq_params_method
    rw [find_genericParams, find_governorParams]
    simp only [hb, hf, hc, ho, hd, Bool.not_true, Bool.false_eq_true, if_false, if_true]
    rw [stick_generic_loop_stuck all_ok _ _ _ rest h2]
    rfl

theorem stick_cpufreq_params_hangs_witness :
    stick_cpufreq_params_method all_ok 1024 1024 7
        (params_request [.JSON_NUMBER (cstr "1"), param_entry "scaling_max_freq" "500000"] [])
      = ⟨(fputs_each all_ok govnah_settings settings_header
          ([⟨.fopen govnah_settings (cstr "w"), true⟩], false)).1, none, false⟩ ∧
    stick_cpufreq_params_method all_ok 1024 1024 7
        (params_request
          [param_entry "../etc/passwd" "1", param_entry "scaling_max_freq" "500000"] [])
      = ⟨(fputs_each all_ok govnah_settings settings_header
          ([⟨.fopen govnah_settings (cstr "w"), true⟩], false)).1, none, false⟩ ∧
    replies (fputs_each all_ok govnah_settings settings_header
          ([⟨.fopen govnah_settings (cstr "w"), true⟩], false)).1 = [] :=
  stick_cpufreq_params_hangs 1024 1024 7 [param_entry "scaling_max_freq" "500000"] []
    (by decide) (by decide)

/-! ## `set_cpufreq_params`: an entry that fails a test -/

/-- Claim C7, evaluated on the code.  `get_cpufreq_params` makes no test on the
governor string: for the governor `../../etc`, with arrays that hold the texts
of this run, its first call is `opendir` on
`/sys/devices/system/cpu/cpu0/cpufreq/../../etc`.  When that call fails the
reply names the path; when it succeeds (on an empty directory here) the reply
is a success that repeats the governor string. -/
theorem get_cpufreq_params_unchecked (MAXLINLEN MAXBUFLEN : Nat) (hline : 47 ≤ MAXLINLEN)
    (hbuffer : 102 ≤ MAXBUFLEN) :
    get_cpufreq_params_method (fails_at 0) MAXLINLEN MAXBUFLEN
        (.JSON_OBJECT [(cstr "governor", .JSON_STRING (cstr "../../etc"))])
      = ⟨[⟨.opendir (cstr "/sys/devices/system/cpu/cpu0/cpufreq/../../etc"), false⟩,
          ⟨.LSMessageReply (cstr "\x7b\"errorText\": \"Unable to open /sys/devices/system/cpu/cpu0/cpufreq/../../etc\", \"returnValue\": false \x7d"), true⟩],
         some true, false⟩ ∧
    get_cpufreq_params_method all_ok MAXLINLEN MAXBUFLEN
        (.JSON_OBJECT [(cstr "governor", .JSON_STRING (cstr "../../etc"))])
      = ⟨[⟨.opendir (cstr "/sys/devices/system/cpu/cpu0/cpufreq/../../etc"), true⟩,
          ⟨.closedir (cstr "/sys/devices/system/cpu/cpu0/cpufreq/../../etc"), true⟩,
          ⟨.LSMessageReply (cstr "\x7b\"params\": [], \"returnValue\": true, \"governor\": \"../../etc\"\x7d"), true⟩],
         some true, false⟩ := by
  have hb : fits MAXBUFLEN true_reply = true := fits_of_length _ 22 _ (by decide) (by omega)
  have hd : fits MAXLINLEN (cpufreqdir ++ cstr "/" ++ c_string (cstr "../../etc")) = true :=
    fits_of_length _ 46 _ (by decide) (by omega)
  have h1 : fits MAXBUFLEN (cstr "\x7b\"errorText\": \"Unable to open " ++
      (cpufreqdir ++ cstr "/" ++ c_string (cstr "../../etc")) ++
      cstr "\", \"returnValue\": false \x7d") = true :=
    fits_of_length _ 101 _ (by decide) (by omega)
  have h2 : fits MAXBUFLEN (cstr "\x7b\"params\": [" ++ cstr "], \"returnValue\": " ++ cstr "true" ++
      (cstr ", \"governor\": \"" ++ c_string (cstr "../../etc") ++ cstr "\"") ++ cstr "\x7d")
      = true :=
    fits_of_length _ 60 _ (by decide) (by omega)
  have hg : json_find_first_label
      (.JSON_OBJECT [(cstr "governor", .JSON_STRING (cstr "../../etc"))]) (cstr "governor")
      = some (.JSON_STRING (cstr "../../etc")) := rfl
  constructor
  · unfold get_cpufreq_params_method
    simp only [hg, hb, hd, Bool.and_self, if_true]
    have ho : ((fails_at 0).call [] (.opendir
        (cpufreqdir ++ cstr "/" ++ c_string (cstr "../../etc")))).2 = false := rfl
    simp only [ho, Bool.not_false, if_true, reply_buffer, h1]
    rfl
  · unfold get_cpufreq_params_method
    simp only [hg, hb, hd, Bool.and_self, if_true]
    have ho : (all_ok.call [] (.opendir
        (cpufreqdir ++ cstr "/" ++ c_string (cstr "../../etc")))).2 = true := rfl
    have hl : all_ok.readdir (cpufreqdir ++ cstr "/" ++ c_string (cstr "../../etc")) = [] := rfl
    simp only [ho, hl, get_params_loop, Bool.not_true, Bool.false_eq_true, if_false]
    have hc : (all_ok.call (all_ok.call [] (.opendir
        (cpufreqdir ++ cstr "/" ++ c_string (cstr "../../etc")))).1 (.closedir
        (cpufreqdir ++ cstr "/" ++ c_string (cstr "../../etc")))).2 = true := rfl
    simp only [hc, Bool.not_true, Bool.false_eq_true, if_false, reply_buffer, h2]
    rfl

theorem get_cpufreq_params_unchecked_witness :
    get_cpufreq_params_method (fails_at 0) 1024 1024
        (.JSON_OBJECT [(cstr "governor", .JSON_STRING (cstr "../../etc"))])
      = ⟨[⟨.opendir (cstr "/sys/devices/system/cpu/cpu0/cpufreq/../../etc"), false⟩,
          ⟨.LSMessageReply (cstr "\x7b\"errorText\": \"Unable to open /sys/devices/system/cpu/cpu0/cpufreq/../../etc\", \"returnValue\": false \x7d"), true⟩],
         some true, false⟩ ∧
    get_cpufreq_params_method all_ok 1024 1024
        (.JSON_OBJECT [(cstr "governor", .JSON_STRING (cstr "../../etc"))])
      = ⟨[⟨.opendir (cstr "/sys/devices/system/cpu/cpu0/cpufreq/../../etc"), true⟩,
          ⟨.closedir (cstr "/sys/devices/system/cpu/cpu0/cpufreq/../../etc"), true⟩,
          ⟨.LSMessageReply (cstr "\x7b\"params\": [], \"returnValue\": true, \"governor\": \"../../etc\"\x7d"), true⟩],
         some true, false⟩ :=
  get_cpufreq_params_unchecked 1024 1024 (by decide) (by decide)

/-! ## Sticky scripts: a failed close -/

set_option maxRecDepth 8192 in
/-- Claim C11, evaluated on the code.  When every call succeeds but the
`fclose` of the script file, `stick_cpufreq_params` and
`stick_compcache_config` reply `Unable to close ...` with
`"returnValue": false` and return without any `unlink`: the script file
written so far stays at the script path. -/
theorem sticky_close_failure_keeps_file :
    (stick_cpufreq_params_method (fails_at 13) 1024 1024 0 (params_request [] [])).ret = some true ∧
    replies (stick_cpufreq_params_method (fails_at 13) 1024 1024 0 (params_request [] [])).trace
      = [error_reply (cstr "Unable to close " ++ govnah_settings)] ∧
    (stick_cpufreq_params_method (fails_at 13) 1024 1024 0 (params_request [] [])).trace.getLast?
      = some ⟨.LSMessageReply (error_reply (cstr "Unable to close " ++ govnah_settings)), true⟩ ∧
    (⟨.fclose govnah_settings, false⟩ : Event)
      ∈ (stick_cpufreq_params_method (fails_at 13) 1024 1024 0 (params_request [] [])).trace ∧
    file_exists govnah_settings
      (stick_cpufreq_params_method (fails_at 13) 1024 1024 0 (params_request [] [])).trace false = true ∧
    (stick_compcache_config_method (fails_at 19) 1024 1024 2
      (compcache_request [param_entry "compcache_enabled" "1",
        param_entry "compcache_memlimit" "16384"])).ret = some true ∧
    replies (stick_compcache_config_method (fails_at 19) 1024 1024 2
      (compcache_request [param_entry "compcache_enabled" "1",
        param_entry "compcache_memlimit" "16384"])).trace
      = [error_reply (cstr "Unable to close " ++ govnah_compcache)] ∧
    (⟨.fclose govnah_compcache, false⟩ : Event)
      ∈ (stick_compcache_config_method (fails_at 19) 1024 1024 2
          (compcache_request [param_entry "compcache_enabled" "1",
            param_entry "compcache_memlimit" "16384"])).trace ∧
    file_exists govnah_compcache
      (stick_compcache_config_method (fails_at 19) 1024 1024 2
        (compcache_request [param_entry "compcache_enabled" "1",
          param_entry "compcache_memlimit" "16384"])).trace false = true := by
  refine ⟨?_, ?_, ?_, ?_, ?_, ?_, ?_, ?_, ?_⟩ <;> decide

/-! ## `run_command` -/

theorem first_line_length_le (l : List Nat) : (first_line l).length ≤ l.length := by
  induction l with
  | nil => simp [first_line]
  | cons b l ih =>
    unfold first_line
    split
    · simp
    · simp only [List.length_cons]; omega

theorem first_line_length_pos (l : List Nat) (h : l ≠ []) : 1 ≤ (first_line l).length := by
  cases l with
  | nil => exact absurd rfl h
  | cons b l =>
    unfold first_line
    split <;> simp

theorem fgets_rest_shorter (n : Nat) (content : List Nat) (hn : 2 ≤ n) (hc : content ≠ []) :
    (fgets_rest n content).length < content.length := by
  unfold fgets_rest
  have h1 : content.take (n - 1) ≠ [] := by
    cases content with
    | nil => exact absurd rfl hc
    | cons b l =>
      have : n - 1 = (n - 2) + 1 := by omega
      rw [this, List.take_succ_cons]
      simp
  have h2 := first_line_length_pos _ h1
  have h3 : 0 < content.length := List.length_pos.mpr hc
  rw [List.length_drop]
  omega

theorem read_loop_ends (MAXLINLEN MAXBUFLEN stray : Nat) (escape_output : Bool)
    (hn : 2 ≤ MAXLINLEN) :
    ∀ (fuel : Nat) (content : List Nat) (s : ReadState), content.length ≤ fuel →
      ∃ s1, read_loop MAXLINLEN MAXBUFLEN stray escape_output fuel content s = some s1 ∧
        ∃ more, s1.run_command_buffer = s.run_command_buffer ++ more := by
  intro fuel
  induction fuel with
  | zero =>
    intro content s h
    have hc : content = [] := List.eq_nil_of_length_eq_zero (by omega)
    exact ⟨s, by simp [read_loop, hc], [], by simp⟩
  | succ fuel ih =>
    intro content s h
    unfold read_loop
    by_cases hc : content = []
    · subst hc
      exact ⟨s, by simp [fgets], [], by simp⟩
    · have hg : fgets MAXLINLEN content = some (first_line (content.take (MAXLINLEN - 1))) := by
        simp [fgets, hc]
      rw [hg]
      have hlt := fgets_rest_shorter MAXLINLEN content hn hc
      obtain ⟨s1, e1, more, e2⟩ := ih (fgets_rest MAXLINLEN content)
        (read_step MAXBUFLEN stray escape_output s (first_line (content.take (MAXLINLEN - 1))))
        (by omega)
      refine ⟨s1, e1, ?_⟩
      rw [e2]
      simp only [read_step, List.append_assoc]
      exact ⟨_, rfl⟩

theorem read_loop_empty (MAXLINLEN MAXBUFLEN stray : Nat) (escape_output : Bool)
    (fuel : Nat) (s : ReadState) :
    read_loop MAXLINLEN MAXBUFLEN stray escape_output fuel [] s = some s := by
  cases fuel with
  | zero => simp [read_loop]
  | succ fuel => simp [read_loop, fgets]

/-- Claim C14.  `run_command` returns (the line buffer holding at least one
character), and it returns true if and only if `popen` gave a stream and
`pclose` gave the status zero, whatever the output of the command: when the
command cannot be started the only call is the `popen` and false is
returned; otherwise the calls are the `popen` and the `pclose` and the value
returned is that the status was zero. -/
theorem run_command_returns (w : World) (MAXLINLEN MAXBUFLEN stray : Nat) (tr : List Event)
    (run_command_buffer command : List Nat) (escape_output : Bool)
    (hn : 2 ≤ MAXLINLEN) :
    ∃ r, run_command w MAXLINLEN MAXBUFLEN stray tr run_command_buffer command escape_output
        = some r ∧
      (r.ret = true ↔
        (w.ok tr (.popen command) = true ∧
          w.ok (tr ++ [⟨.popen command, true⟩]) (.pclose command) = true)) ∧
      (w.ok tr (.popen command) = false →
        r.ret = false ∧ r.trace = tr ++ [⟨.popen command, false⟩]) ∧
      (w.ok tr (.popen command) = true →
        r.ret = w.ok (tr ++ [⟨.popen command, true⟩]) (.pclose command) ∧
        r.trace = tr ++ [⟨.popen command, true⟩,
          ⟨.pclose command, w.ok (tr ++ [⟨.popen command, true⟩]) (.pclose command)⟩]) := by
  unfold run_command
  by_cases hp : w.ok tr (.popen command) = true
  · obtain ⟨s1, e1, _⟩ := read_loop_ends MAXLINLEN MAXBUFLEN stray escape_output hn
      (w.stdout tr command).length (w.stdout tr command) ⟨true, false, run_command_buffer, false⟩
      (le_refl _)
    simp only [World.call, hp, Bool.not_true, Bool.false_eq_true, if_false, e1]
    refine ⟨_, rfl, ?_, ?_, ?_⟩
    · simp
    · intro h; cases h
    · intro _; simp
  · have hp1 : w.ok tr (.popen command) = false := by simpa using hp
    simp only [World.call, hp1, Bool.not_false, if_true]
    refine ⟨_, rfl, ?_, ?_, ?_⟩
    · simp
    · intro _; exact ⟨rfl, rfl⟩
    · intro h; cases h

theorem run_command_returns_witness :
    ∃ r, run_command (fails_at 1) 8 16 0 [] [] (cstr "/bin/false") true = some r ∧
      (r.ret = true ↔
        ((fails_at 1).ok [] (.popen (cstr "/bin/false")) = true ∧
          (fails_at 1).ok ([] ++ [⟨.popen (cstr "/bin/false"), true⟩])
            (.pclose (cstr "/bin/false")) = true)) ∧
      ((fails_at 1).ok [] (.popen (cstr "/bin/false")) = false →
        r.ret = false ∧ r.trace = [] ++ [⟨.popen (cstr "/bin/false"), false⟩]) ∧
      ((fails_at 1).ok [] (.popen (cstr "/bin/false")) = true →
        r.ret = (fails_at 1).ok ([] ++ [⟨.popen (cstr "/bin/false"), true⟩])
          (.pclose (cstr "/bin/false")) ∧
        r.trace = [] ++ [⟨.popen (cstr "/bin/false"), true⟩,
          ⟨.pclose (cstr "/bin/false"),
            (fails_at 1).ok ([] ++ [⟨.popen (cstr "/bin/false"), true⟩])
              (.pclose (cstr "/bin/false"))⟩]) :=
  run_command_returns (fails_at 1) 8 16 0 [] [] (cstr "/bin/false") true (by decide)

/-! ## The replies of the registry -/

theorem starts_with_iff (p : List Nat) : ∀ t, starts_with p t = true ↔ ∃ b, t = p ++ b := by
  induction p with
  | nil => intro t; simp [starts_with]
  | cons x xs ih =>
    intro t
    cases t with
    | nil => simp [starts_with]
    | cons y ys =>
      simp only [starts_with, Bool.and_eq_true, decide_eq_true_eq, ih, List.cons_append,
        List.cons.injEq]
      constructor
      · rintro ⟨rfl, b, rfl⟩
        exact ⟨b, rfl, rfl⟩
      · rintro ⟨b, rfl, rfl⟩
        exact ⟨rfl, b, rfl⟩

theorem occurs_iff (p : List Nat) : ∀ t, occurs p t = true ↔ ∃ a b, t = a ++ p ++ b := by
  intro t
  induction t with
  | nil =>
    rw [occurs, starts_with_iff]
    constructor
    · rintro ⟨b, h⟩
      exact ⟨[], b, h⟩
    · rintro ⟨a, b, h⟩
      have h1 : a ++ p ++ b = [] := h.symm
      simp only [List.append_eq_nil] at h1
      exact ⟨[], by simp [h1.1.2]⟩
  | cons y ys ih =>
    rw [occurs, Bool.or_eq_true, ih, starts_with_iff]
    constructor
    · rintro (⟨b, h⟩ | ⟨a, b, h⟩)
      · exact ⟨[], b, h⟩
      · exact ⟨y :: a, b, by rw [h]; rfl⟩
    · rintro ⟨a, b, h⟩
      cases a with
      | nil => exact Or.inl ⟨b, h⟩
      | cons z zs =>
        simp only [List.cons_append, List.cons.injEq] at h
        exact Or.inr ⟨zs, b, h.2⟩

theorem occurs_append_left (p t a : List Nat) (h : occurs p t = true) :
    occurs p (a ++ t) = true := by
  obtain ⟨x, y, rfl⟩ := (occurs_iff p t).1 h
  exact (occurs_iff p _).2 ⟨a ++ x, y, by simp only [List.append_assoc]⟩

theorem occurs_append_right (p t b : List Nat) (h : occurs p t = true) :
    occurs p (t ++ b) = true := by
  obtain ⟨x, y, rfl⟩ := (occurs_iff p t).1 h
  exact (occurs_iff p _).2 ⟨x, y ++ b, by simp only [List.append_assoc]⟩

theorem replies_append (a b : List Event) : replies (a ++ b) = replies a ++ replies b := by
  induction a with
  | nil => rfl
  | cons ev rest ih =>
    cases ev with
    | mk c o =>
      cases c <;> simp [replies, ih]

theorem replies_reply (w : World) (tr : List Event) (text : List Nat) :
    replies (reply w tr text).trace = replies tr ++ [text] := by
  simp [reply, World.call, replies_append, replies]

theorem replies_reply_only (w : World) (tr : List Event) (text : List Nat)
    (h : replies tr = []) : replies (reply w tr text).trace = [text] := by
  rw [replies_reply, h]
  rfl

theorem settled_error_reply (errorText : List Nat) : settled (error_reply errorText) := by
  refine Or.inr ⟨?_, ?_⟩
  · exact occurs_append_left _ _ _ (by decide)
  · exact occurs_append_right _ _ _ (occurs_append_right _ _ _ (by decide))

theorem settled_invalid_reply (what : List Nat) : settled (invalid_reply what) := by
  refine Or.inr ⟨?_, ?_⟩
  · exact occurs_append_right _ _ _ (occurs_append_right _ _ _ (by decide))
  · exact occurs_append_right _ _ _ (occurs_append_right _ _ _ (by decide))

theorem settled_fixed_failure (errorText : List Nat) : settled (fixed_failure errorText) := by
  refine Or.inr ⟨?_, ?_⟩
  · exact occurs_append_right _ _ _ (occurs_append_right _ _ _ (by decide))
  · exact occurs_append_right _ _ _ (occurs_append_right _ _ _ (by decide))

theorem settled_true_reply : settled true_reply :=
  Or.inl (show occurs _ _ = true by decide)

/-- The text `report_command_failure` builds, when `buffer` holds it, has the
members of a failure: `snprintf` has then cut nothing off its head. -/
theorem settled_command_failure (MAXBUFLEN : Nat) (command : List Nat)
    (stdErrText additional : Option (List Nat))
    (hfits : fits MAXBUFLEN (command_failure MAXBUFLEN command stdErrText additional) = true) :
    settled (command_failure MAXBUFLEN command stdErrText additional) := by
  have hlong : 16 ≤ MAXBUFLEN := by
    unfold fits command_failure at hfits
    have h1 := of_decide_eq_true hfits
    simp only [List.length_append] at h1
    have h2 : (cstr ", \"returnValue\": false, \"errorCode\": -1").length = 39 := by decide
    omega
  unfold command_failure
  refine Or.inr ⟨?_, ?_⟩
  · exact occurs_append_right _ _ _ (occurs_append_right _ _ _
      (occurs_append_left _ _ _ (by decide)))
  · refine occurs_append_right _ _ _ (occurs_append_right _ _ _ (occurs_append_right _ _ _
      (occurs_append_right _ _ _ ?_)))
    have e : cstr "\x7b\"errorText\": \"Unable to run command: "
        = cstr "\x7b\"errorText\": \"" ++ cstr "Unable to run command: " := by decide
    rw [e, List.append_assoc, List.append_assoc, List.take_append_eq_append_take]
    have hlen : (cstr "\x7b\"errorText\": \"").length = 15 := by decide
    rw [List.take_of_length_le (by rw [hlen]; omega)]
    exact occurs_append_right _ _ _ (by decide)

theorem replies_call (w : World) (tr : List Event) (c : Call)
    (h : ∀ t, c ≠ .LSMessageReply t) : replies (w.call tr c).1 = replies tr := by
  rw [World.call, replies_append]
  cases c <;> first | exact absurd rfl (h _) | simp [replies]

theorem all_settled_nil : all_settled [] := by
  intro text h
  cases h

theorem all_settled_call (w : World) (tr : List Event) (c : Call)
    (h : ∀ t, c ≠ .LSMessageReply t) (htr : all_settled tr) :
    all_settled (w.call tr c).1 := by
  intro text ht
  rw [replies_call w tr c h] at ht
  exact htr text ht

theorem all_settled_reply (w : World) (tr : List Event) (text : List Nat)
    (htr : all_settled tr) (ht : settled text) :
    all_settled (reply w tr text).trace := by
  intro t h
  rw [replies_reply, List.mem_append, List.mem_singleton] at h
  rcases h with h | rfl
  · exact htr t h
  · exact ht

theorem all_settled_reply_buffer_of (w : World) (MAXBUFLEN : Nat) (tr : List Event)
    (text : List Nat) (htr : all_settled tr) (ht : fits MAXBUFLEN text = true → settled text) :
    all_settled (reply_buffer w MAXBUFLEN tr text).trace := by
  unfold reply_buffer
  split_ifs with h
  · exact all_settled_reply _ _ _ htr (ht h)
  · exact htr

theorem all_settled_reply_buffer (w : World) (MAXBUFLEN : Nat) (tr : List Event)
    (text : List Nat) (htr : all_settled tr) (ht : settled text) :
    all_settled (reply_buffer w MAXBUFLEN tr text).trace :=
  all_settled_reply_buffer_of _ _ _ _ htr (fun _ => ht)

theorem all_settled_report (w : World) (MAXBUFLEN : Nat) (tr : List Event) (command : List Nat)
    (stdErrText additional : Option (List Nat)) (htr : all_settled tr) :
    all_settled (report_command_failure w MAXBUFLEN tr command stdErrText additional).trace := by
  unfold report_command_failure
  split_ifs
  · exact all_settled_reply_buffer_of _ _ _ _ htr (settled_command_failure _ _ _ _)
  · exact htr

theorem read_loop_appends (MAXLINLEN MAXBUFLEN stray : Nat) (escape_output : Bool) :
    ∀ (fuel : Nat) (content : List Nat) (s s1 : ReadState),
      read_loop MAXLINLEN MAXBUFLEN stray escape_output fuel content s = some s1 →
      ∃ more, s1.run_command_buffer = s.run_command_buffer ++ more := by
  intro fuel
  induction fuel with
  | zero =>
    intro content s s1 h
    rw [read_loop] at h
    split_ifs at h
    cases h
    exact ⟨[], by simp⟩
  | succ fuel ih =>
    intro content s s1 h
    rw [read_loop] at h
    cases hg : fgets MAXLINLEN content with
    | none =>
      rw [hg] at h
      cases h
      exact ⟨[], by simp⟩
    | some line =>
      rw [hg] at h
      obtain ⟨more, hm⟩ := ih _ _ _ h
      refine ⟨((read_step MAXBUFLEN stray escape_output s line).run_command_buffer.drop
        s.run_command_buffer.length) ++ more, ?_⟩
      rw [hm, ← List.append_assoc]
      congr 1
      rw [read_step]
      simp only [List.append_assoc, List.drop_left]

theorem run_command_spec (w : World) (MAXLINLEN MAXBUFLEN stray : Nat) (tr : List Event)
    (run_command_buffer command : List Nat) (escape_output : Bool) (r : CommandResult)
    (h : run_command w MAXLINLEN MAXBUFLEN stray tr run_command_buffer command escape_output
      = some r) :
    replies r.trace = replies tr ∧ ∃ more, r.run_command_buffer = run_command_buffer ++ more := by
  rw [run_command] at h
  simp only at h
  split_ifs at h with hp
  · cases h
    exact ⟨replies_call _ _ _ (fun _ e => Call.noConfusion e), [], by simp⟩
  · cases hl : read_loop MAXLINLEN MAXBUFLEN stray escape_output (w.stdout tr command).length
        (w.stdout tr command) ⟨true, false, run_command_buffer, false⟩ with
    | none =>
      rw [hl] at h
      cases h
    | some s =>
      rw [hl] at h
      cases h
      refine ⟨?_, read_loop_appends _ _ _ _ _ _ _ _ hl⟩
      rw [replies_call _ _ _ (fun _ e => Call.noConfusion e),
        replies_call _ _ _ (fun _ e => Call.noConfusion e)]

theorem all_settled_hung (w : World) (tr : List Event) (command : List Nat)
    (htr : all_settled tr) : all_settled (hung w tr command).trace :=
  all_settled_call _ _ _ (fun _ e => Call.noConfusion e) htr

theorem all_settled_overran (w : World) (tr : List Event) (command : List Nat)
    (htr : all_settled tr) : all_settled (overran w tr command).trace :=
  all_settled_call _ _ _ (fun _ e => Call.noConfusion e) htr

theorem all_settled_run_command (w : World) (MAXLINLEN MAXBUFLEN stray : Nat) (tr : List Event)
    (run_command_buffer command : List Nat) (escape_output : Bool) (r : CommandResult)
    (h : run_command w MAXLINLEN MAXBUFLEN stray tr run_command_buffer command escape_output
      = some r)
    (htr : all_settled tr) : all_settled r.trace := by
  intro text ht
  rw [(run_command_spec _ _ _ _ _ _ _ _ _ h).1] at ht
  exact htr text ht

theorem simple_command_settled (w : World) (MAXLINLEN MAXBUFLEN stray : Nat)
    (command : List Nat) :
    all_settled (simple_command w MAXLINLEN MAXBUFLEN stray command).trace := by
  rw [simple_command]
  split_ifs
  · cases h : run_command w MAXLINLEN MAXBUFLEN stray [] (cstr "\x7b\"stdOut\": [") command
        true with
    | none => exact all_settled_hung _ _ _ all_settled_nil
    | some r =>
      have hr := all_settled_run_command _ _ _ _ _ _ _ _ _ h all_settled_nil
      simp only
      split_ifs
      · exact all_settled_overran _ _ _ all_settled_nil
      · exact all_settled_reply_buffer _ _ _ _ hr
          (Or.inl (occurs_append_left _ _ _ (show occurs _ _ = true by decide)))
      · exact all_settled_report _ _ _ _ _ _ hr
      · exact hr
  · exact all_settled_nil

theorem read_single_line_settled (w : World) (MAXLINLEN MAXBUFLEN : Nat) (file : List Nat) :
    all_settled (read_single_line w MAXLINLEN MAXBUFLEN file).trace := by
  rw [read_single_line]
  have h1 : all_settled (w.call [] (.fopen file (cstr "r"))).1 :=
    all_settled_call _ _ _ (fun _ e => Call.noConfusion e) all_settled_nil
  have h2 : all_settled (w.call (w.call [] (.fopen file (cstr "r"))).1 (.fgets file)).1 :=
    all_settled_call _ _ _ (fun _ e => Call.noConfusion e) h1
  have h3 : all_settled (w.call (w.call (w.call [] (.fopen file (cstr "r"))).1
      (.fgets file)).1 (.fclose file)).1 :=
    all_settled_call _ _ _ (fun _ e => Call.noConfusion e) h2
  simp only
  split_ifs
  all_goals first
    | exact h2
    | exact all_settled_reply_buffer _ _ _ _ h1 (settled_error_reply _)
    | exact all_settled_reply_buffer _ _ _ _ h3 (settled_error_reply _)
    | (refine all_settled_reply _ _ _ h3 ?_
       first
         | exact settled_error_reply _
         | (split
            · exact Or.inl (occurs_append_left _ _ _ (show occurs _ _ = true by decide))
            · exact settled_error_reply _))
theorem read_single_integer_settled (w : World) (MAXBUFLEN : Nat) (file : List Nat) :
    all_settled (read_single_integer w MAXBUFLEN file).trace := by
  rw [read_single_integer]
  have h1 : all_settled (w.call [] (.fopen file (cstr "r"))).1 :=
    all_settled_call _ _ _ (fun _ e => Call.noConfusion e) all_settled_nil
  have h2 : all_settled (w.call (w.call [] (.fopen file (cstr "r"))).1 (.fscanf file)).1 :=
    all_settled_call _ _ _ (fun _ e => Call.noConfusion e) h1
  have h3 : all_settled (w.call (w.call (w.call [] (.fopen file (cstr "r"))).1
      (.fscanf file)).1 (.fclose file)).1 :=
    all_settled_call _ _ _ (fun _ e => Call.noConfusion e) h2
  simp only
  split_ifs
  all_goals first
    | exact h2
    | exact all_settled_reply_buffer _ _ _ _ h1 (settled_error_reply _)
    | exact all_settled_reply_buffer _ _ _ _ h3 (settled_error_reply _)
    | (refine all_settled_reply _ _ _ h3 ?_
       first
         | exact settled_error_reply _
         | (split
            · exact Or.inl (occurs_append_left _ _ _ (show occurs _ _ = true by decide))
            · exact settled_error_reply _))

theorem write_value_replies (w : World) (tr : List Event) (filename value : List Nat)
    (error : Bool) (errorText : List Nat) :
    replies (write_value w tr filename value error errorText).1 = replies tr := by
  rw [write_value]
  simp only
  split_ifs
  · exact replies_call _ _ _ (fun _ e => Call.noConfusion e)
  all_goals
    simp only
    rw [replies_call _ _ _ (fun _ e => Call.noConfusion e),
      replies_call _ _ _ (fun _ e => Call.noConfusion e),
      replies_call _ _ _ (fun _ e => Call.noConfusion e)]

theorem all_settled_write_value (w : World) (tr : List Event)
    (filename value : List Nat) (error : Bool) (errorText : List Nat)
    (htr : all_settled tr) :
    all_settled (write_value w tr filename value error errorText).1 := by
  intro text ht
  rw [write_value_replies] at ht
  exact htr text ht

theorem fputs_each_replies (w : World) (path : List Nat) (texts : List (List Nat)) :
    ∀ s : List Event × Bool, replies (fputs_each w path texts s).1 = replies s.1 := by
  induction texts with
  | nil => intro s; rfl
  | cons text rest ih =>
    intro s
    rw [fputs_each, ih]
    exact replies_call _ _ _ (fun _ e => Call.noConfusion e)

theorem all_settled_fputs_each (w : World) (path : List Nat)
    (texts : List (List Nat)) (s : List Event × Bool) (htr : all_settled s.1) :
    all_settled (fputs_each w path texts s).1 := by
  intro text ht
  rw [fputs_each_replies] at ht
  exact htr text ht

theorem all_settled_abandon_script (w : World) (MAXBUFLEN : Nat) (tr : List Event)
    (filename text : List Nat) (htr : all_settled tr) (ht : settled text) :
    all_settled (abandon_script w MAXBUFLEN tr filename text).trace :=
  all_settled_reply_buffer _ _ _ _
    (all_settled_call _ _ _ (fun _ e => Call.noConfusion e)
      (all_settled_call _ _ _ (fun _ e => Call.noConfusion e) htr)) ht

theorem all_settled_finish_script (w : World) (MAXBUFLEN : Nat) (tr : List Event)
    (filename : List Nat) (error : Bool) (htr : all_settled tr) :
    all_settled (finish_script w MAXBUFLEN tr filename error).trace := by
  rw [finish_script]
  simp only
  have hft := all_settled_fputs_each w filename [cstr "\n", cstr "end script\n"] (tr, error) htr
  split_ifs
  · exact all_settled_abandon_script _ _ _ _ _ hft (settled_error_reply _)
  · exact all_settled_reply_buffer _ _ _ _
      (all_settled_call _ _ _ (fun _ e => Call.noConfusion e) hft) (settled_error_reply _)
  · exact all_settled_reply _ _ _
      (all_settled_call _ _ _ (fun _ e => Call.noConfusion e) hft) settled_true_reply

theorem all_settled_reply_error (w : World) (MAXLINLEN MAXBUFLEN : Nat) (tr : List Event)
    (errorText : List Nat) (htr : all_settled tr) :
    all_settled (reply_error w MAXLINLEN MAXBUFLEN tr errorText).trace := by
  unfold reply_error
  split_ifs
  · exact all_settled_reply_buffer _ _ _ _ htr (settled_error_reply _)
  · exact htr

theorem set_tcp_congestion_control_settled (w : World) (MAXLINLEN MAXBUFLEN : Nat)
    (object : json_t) :
    all_settled (set_tcp_congestion_control_method w MAXLINLEN MAXBUFLEN object).trace := by
  rw [set_tcp_congestion_control_method]
  have h1 : all_settled (w.call [] (.fopen tcp_congestion_control (cstr "w"))).1 :=
    all_settled_call _ _ _ (fun _ e => Call.noConfusion e) all_settled_nil
  have h2 : ∀ text, all_settled (w.call (w.call [] (.fopen tcp_congestion_control (cstr "w"))).1
      (.fputs tcp_congestion_control text)).1 :=
    fun _ => all_settled_call _ _ _ (fun _ e => Call.noConfusion e) h1
  have h3 : ∀ text, all_settled (w.call (w.call (w.call []
      (.fopen tcp_congestion_control (cstr "w"))).1
      (.fputs tcp_congestion_control text)).1
      (.fclose tcp_congestion_control)).1 :=
    fun _ => all_settled_call _ _ _ (fun _ e => Call.noConfusion e) (h2 _)
  simp only []
  repeat' split
  all_goals first
    | exact all_settled_nil
    | exact h2 _
    | exact all_settled_reply_error _ _ _ _ _ h1
    | exact all_settled_reply_error _ _ _ _ _ (h3 _)
    | exact all_settled_reply _ _ _ (h3 _) settled_true_reply
    | exact all_settled_reply _ _ _ all_settled_nil (settled_invalid_reply _)

theorem launch_settled (w : World) (MAXLINLEN : Nat) (payload : List Nat) :
    all_settled (launch w MAXLINLEN payload).trace := by
  unfold launch
  split_ifs
  · exact all_settled_call _ _ _ (fun _ e => Call.noConfusion e) all_settled_nil
  · exact all_settled_nil

theorem getProfiles_settled (w : World) (MAXLINLEN : Nat) (object : json_t) :
    all_settled (getProfiles_method w MAXLINLEN object).trace := by
  rw [getProfiles_method]
  split
  · exact launch_settled _ _ _
  · exact all_settled_reply _ _ _ all_settled_nil (settled_invalid_reply _)

theorem setProfile_settled (w : World) (MAXLINLEN : Nat) (object : json_t) :
    all_settled (setProfile_method w MAXLINLEN object).trace := by
  rw [setProfile_method]
  split
  · exact launch_settled _ _ _
  · exact all_settled_reply _ _ _ all_settled_nil (settled_invalid_reply _)

theorem dummy_settled (w : World) : all_settled (dummy_method w).trace :=
  all_settled_reply _ _ _ all_settled_nil (Or.inl (show occurs _ _ = true by decide))

theorem unstick_settled (w : World) (MAXLINLEN MAXBUFLEN : Nat) (filename : List Nat) :
    all_settled (unstick w MAXLINLEN MAXBUFLEN filename).trace := by
  unfold unstick
  split_ifs
  · exact all_settled_reply _ _ _
      (all_settled_call _ _ _ (fun _ e => Call.noConfusion e) all_settled_nil)
      settled_true_reply
  · exact all_settled_nil
theorem set_generic_loop_settled (w : World) (entries : List json_t) :
    ∀ s : SetState, all_settled s.trace → settled s.buffer →
      match set_generic_loop w entries s with
      | .returned r => all_settled r.trace
      | .next s1 => all_settled s1.trace ∧ settled s1.buffer := by
  induction entries with
  | nil =>
    intro s htr hb
    exact ⟨htr, hb⟩
  | cons genericEntry rest ih =>
    intro s htr hb
    rw [set_generic_loop]
    cases check_entry genericEntry with
    | not_object => exact all_settled_reply _ _ _ htr (settled_invalid_reply _)
    | bad_name => exact all_settled_reply _ _ _ htr (settled_invalid_reply _)
    | bad_value => exact all_settled_reply _ _ _ htr (settled_invalid_reply _)
    | valid name value =>
      simp only
      have hwv := all_settled_write_value w s.trace (cpufreqdir ++ cstr "/" ++ name) value
        s.error s.errorText htr
      split_ifs
      all_goals first
        | exact ⟨hwv, settled_error_reply _⟩
        | exact ih _ hwv hb

theorem set_governor_loop_settled (w : World) (directory : List Nat)
    (entries : List json_t) :
    ∀ s : SetState, all_settled s.trace → settled s.buffer →
      match set_governor_loop w directory entries s with
      | .returned r => all_settled r.trace
      | .next s1 => all_settled s1.trace ∧ settled s1.buffer := by
  induction entries with
  | nil =>
    intro s htr hb
    exact ⟨htr, hb⟩
  | cons governorEntry rest ih =>
    intro s htr hb
    rw [set_governor_loop]
    cases check_entry governorEntry with
    | not_object => exact all_settled_reply _ _ _ htr (settled_invalid_reply _)
    | bad_name => exact all_settled_reply _ _ _ htr (settled_invalid_reply _)
    | bad_value => exact all_settled_reply _ _ _ htr (settled_invalid_reply _)
    | valid name value =>
      simp only
      have hwv := all_settled_write_value w s.trace (directory ++ cstr "/" ++ name) value
        s.error s.errorText htr
      split_ifs
      all_goals first
        | exact ⟨hwv, settled_error_reply _⟩
        | exact ih _ hwv hb

theorem set_cpufreq_params_settled (w : World) (object : json_t) :
    all_settled (set_cpufreq_params_method w object).trace := by
  rw [set_cpufreq_params_method]
  split
  · split
    · rename_i _ gp _ _ gv _
      have h1 := set_generic_loop_settled w gp ⟨[], false, [], none, true_reply⟩
        all_settled_nil settled_true_reply
      split
      · rename_i r hr
        rw [hr] at h1
        exact h1
      · rename_i s hs
        rw [hs] at h1
        split
        · rename_i governor hg
          have h2 := set_governor_loop_settled w (cpufreqdir ++ cstr "/" ++ governor) gv s
            h1.1 h1.2
          split
          · rename_i r hr
            rw [hr] at h2
            exact h2
          · rename_i s1 hs1
            rw [hs1] at h2
            exact all_settled_reply _ _ _ h2.1 h2.2
        · exact all_settled_reply _ _ _ h1.1 h1.2
    · exact all_settled_reply _ _ _ all_settled_nil (settled_invalid_reply _)
  · exact all_settled_reply _ _ _ all_settled_nil (settled_invalid_reply _)
theorem stick_generic_loop_settled (w : World) (MAXLINLEN MAXBUFLEN : Nat) :
    ∀ (fuel : Nat) (entries : List json_t) (s : StickState), all_settled s.trace →
      match stick_generic_loop w MAXLINLEN MAXBUFLEN fuel entries s with
      | .returned r => all_settled r.trace
      | .next s1 => all_settled s1.trace := by
  intro fuel
  induction fuel with
  | zero =>
    intro entries s htr
    cases entries with
    | nil => exact htr
    | cons _ _ => exact htr
  | succ fuel ih =>
    intro entries s htr
    cases entries with
    | nil => exact htr
    | cons genericEntry rest =>
      rw [stick_generic_loop]
      have hwr : ∀ text, all_settled (w.call s.trace (.fputs govnah_settings text)).1 :=
        fun _ => all_settled_call _ _ _ (fun _ e => Call.noConfusion e) htr
      cases check_entry genericEntry with
      | not_object => exact ih _ _ htr
      | bad_name => exact ih _ _ htr
      | bad_value => exact ih _ _ htr
      | valid name value =>
        simp only
        by_cases hfit : fits MAXLINLEN (echo_line value cpufreqdir name) = true
        · rw [if_pos hfit]
          by_cases hwrite : (!(w.call s.trace
              (.fputs govnah_settings (echo_line value cpufreqdir name))).2) = true
          · rw [if_pos hwrite]
            exact all_settled_abandon_script _ _ _ _ _ (hwr _) (settled_error_reply _)
          · rw [if_neg hwrite]
            exact ih _ _ (hwr _)
        · rw [if_neg hfit]
          exact htr

theorem stick_governor_loop_settled (w : World) (MAXLINLEN MAXBUFLEN : Nat)
    (directory : List Nat) :
    ∀ (fuel : Nat) (entries : List json_t) (s : StickState), all_settled s.trace →
      match stick_governor_loop w MAXLINLEN MAXBUFLEN directory fuel entries s with
      | .returned r => all_settled r.trace
      | .next s1 => all_settled s1.trace := by
  intro fuel
  induction fuel with
  | zero =>
    intro entries s htr
    cases entries with
    | nil => exact htr
    | cons _ _ => exact htr
  | succ fuel ih =>
    intro entries s htr
    cases entries with
    | nil => exact htr
    | cons governorEntry rest =>
      rw [stick_governor_loop]
      have hwr : ∀ text, all_settled (w.call s.trace (.fputs govnah_settings text)).1 :=
        fun _ => all_settled_call _ _ _ (fun _ e => Call.noConfusion e) htr
      cases check_entry governorEntry with
      | not_object => exact ih _ _ htr
      | bad_name => exact ih _ _ htr
      | bad_value => exact ih _ _ htr
      | valid name value =>
        simp only
        by_cases hfit : fits MAXLINLEN (echo_line value directory name) = true
        · rw [if_pos hfit]
          by_cases hwrite : (!(w.call s.trace
              (.fputs govnah_settings (echo_line value directory name))).2) = true
          · rw [if_pos hwrite]
            exact all_settled_abandon_script _ _ _ _ _ (hwr _) (settled_error_reply _)
          · rw [if_neg hwrite]
            exact ih _ _ (hwr _)
        · rw [if_neg hfit]
          exact htr

theorem stick_governor_part_settled (w : World) (MAXLINLEN MAXBUFLEN fuel : Nat)
    (entries : List json_t) (s : StickState) (hs : all_settled s.trace) :
    all_settled
      (match s.governor with
       | some governor =>
         if fits MAXLINLEN (cpufreqdir ++ cstr "/" ++ governor) then
           match stick_governor_loop w MAXLINLEN MAXBUFLEN
               (cpufreqdir ++ cstr "/" ++ governor) fuel entries s with
           | .returned r => r
           | .next s1 => finish_script w MAXBUFLEN s1.trace govnah_settings false
         else undefined_after s.trace
       | none => finish_script w MAXBUFLEN s.trace govnah_settings false).trace := by
  cases s.governor with
  | none => exact all_settled_finish_script _ _ _ _ _ hs
  | some governor =>
    simp only
    by_cases hfit : fits MAXLINLEN (cpufreqdir ++ cstr "/" ++ governor) = true
    · rw [if_pos hfit]
      have h2 := stick_governor_loop_settled w MAXLINLEN MAXBUFLEN
        (cpufreqdir ++ cstr "/" ++ governor) fuel entries s hs
      cases hl : stick_governor_loop w MAXLINLEN MAXBUFLEN
          (cpufreqdir ++ cstr "/" ++ governor) fuel entries s with
      | returned r =>
        rw [hl] at h2
        exact h2
      | next s1 =>
        rw [hl] at h2
        exact all_settled_finish_script _ _ _ _ _ h2
    · rw [if_neg hfit]
      exact hs

theorem stick_generic_part_settled (w : World) (MAXLINLEN MAXBUFLEN fuel : Nat)
    (gp gv : List json_t) (tr : List Event) (htr : all_settled tr) :
    all_settled
      (match stick_generic_loop w MAXLINLEN MAXBUFLEN fuel gp ⟨tr, none⟩ with
       | .returned r => r
       | .next s =>
         match s.governor with
         | some governor =>
           if fits MAXLINLEN (cpufreqdir ++ cstr "/" ++ governor) then
             match stick_governor_loop w MAXLINLEN MAXBUFLEN
                 (cpufreqdir ++ cstr "/" ++ governor) fuel gv s with
             | .returned r => r
             | .next s1 => finish_script w MAXBUFLEN s1.trace govnah_settings false
           else undefined_after s.trace
         | none => finish_script w MAXBUFLEN s.trace govnah_settings false).trace := by
  have h1 := stick_generic_loop_settled w MAXLINLEN MAXBUFLEN fuel gp ⟨tr, none⟩ htr
  cases hl : stick_generic_loop w MAXLINLEN MAXBUFLEN fuel gp ⟨tr, none⟩ with
  | returned r =>
    rw [hl] at h1
    exact h1
  | next s =>
    rw [hl] at h1
    exact stick_governor_part_settled w MAXLINLEN MAXBUFLEN fuel gv s h1

theorem stick_cpufreq_params_settled (w : World) (MAXLINLEN MAXBUFLEN fuel : Nat)
    (object : json_t) :
    all_settled (stick_cpufreq_params_method w MAXLINLEN MAXBUFLEN fuel object).trace := by
  rw [stick_cpufreq_params_method]
  have hfp : all_settled (w.call [] (.fopen govnah_settings (cstr "w"))).1 :=
    all_settled_call _ _ _ (fun _ e => Call.noConfusion e) all_settled_nil
  have hhd := all_settled_fputs_each w govnah_settings settings_header
    ((w.call [] (.fopen govnah_settings (cstr "w"))).1, false) hfp
  split
  · split
    · split
      · rename_i _ gp _ _ gv _
        split
        · simp only []
          split
          · exact all_settled_reply_buffer _ _ _ _ hfp (settled_error_reply _)
          · split
            · exact all_settled_abandon_script _ _ _ _ _ hhd (settled_error_reply _)
            · split
              · exact stick_generic_part_settled w MAXLINLEN MAXBUFLEN fuel gp gv _ hhd
              · exact hhd
        · exact all_settled_nil
      · exact all_settled_reply _ _ _ all_settled_nil (settled_invalid_reply _)
    · exact all_settled_reply _ _ _ all_settled_nil (settled_invalid_reply _)
  · exact all_settled_nil

theorem stick_compcache_config_settled (w : World) (MAXLINLEN MAXBUFLEN fuel : Nat)
    (object : json_t) :
    all_settled (stick_compcache_config_method w MAXLINLEN MAXBUFLEN fuel object).trace := by
  rw [stick_compcache_config_method]
  have hfp : all_settled (w.call [] (.fopen govnah_compcache (cstr "w"))).1 :=
    all_settled_call _ _ _ (fun _ e => Call.noConfusion e) all_settled_nil
  have hhd := all_settled_fputs_each w govnah_compcache compcache_header
    ((w.call [] (.fopen govnah_compcache (cstr "w"))).1, false) hfp
  have hc2 : ∀ texts, all_settled (fputs_each w govnah_compcache texts
      ((fputs_each w govnah_compcache compcache_header
        ((w.call [] (.fopen govnah_compcache (cstr "w"))).1, false)).1, false)).1 :=
    fun _ => all_settled_fputs_each _ _ _ _ hhd
  split
  · split
    · split
      · exact all_settled_nil
      · split
        · exact all_settled_reply _ _ _ all_settled_nil (settled_invalid_reply _)
        · split
          · split
            · exact all_settled_reply _ _ _
                (all_settled_call _ _ _ (fun _ e => Call.noConfusion e) all_settled_nil)
                settled_true_reply
            · simp only []
              split
              · exact all_settled_reply_buffer _ _ _ _ hfp (settled_error_reply _)
              · split
                · exact all_settled_abandon_script _ _ _ _ _ hhd (settled_error_reply _)
                · split
                  · exact all_settled_finish_script _ _ _ _ _
                      (all_settled_fputs_each _ _ _ _ (hc2 _))
                  · exact hc2 _
          · exact all_settled_nil
    · exact all_settled_reply _ _ _ all_settled_nil (settled_invalid_reply _)
  · exact all_settled_nil
theorem get_compcache_config_settled (w : World) (MAXLINLEN MAXBUFLEN stray : Nat) :
    all_settled (get_compcache_config_method w MAXLINLEN MAXBUFLEN stray).trace := by
  rw [get_compcache_config_method]
  split
  · cases h1 : run_command w MAXLINLEN MAXBUFLEN stray [] (cstr "/lib/modules/")
        (cstr "/bin/uname -r") false with
    | none => exact all_settled_hung _ _ _ all_settled_nil
    | some un =>
      have hun := all_settled_run_command _ _ _ _ _ _ _ _ _ h1 all_settled_nil
      simp only []
      split
      · exact all_settled_overran _ _ _ all_settled_nil
      · split
        · exact all_settled_reply _ _ _ hun (settled_fixed_failure _)
        · split
          · cases h2 : run_command w MAXLINLEN MAXBUFLEN stray un.trace []
                (cstr "/usr/bin/test -f " ++ un.run_command_buffer ++ cstr "/extra/ramzswap.ko")
                false with
            | none => exact all_settled_hung _ _ _ hun
            | some ts =>
              have hts := all_settled_run_command _ _ _ _ _ _ _ _ _ h2 hun
              simp only []
              split
              · exact all_settled_overran _ _ _ hun
              · split
                · exact all_settled_reply_buffer _ _ _ _ hts
                    (Or.inl (show occurs _ _ = true by decide))
                · cases h3 : run_command w MAXLINLEN MAXBUFLEN stray ts.trace [] memlimit_probe
                      false with
                  | none => exact all_settled_hung _ _ _ hts
                  | some pr =>
                    have hpr := all_settled_run_command _ _ _ _ _ _ _ _ _ h3 hts
                    simp only []
                    split
                    · exact all_settled_overran _ _ _ hts
                    · split
                      · exact all_settled_reply_buffer _ _ _ _ hpr
                          (Or.inl (occurs_append_left _ _ _
                            (show occurs _ _ = true by decide)))
                      · exact all_settled_reply_buffer _ _ _ _ hpr
                          (Or.inl (show occurs _ _ = true by decide))
          · exact hun
  · exact all_settled_nil

theorem run_step_settled (w : World) (MAXLINLEN MAXBUFLEN stray : Nat) (tr : List Event)
    (run command : List Nat) (htr : all_settled tr) :
    match run_step w MAXLINLEN MAXBUFLEN stray tr run command with
    | .returned r => all_settled r.trace
    | .next tr1 => all_settled tr1 := by
  rw [run_step]
  by_cases hfit : (fits MAXLINLEN command && fits MAXBUFLEN (cstr "\x7b\"stdOut\": [")) = true
  · rw [if_pos hfit]
    cases h : run_command w MAXLINLEN MAXBUFLEN stray tr (cstr "\x7b\"stdOut\": [") run true with
    | none => exact all_settled_hung _ _ _ htr
    | some r =>
      have hr := all_settled_run_command _ _ _ _ _ _ _ _ _ h htr
      simp only []
      by_cases hover : r.overrun = true
      · rw [if_pos hover]
        exact all_settled_overran _ _ _ htr
      · rw [if_neg hover]
        by_cases hret : (!r.ret) = true
        · rw [if_pos hret]
          by_cases hend : fits MAXBUFLEN (r.run_command_buffer ++ cstr "]") = true
          · rw [if_pos hend]
            exact all_settled_report _ _ _ _ _ _ hr
          · rw [if_neg hend]
            exact hr
        · rw [if_neg hret]
          exact hr
  · rw [if_neg hfit]
    exact htr

theorem run_steps_settled (w : World) (MAXLINLEN MAXBUFLEN stray : Nat)
    (steps : List (List Nat × List Nat)) :
    ∀ tr, all_settled tr →
      match run_steps w MAXLINLEN MAXBUFLEN stray steps tr with
      | .returned r => all_settled r.trace
      | .next tr1 => all_settled tr1 := by
  induction steps with
  | nil =>
    intro tr htr
    exact htr
  | cons step rest ih =>
    intro tr htr
    rw [run_steps]
    have h1 := run_step_settled w MAXLINLEN MAXBUFLEN stray tr step.1 step.2 htr
    cases hs : run_step w MAXLINLEN MAXBUFLEN stray tr step.1 step.2 with
    | returned r =>
      rw [hs] at h1
      exact h1
    | next tr1 =>
      rw [hs] at h1
      exact ih tr1 h1

theorem run_steps_reply_settled (w : World) (MAXLINLEN MAXBUFLEN stray : Nat)
    (steps : List (List Nat × List Nat)) (tr : List Event) (htr : all_settled tr) :
    all_settled
      (match run_steps w MAXLINLEN MAXBUFLEN stray steps tr with
       | .returned r => r
       | .next tr1 => reply w tr1 true_reply).trace := by
  have h := run_steps_settled w MAXLINLEN MAXBUFLEN stray steps tr htr
  cases hs : run_steps w MAXLINLEN MAXBUFLEN stray steps tr with
  | returned r =>
    rw [hs] at h
    exact h
  | next tr1 =>
    rw [hs] at h
    exact all_settled_reply _ _ _ h settled_true_reply

theorem set_compcache_config_settled (w : World) (MAXLINLEN MAXBUFLEN stray fuel : Nat)
    (object : json_t) :
    all_settled
      (set_compcache_config_method w MAXLINLEN MAXBUFLEN stray fuel object).trace := by
  rw [set_compcache_config_method]
  split
  · split
    · split
      · exact all_settled_nil
      · split
        · exact all_settled_reply _ _ _ all_settled_nil (settled_invalid_reply _)
        · split
          · cases h1 : run_command w MAXLINLEN MAXBUFLEN stray [] (cstr "/lib/modules/")
                (cstr "/bin/uname -r") false with
            | none => exact all_settled_hung _ _ _ all_settled_nil
            | some un =>
              have hun := all_settled_run_command _ _ _ _ _ _ _ _ _ h1 all_settled_nil
              simp only []
              split
              · exact all_settled_overran _ _ _ all_settled_nil
              · split
                · exact all_settled_reply _ _ _ hun (settled_fixed_failure _)
                · split
                  · cases h2 : run_command w MAXLINLEN MAXBUFLEN stray un.trace []
                        memlimit_probe false with
                    | none => exact all_settled_hung _ _ _ hun
                    | some pr =>
                      have hpr := all_settled_run_command _ _ _ _ _ _ _ _ _ h2 hun
                      simp only []
                      split
                      · exact all_settled_overran _ _ _ hun
                      · split
                        · exact run_steps_reply_settled _ _ _ _ _ _ hpr
                        · split
                          · exact run_steps_reply_settled _ _ _ _ _ _ hpr
                          · exact all_settled_reply _ _ _ hpr settled_true_reply
                  · exact hun
          · exact all_settled_nil
    · exact all_settled_reply _ _ _ all_settled_nil (settled_invalid_reply _)
  · exact all_settled_nil
theorem get_params_break_settled (MAXLINLEN MAXBUFLEN : Nat) (s : GetState) (tr : List Event)
    (errorText : List Nat) (htr : all_settled tr) :
    Flow.all (fun r => all_settled r.trace)
      (fun s1 : GetState => all_settled s1.trace ∧ (s1.error = true → settled s1.buffer))
      (get_params_break MAXLINLEN MAXBUFLEN s tr errorText) := by
  unfold get_params_break
  split
  · exact ⟨htr, fun _ => settled_error_reply _⟩
  · exact htr

theorem get_params_loop_settled (w : World) (MAXLINLEN MAXBUFLEN : Nat) (directory : List Nat) :
    ∀ (names : List (List Nat)) (s : GetState), all_settled s.trace → s.error = false →
      Flow.all (fun r => all_settled r.trace)
        (fun s1 : GetState => all_settled s1.trace ∧ (s1.error = true → settled s1.buffer))
        (get_params_loop w MAXLINLEN MAXBUFLEN directory names s) := by
  intro names
  induction names with
  | nil =>
    intro s htr hb
    exact ⟨htr, fun h => by rw [hb] at h; cases h⟩
  | cons d_name rest ih =>
    intro s htr hb
    rw [get_params_loop]
    have h1 : all_settled (w.call s.trace (.stat (directory ++ cstr "/" ++ d_name))).1 :=
      all_settled_call _ _ _ (fun _ e => Call.noConfusion e) htr
    have h2 : all_settled (w.call (w.call s.trace (.stat (directory ++ cstr "/" ++ d_name))).1
        (.fopen (directory ++ cstr "/" ++ d_name) (cstr "r"))).1 :=
      all_settled_call _ _ _ (fun _ e => Call.noConfusion e) h1
    have h3 : all_settled (w.call (w.call (w.call s.trace
        (.stat (directory ++ cstr "/" ++ d_name))).1
        (.fopen (directory ++ cstr "/" ++ d_name) (cstr "r"))).1
        (.fgets (directory ++ cstr "/" ++ d_name))).1 :=
      all_settled_call _ _ _ (fun _ e => Call.noConfusion e) h2
    have h4 : all_settled (w.call (w.call (w.call (w.call s.trace
        (.stat (directory ++ cstr "/" ++ d_name))).1
        (.fopen (directory ++ cstr "/" ++ d_name) (cstr "r"))).1
        (.fgets (directory ++ cstr "/" ++ d_name))).1
        (.fclose (directory ++ cstr "/" ++ d_name))).1 :=
      all_settled_call _ _ _ (fun _ e => Call.noConfusion e) h3
    split
    · exact ih s htr hb
    · simp only []
      split
      · split
        · exact ih _ h1 hb
        · split
          · exact get_params_break_settled _ _ _ _ _ h2
          · split
            · split
              · split
                · exact get_params_break_settled _ _ _ _ _ h4
                · exact get_params_break_settled _ _ _ _ _ h4
              · exact h3
            · split
              · exact h3
              · split
                · exact get_params_break_settled _ _ _ _ _ h4
                · split
                  · exact ih _ h4 hb
                  · exact h4
      · exact htr

theorem get_cpufreq_params_settled (w : World) (MAXLINLEN MAXBUFLEN : Nat) (object : json_t) :
    ∀ text ∈ replies (get_cpufreq_params_method w MAXLINLEN MAXBUFLEN object).trace,
      settled text ∨
        (w.ok [] (.opendir (param_directory object)) = false ∧
          text = no_directory_reply (param_directory object)) := by
  have hdp : all_settled (w.call [] (.opendir (param_directory object))).1 :=
    all_settled_call _ _ _ (fun _ e => Call.noConfusion e) all_settled_nil
  have e : get_cpufreq_params_method w MAXLINLEN MAXBUFLEN object
      = if fits MAXBUFLEN true_reply && fits MAXLINLEN (param_directory object) then
          if !(w.call [] (.opendir (param_directory object))).2 then
            reply_buffer w MAXBUFLEN (w.call [] (.opendir (param_directory object))).1
              (no_directory_reply (param_directory object))
          else
            match get_params_loop w MAXLINLEN MAXBUFLEN (param_directory object)
                (w.readdir (param_directory object))
                ⟨(w.call [] (.opendir (param_directory object))).1, false, true,
                  cstr "\x7b\"params\": ["⟩ with
            | .returned r => r
            | .next s =>
              if !(w.call s.trace (.closedir (param_directory object))).2 then
                reply_buffer w MAXBUFLEN (w.call s.trace (.closedir (param_directory object))).1
                  (error_reply (cstr "Unable to close " ++ param_directory object))
              else if s.error then
                reply w (w.call s.trace (.closedir (param_directory object))).1 s.buffer
              else
                reply_buffer w MAXBUFLEN (w.call s.trace (.closedir (param_directory object))).1
                  (s.buffer ++ cstr "], \"returnValue\": " ++ cstr "true" ++
                    (match requested_governor object with
                     | some g => cstr ", \"governor\": \"" ++ g ++ cstr "\""
                     | none => []) ++ cstr "\x7d")
        else undefined_after [] := rfl
  rw [e]
  intro text ht
  split at ht
  · split at ht
    · rename_i hopen
      right
      unfold reply_buffer at ht
      split at ht
      · rw [replies_reply_only w (w.call [] (.opendir (param_directory object))).1 _ rfl,
          List.mem_singleton] at ht
        refine ⟨?_, ht⟩
        simpa [World.call] using hopen
      · cases ht
    · left
      have hl := get_params_loop_settled w MAXLINLEN MAXBUFLEN (param_directory object)
        (w.readdir (param_directory object))
        ⟨(w.call [] (.opendir (param_directory object))).1, false, true,
          cstr "\x7b\"params\": ["⟩ hdp rfl
      revert ht
      generalize get_params_loop w MAXLINLEN MAXBUFLEN (param_directory object)
        (w.readdir (param_directory object))
        ⟨(w.call [] (.opendir (param_directory object))).1, false, true,
          cstr "\x7b\"params\": ["⟩ = result at hl
      intro ht
      cases result with
      | returned r => exact hl text ht
      | next s =>
        have hl : all_settled s.trace ∧ (s.error = true → settled s.buffer) := hl
        have hcd : all_settled (w.call s.trace (.closedir (param_directory object))).1 :=
          all_settled_call _ _ _ (fun _ e => Call.noConfusion e) hl.1
        simp only [] at ht
        split at ht
        · exact all_settled_reply_buffer _ _ _ _ hcd (settled_error_reply _) text ht
        · split at ht
          · rename_i herr
            exact all_settled_reply _ _ _ hcd (hl.2 herr) text ht
          · refine all_settled_reply_buffer _ _ _ _ hcd ?_ text ht
            refine Or.inl (occurs_append_right _ _ _ (occurs_append_right _ _ _ ?_))
            rw [List.append_assoc]
            exact occurs_append_left _ _ _ (show occurs _ _ = true by decide)
  · cases ht

theorem luna_methods_settled (entry : String × (World → Setting → json_t → Run))
    (h : entry ∈ luna_methods) (w : World) (c : Setting) (object : json_t) (text : List Nat)
    (ht : text ∈ replies (entry.2 w c object).trace) :
    settled text ∨
      (entry.1 = "get_cpufreq_params" ∧
        w.ok [] (.opendir (param_directory object)) = false ∧
        text = no_directory_reply (param_directory object)) := by
  simp only [luna_methods, List.mem_cons, List.mem_singleton, List.not_mem_nil, or_false] at h
  rcases h with rfl | rfl | rfl | rfl | rfl | rfl | rfl | rfl | rfl | rfl | rfl | rfl | rfl |
    rfl | rfl | rfl | rfl | rfl | rfl | rfl | rfl | rfl | rfl | rfl | rfl
  · exact Or.inl (dummy_settled _ text ht)
  · exact Or.inl (simple_command_settled _ _ _ _ _ text ht)
  · exact Or.inl (simple_command_settled _ _ _ _ _ text ht)
  · exact Or.inl (simple_command_settled _ _ _ _ _ text ht)
  · exact Or.inl (read_single_integer_settled _ _ _ text ht)
  · exact Or.inl (read_single_integer_settled _ _ _ text ht)
  · exact Or.inl (simple_command_settled _ _ _ _ _ text ht)
  · exact Or.inl (set_tcp_congestion_control_settled _ _ _ _ text ht)
  · exact Or.inl (simple_command_settled _ _ _ _ _ text ht)
  · exact Or.inl (simple_command_settled _ _ _ _ _ text ht)
  · exact Or.inl (read_single_integer_settled _ _ _ text ht)
  · exact Or.inl (read_single_line_settled _ _ _ _ text ht)
  · rcases get_cpufreq_params_settled _ _ _ _ text ht with h1 | h1
    · exact Or.inl h1
    · exact Or.inr ⟨rfl, h1⟩
  · exact Or.inl (set_cpufreq_params_settled _ _ text ht)
  · exact Or.inl (stick_cpufreq_params_settled _ _ _ _ _ text ht)
  · exact Or.inl (unstick_settled _ _ _ _ text ht)
  · exact Or.inl (simple_command_settled _ _ _ _ _ text ht)
  · exact Or.inl (simple_command_settled _ _ _ _ _ text ht)
  · exact Or.inl (simple_command_settled _ _ _ _ _ text ht)
  · exact Or.inl (get_compcache_config_settled _ _ _ _ text ht)
  · exact Or.inl (set_compcache_config_settled _ _ _ _ _ _ text ht)
  · exact Or.inl (stick_compcache_config_settled _ _ _ _ _ text ht)
  · exact Or.inl (unstick_settled _ _ _ _ text ht)
  · exact Or.inl (getProfiles_settled _ _ _ text ht)
  · exact Or.inl (setProfile_settled _ _ _ text ht)
/-! ## Replies that report a failure -/

set_option maxRecDepth 8192 in
/-- Claim C18, as the code has it.  The reply `get_cpufreq_params` (a handler of
the table) sends when the parameter directory cannot be opened holds
`"returnValue": false` and an `errorText`, but no `errorCode`.  And with arrays
of 1024 bytes a governor string of 987 letters does not fit `directory`: the
handler writes beyond the array before it makes any call, and what it replies
after that is not defined. -/
theorem get_cpufreq_params_no_errorCode :
    (∃ entry ∈ luna_methods, entry.1 = "get_cpufreq_params" ∧
      replies (entry.2 (fails_at 0) ⟨1024, 1024, 0, 0⟩ (governor_request "bogus")).trace
        = [cstr "\x7b\"errorText\": \"Unable to open /sys/devices/system/cpu/cpu0/cpufreq/bogus\", \"returnValue\": false \x7d"]) ∧
    occurs (cstr "\"returnValue\": false")
      (cstr "\x7b\"errorText\": \"Unable to open /sys/devices/system/cpu/cpu0/cpufreq/bogus\", \"returnValue\": false \x7d") = true ∧
    occurs (cstr "errorCode")
      (cstr "\x7b\"errorText\": \"Unable to open /sys/devices/system/cpu/cpu0/cpufreq/bogus\", \"returnValue\": false \x7d") = false ∧
    get_cpufreq_params_method all_ok 1024 1024
        (.JSON_OBJECT [(cstr "governor", .JSON_STRING (List.replicate 987 97))])
      = undefined_after [] := by
  refine ⟨⟨("get_cpufreq_params",
    fun w c o => get_cpufreq_params_method w c.MAXLINLEN c.MAXBUFLEN o), ?_, rfl, ?_⟩, ?_, ?_, ?_⟩
  · simp [luna_methods]
  · decide
  · decide
  · decide
  · decide

/-- Claim C18, amended.  A run is followed up to its first write beyond an
array.  Every reply that a handler of the table `luna_methods` sends in a run
holds `"returnValue": true`, or holds `"returnValue": false, "errorCode": -1`
and an `errorText` member, or is the reply of `get_cpufreq_params` for a
parameter directory that cannot be opened,
`{"errorText": "Unable to open <directory>", "returnValue": false }`. -/
theorem luna_methods_failures (entry : String × (World → Setting → json_t → Run))
    (h : entry ∈ luna_methods) (w : World) (c : Setting) (object : json_t) (text : List Nat)
    (ht : text ∈ replies (entry.2 w c object).trace) :
    occurs (cstr "\"returnValue\": true") text = true ∨
    (occurs (cstr "\"returnValue\": false, \"errorCode\": -1") text = true ∧
      occurs (cstr "\"errorText\": \"") text = true) ∨
    (entry.1 = "get_cpufreq_params" ∧
      w.ok [] (.opendir (param_directory object)) = false ∧
      text = cstr "\x7b\"errorText\": \"Unable to open " ++ param_directory object ++
        cstr "\", \"returnValue\": false \x7d") := by
  rcases luna_methods_settled entry h w c object text ht with (ha | ⟨hf, he⟩) | hn
  · exact Or.inl ha
  · exact Or.inr (Or.inl ⟨hf, he⟩)
  · exact Or.inr (Or.inr hn)

set_option maxRecDepth 8192 in
theorem luna_methods_failures_witness :
    occurs (cstr "\"returnValue\": true")
        (error_reply (cstr "Unable to open /sys/devices/platform/omap34xx_temp/temp1_input"))
      = true ∨
    (occurs (cstr "\"returnValue\": false, \"errorCode\": -1")
        (error_reply (cstr "Unable to open /sys/devices/platform/omap34xx_temp/temp1_input"))
      = true ∧
      occurs (cstr "\"errorText\": \"")
        (error_reply (cstr "Unable to open /sys/devices/platform/omap34xx_temp/temp1_input"))
      = true) ∨
    (("get_omap34xx_temp" : String) = "get_cpufreq_params" ∧
      (fails_at 0).ok [] (.opendir (param_directory (.JSON_OBJECT []))) = false ∧
      error_reply (cstr "Unable to open /sys/devices/platform/omap34xx_temp/temp1_input")
        = cstr "\x7b\"errorText\": \"Unable to open " ++ param_directory (.JSON_OBJECT []) ++
          cstr "\", \"returnValue\": false \x7d") :=
  luna_methods_failures
    ("get_omap34xx_temp", fun w c _ => get_omap34xx_temp_method w c.MAXBUFLEN)
    (by simp [luna_methods]) (fails_at 0) ⟨1024, 1024, 0, 0⟩ (.JSON_OBJECT []) _
    (by decide)

/-! ## `json_escape_str` and concatenation -/

theorem escaped_append (s t : List Nat) : escaped (s ++ t) = escaped s ++ escaped t := by
  induction s with
  | nil => rfl
  | cons c s ih =>
    rw [List.cons_append, escaped, escaped, ih, List.append_assoc]

theorem escaped_eq_flatten (s : List Nat) : escaped s = (s.map emitted).flatten := by
  induction s with
  | nil => rfl
  | cons c s ih => rw [escaped, ih, List.map_cons, List.flatten_cons]

/-- Claim C21: for strings `s` and `t` without NUL whose lengths add up to at
most `MAXBUFLEN`, `json_escape_str` returns for each of `s`, `t` and `s ++ t`,
whatever `esc_buffer` held before, and the string returned for `s ++ t` is the
one returned for `s` followed by the one returned for `t`; the string returned
is the concatenation of what each byte of the input contributes by itself. -/
theorem json_escape_str_append (MAXBUFLEN : Nat) (b0 b1 b2 s t : List Nat)
    (hs : ∀ b ∈ s, b ≠ 0) (ht : ∀ b ∈ t, b ≠ 0) (hlen : s.length + t.length ≤ MAXBUFLEN) :
    ∃ x y, json_escape_str MAXBUFLEN b1 s = some x ∧ json_escape_str MAXBUFLEN b2 t = some y ∧
      json_escape_str MAXBUFLEN b0 (s ++ t) = some (x ++ y) ∧
      json_escape_str MAXBUFLEN b0 (s ++ t) = some ((s ++ t).map emitted).flatten := by
  have hst : ∀ b ∈ s ++ t, b ≠ 0 := by
    intro b hb
    rcases List.mem_append.1 hb with h | h
    · exact hs b h
    · exact ht b h
  have hl : (s ++ t).length ≤ MAXBUFLEN := by
    rw [List.length_append]
    exact hlen
  refine ⟨escaped s, escaped t, json_escape_str_eq _ _ _ hs (by omega),
    json_escape_str_eq _ _ _ ht (by omega), ?_, ?_⟩
  · rw [json_escape_str_eq _ _ _ hst hl, escaped_append]
  · rw [json_escape_str_eq _ _ _ hst hl, escaped_eq_flatten]

theorem json_escape_str_append_witness :
    ∃ x y, json_escape_str 8 [] (cstr "a\"") = some x ∧
      json_escape_str 8 [] (cstr "\nb") = some y ∧
      json_escape_str 8 [] (cstr "a\"" ++ cstr "\nb") = some (x ++ y) ∧
      json_escape_str 8 [] (cstr "a\"" ++ cstr "\nb")
        = some ((cstr "a\"" ++ cstr "\nb").map emitted).flatten :=
  json_escape_str_append 8 [] [] [] (cstr "a\"") (cstr "\nb") (by decide) (by decide)
    (by decide)

/-! ## `set_cpufreq_params`: the governor directory -/

theorem run_command_commands (w : World) (MAXLINLEN MAXBUFLEN stray : Nat) (tr : List Event)
    (run_command_buffer command : List Nat) (escape_output : Bool) (r : CommandResult)
    (h : run_command w MAXLINLEN MAXBUFLEN stray tr run_command_buffer command escape_output
      = some r) :
    (r.trace = tr ++ [⟨.popen command, false⟩] ∧ r.ret = false) ∨
    (r.trace = tr ++ [⟨.popen command, true⟩, ⟨.pclose command, r.ret⟩]) := by
  rw [run_command] at h
  simp only at h
  by_cases hp : w.ok tr (.popen command) = true
  · right
    simp only [World.call, hp, Bool.not_true, Bool.false_eq_true, if_false] at h
    cases hl : read_loop MAXLINLEN MAXBUFLEN stray escape_output (w.stdout tr command).length
        (w.stdout tr command) ⟨true, false, run_command_buffer, false⟩ with
    | none =>
      rw [hl] at h
      cases h
    | some s =>
      rw [hl] at h
      cases h
      simp
  · left
    have hp1 : w.ok tr (.popen command) = false := by simpa using hp
    simp only [World.call, hp1, Bool.not_false, if_true] at h
    cases h
    exact ⟨rfl, rfl⟩

theorem run_steps_append (w : World) (MAXLINLEN MAXBUFLEN stray : Nat)
    (a b : List (List Nat × List Nat)) :
    ∀ tr, run_steps w MAXLINLEN MAXBUFLEN stray (a ++ b) tr
      = match run_steps w MAXLINLEN MAXBUFLEN stray a tr with
        | .returned r => .returned r
        | .next tr1 => run_steps w MAXLINLEN MAXBUFLEN stray b tr1 := by
  induction a with
  | nil => intro tr; rfl
  | cons step a ih =>
    intro tr
    rw [List.cons_append, run_steps, run_steps]
    cases run_step w MAXLINLEN MAXBUFLEN stray tr step.1 step.2 with
    | returned r => rfl
    | next tr1 => exact ih tr1

theorem run_steps_next (w : World) (MAXLINLEN MAXBUFLEN stray : Nat)
    (steps : List (List Nat × List Nat)) :
    ∀ tr tr1, run_steps w MAXLINLEN MAXBUFLEN stray steps tr = .next tr1 →
      tr1 = tr ++ ran (steps.map Prod.fst) := by
  induction steps with
  | nil =>
    intro tr tr1 h
    rw [run_steps] at h
    cases h
    simp [ran]
  | cons step steps ih =>
    intro tr tr1 h
    rw [run_steps, run_step] at h
    split_ifs at h with hfit
    cases hr : run_command w MAXLINLEN MAXBUFLEN stray tr (cstr "\x7b\"stdOut\": [") step.1
        true with
    | none =>
      rw [hr] at h
      cases h
    | some r =>
      rw [hr] at h
      simp only at h
      by_cases hret : r.ret = true
      · rw [hret] at h
        split_ifs at h
        rw [ih _ _ h]
        rcases run_command_commands _ _ _ _ _ _ _ _ _ hr with ⟨_, h2⟩ | h1
        · rw [hret] at h2
          cases h2
        · rw [h1, hret]
          simp [ran, List.append_assoc]
      · have hret1 : r.ret = false := by simpa using hret
        rw [hret1] at h
        split_ifs at h
        simp at *

/-- In a sequence of commands whose first steps `pre` succeed and whose next
step fails, the arrays holding the texts of that step, the calls are those of
`pre` and of the step that failed, and the handler returns with the failure
report of the text held in `command`. -/
theorem run_steps_first_failure (w : World) (MAXLINLEN MAXBUFLEN stray : Nat)
    (pre rest : List (List Nat × List Nat)) (step : List Nat × List Nat)
    (tr tr1 : List Event) (r : CommandResult)
    (hpre : run_steps w MAXLINLEN MAXBUFLEN stray pre tr = .next tr1)
    (hcommand : fits MAXLINLEN step.2 = true)
    (hstart : fits MAXBUFLEN (cstr "\x7b\"stdOut\": [") = true)
    (hrun : run_command w MAXLINLEN MAXBUFLEN stray tr1 (cstr "\x7b\"stdOut\": [") step.1 true
      = some r)
    (hwithin : r.overrun = false)
    (hend : fits MAXBUFLEN (r.run_command_buffer ++ cstr "]") = true)
    (hfail : r.ret = false) :
    run_steps w MAXLINLEN MAXBUFLEN stray (pre ++ step :: rest) tr
      = .returned (report_command_failure w MAXBUFLEN r.trace step.2
          (some ((r.run_command_buffer ++ cstr "]").drop 11)) none) ∧
    tr1 = tr ++ ran (pre.map Prod.fst) ∧
    (r.trace = tr1 ++ [⟨.popen step.1, false⟩] ∨
      r.trace = tr1 ++ [⟨.popen step.1, true⟩, ⟨.pclose step.1, false⟩]) := by
  refine ⟨?_, run_steps_next _ _ _ _ _ _ _ hpre, ?_⟩
  · rw [run_steps_append, hpre]
    simp only
    rw [run_steps, run_step, hrun]
    simp only [hcommand, hstart, hwithin, hend, hfail, Bool.and_self, Bool.not_false, if_true,
      Bool.false_eq_true, if_false]
  · rcases run_command_commands _ _ _ _ _ _ _ _ _ hrun with ⟨h1, _⟩ | h1
    · exact Or.inl h1
    · rw [hfail] at h1
      exact Or.inr h1

set_option maxRecDepth 8192 in
/-- Claim C23, evaluated on the code.  When `/sbin/rmmod xvmalloc`, the third
command of the disable sequence, exits with a status that is not zero, no
further command is run and one failure report is sent; its `errorText` names
`/sbin/rmmod xvmalloc 2>&1`, the text held in `command`, which is not among
the commands that were run: the command run is `/sbin/rmmod xvmalloc`. -/
theorem set_compcache_config_names_other_command :
    set_compcache_config_method busy_world 1024 1024 0 2
        (compcache_request [param_entry "compcache_enabled" "0",
          param_entry "compcache_memlimit" "16384"])
      = reply busy_world
          (ran [cstr "/bin/uname -r", memlimit_probe, cstr "/sbin/swapoff -a 2>&1",
              cstr "/sbin/rmmod ramzswap 2>&1"] ++
            [⟨.popen (cstr "/sbin/rmmod xvmalloc"), true⟩,
             ⟨.pclose (cstr "/sbin/rmmod xvmalloc"), false⟩])
          (cstr "\x7b\"errorText\": \"Unable to run command: /sbin/rmmod xvmalloc 2>&1\", \"stdErr\": [], \"returnValue\": false, \"errorCode\": -1\x7d") ∧
    commands (set_compcache_config_method busy_world 1024 1024 0 2
        (compcache_request [param_entry "compcache_enabled" "0",
          param_entry "compcache_memlimit" "16384"])).trace
      = [cstr "/bin/uname -r", memlimit_probe, cstr "/sbin/swapoff -a 2>&1",
          cstr "/sbin/rmmod ramzswap 2>&1", cstr "/sbin/rmmod xvmalloc"] ∧
    cstr "/sbin/rmmod xvmalloc 2>&1"
      ∉ commands (set_compcache_config_method busy_world 1024 1024 0 2
          (compcache_request [param_entry "compcache_enabled" "0",
            param_entry "compcache_memlimit" "16384"])).trace := by
  refine ⟨?_, ?_, ?_⟩ <;> decide
/-! ## Sticky scripts: a line that does not fit -/

theorem allowed_text_replicate (n c : Nat) (hc : c ∈ ALLOWED_CHARS) (h0 : c ≠ 0) :
    allowed_text (some (.JSON_STRING (List.replicate n c))) = some (List.replicate n c) := by
  have h1 : strspn (List.replicate n c) ALLOWED_CHARS = n := by
    unfold strspn
    rw [List.takeWhile_replicate]
    simp [h0, hc]
  have h2 : strlen (List.replicate n c) = n := by
    unfold strlen
    rw [List.takeWhile_replicate]
    simp [h0]
  have h3 : c_string (List.replicate n c) = List.replicate n c := by
    unfold c_string
    rw [List.takeWhile_replicate]
    simp [h0]
  unfold allowed_text
  simp only [h1, h2, h3, ne_eq, not_true_eq_false, if_false]

/-- An entry whose value is a letter or digit repeated passes the tests of the
handlers, however long the value is. -/
theorem check_entry_replicate (name : String) (n c : Nat)
    (hname : allowed_text (some (.JSON_STRING (cstr name))) = some (cstr name))
    (hc : c ∈ ALLOWED_CHARS) (h0 : c ≠ 0) :
    check_entry (.JSON_OBJECT [(cstr "name", .JSON_STRING (cstr name)),
        (cstr "value", .JSON_STRING (List.replicate n c))])
      = .valid (cstr name) (List.replicate n c) := by
  have h1 : json_find_first_label (.JSON_OBJECT [(cstr "name", .JSON_STRING (cstr name)),
      (cstr "value", .JSON_STRING (List.replicate n c))]) (cstr "name")
      = some (.JSON_STRING (cstr name)) := rfl
  have h2 : json_find_first_label (.JSON_OBJECT [(cstr "name", .JSON_STRING (cstr name)),
      (cstr "value", .JSON_STRING (List.replicate n c))]) (cstr "value")
      = some (.JSON_STRING (List.replicate n c)) := rfl
  unfold check_entry
  simp only [h1, h2, hname, allowed_text_replicate n c hc h0]

theorem ramzswap_line_length (memlimit : List Nat) :
    (ramzswap_line memlimit).length = memlimit.length + 98 := by
  unfold ramzswap_line
  rw [List.length_append, List.length_append]
  have h1 : (cstr "insmod /lib/modules/`uname -r`/extra/ramzswap.ko memlimit_kb=").length = 61 := by
    decide
  have h2 : (cstr " backing_swap=/dev/mapper/store-swap\n").length = 37 := by decide
  omega

theorem echo_line_length (value directory name : List Nat) :
    (echo_line value directory name).length
      = value.length + directory.length + name.length + 15 := by
  unfold echo_line
  simp only [List.length_append]
  have h1 : (cstr "echo -n \x27").length = 9 := by decide
  have h2 : (cstr "\x27 > ").length = 4 := by decide
  have h3 : (cstr "/").length = 1 := by decide
  have h4 : (cstr "\n").length = 1 := by decide
  omega

theorem echo_line_long (size n c : Nat) (directory name : List Nat) (h : size ≤ n) :
    size ≤ (echo_line (List.replicate n c) directory name).length := by
  rw [echo_line_length, List.length_replicate]
  omega

theorem ramzswap_line_long (size n c : Nat) (h : size ≤ n) :
    size ≤ (ramzswap_line (List.replicate n c)).length := by
  rw [ramzswap_line_length, List.length_replicate]
  omega

theorem stick_generic_loop_overrun (w : World) (MAXLINLEN MAXBUFLEN fuel : Nat) (entry : json_t)
    (name value : List Nat) (rest : List json_t) (s : StickState)
    (hentry : check_entry entry = .valid name value)
    (hlong : MAXLINLEN ≤ (echo_line value cpufreqdir name).length) :
    stick_generic_loop w MAXLINLEN MAXBUFLEN (fuel + 1) (entry :: rest) s
      = .returned (undefined_after s.trace) := by
  rw [stick_generic_loop, hentry]
  simp only [not_fits_of_length _ _ hlong, Bool.false_eq_true, if_false]

theorem stick_governor_loop_overrun (w : World) (MAXLINLEN MAXBUFLEN fuel : Nat)
    (directory : List Nat) (entry : json_t) (name value : List Nat) (rest : List json_t)
    (s : StickState) (hentry : check_entry entry = .valid name value)
    (hlong : MAXLINLEN ≤ (echo_line value directory name).length) :
    stick_governor_loop w MAXLINLEN MAXBUFLEN directory (fuel + 1) (entry :: rest) s
      = .returned (undefined_after s.trace) := by
  rw [stick_governor_loop, hentry]
  simp only [not_fits_of_length _ _ hlong, Bool.false_eq_true, if_false]

/-- Claim C10, evaluated on the code.  In a world where the write of the first
parameter line would fail, a `genericParams` entry whose line
`echo -n '<value>' > <cpufreqdir>/<name>` does not fit `line[MAXLINLEN]` makes
`stick_cpufreq_params` write beyond `line` (the array `filename`, which names
the file to unlink, is declared next to it): the run leaves the defined
behaviour after the header is written, with the script file in place and no
`unlink` of the script path made. -/
theorem sticky_line_overrun (MAXLINLEN MAXBUFLEN fuel : Nat) (entry : json_t)
    (name value : List Nat) (rest govs : List json_t)
    (hline : 53 ≤ MAXLINLEN) (hbuffer : 23 ≤ MAXBUFLEN)
    (hentry : check_entry entry = .valid name value)
    (hlong : MAXLINLEN ≤ (echo_line value cpufreqdir name).length) :
    stick_cpufreq_params_method (fails_at 11) MAXLINLEN MAXBUFLEN (fuel + 1)
        (params_request (entry :: rest) govs)
      = undefined_after (fputs_each (fails_at 11) govnah_settings settings_header
          ([⟨.fopen govnah_settings (cstr "w"), true⟩], false)).1 ∧
    file_exists govnah_settings (fputs_each (fails_at 11) govnah_settings settings_header
        ([⟨.fopen govnah_settings (cstr "w"), true⟩], false)).1 false = true ∧
    ∀ ok, (⟨.unlink govnah_settings, ok⟩ : Event) ∉
      (fputs_each (fails_at 11) govnah_settings settings_header
        ([⟨.fopen govnah_settings (cstr "w"), true⟩], false)).1 := by
  have hb : fits MAXBUFLEN true_reply = true := fits_of_length _ 22 _ (by decide) (by omega)
  have hf : fits MAXLINLEN govnah_settings = true := fits_of_length _ 52 _ (by decide) (by omega)
  have hc : fits MAXLINLEN cpufreqdir = true := fits_of_length _ 36 _ (by decide) (by omega)
  have hd : (fputs_each (fails_at 11) govnah_settings settings_header
      (((fails_at 11).call [] (.fopen govnah_settings (cstr "w"))).1, false)).2 = false := by
    decide
  have ho : ((fails_at 11).call [] (.fopen govnah_settings (cstr "w"))).2 = true := rfl
  refine ⟨?_, by decide, by decide⟩
  unfold stick_cpufreq_params_method
  rw [find_genericParams, find_governorParams]
  simp only [hb, hf, hc, ho, hd, Bool.not_true, Bool.false_eq_true, if_false, if_true]
  rw [stick_generic_loop_overrun _ _ _ _ _ _ _ _ _ hentry hlong]
  rfl

theorem sticky_line_overrun_witness :
    stick_cpufreq_params_method (fails_at 11) 1024 1024 (0 + 1)
        (params_request
          (.JSON_OBJECT [(cstr "name", .JSON_STRING (cstr "scaling_max_freq")),
            (cstr "value", .JSON_STRING (List.replicate 1024 57))] :: []) [])
      = undefined_after (fputs_each (fails_at 11) govnah_settings settings_header
          ([⟨.fopen govnah_settings (cstr "w"), true⟩], false)).1 ∧
    file_exists govnah_settings (fputs_each (fails_at 11) govnah_settings settings_header
        ([⟨.fopen govnah_settings (cstr "w"), true⟩], false)).1 false = true ∧
    ∀ ok, (⟨.unlink govnah_settings, ok⟩ : Event) ∉
      (fputs_each (fails_at 11) govnah_settings settings_header
        ([⟨.fopen govnah_settings (cstr "w"), true⟩], false)).1 :=
  sticky_line_overrun 1024 1024 0
    (.JSON_OBJECT [(cstr "name", .JSON_STRING (cstr "scaling_max_freq")),
      (cstr "value", .JSON_STRING (List.replicate 1024 57))])
    (cstr "scaling_max_freq") (List.replicate 1024 57) [] []
    (by decide) (by decide)
    (check_entry_replicate "scaling_max_freq" 1024 57 (by decide) (by decide) (by decide))
    (echo_line_long 1024 1024 57 cpufreqdir (cstr "scaling_max_freq") (by decide))
/-- Claim C20, evaluated on the code.  With every call succeeding and every
entry valid, a `governorParams` entry whose line
`echo -n '<value>' > <cpufreqdir>/ondemand/<name>` does not fit
`line[MAXLINLEN]` makes `stick_cpufreq_params` write beyond `line` (the arrays
`filename` and `directory` are declared next to it): the run leaves the
defined behaviour when the header and the line of `scaling_governor` are
written, before any line of `governorParams`, the closing lines and the
reply. -/
theorem stick_cpufreq_params_line_overrun (MAXLINLEN MAXBUFLEN fuel : Nat) (entry : json_t)
    (name value : List Nat) (rest : List json_t)
    (hline : 76 ≤ MAXLINLEN) (hbuffer : 23 ≤ MAXBUFLEN)
    (hentry : check_entry entry = .valid name value)
    (hlong : MAXLINLEN ≤
      (echo_line value (cpufreqdir ++ cstr "/" ++ cstr "ondemand") name).length) :
    stick_cpufreq_params_method all_ok MAXLINLEN MAXBUFLEN (fuel + 1)
        (params_request [param_entry "scaling_governor" "ondemand"] (entry :: rest))
      = undefined_after (fputs_each all_ok govnah_settings
          (settings_header ++ [echo_line (cstr "ondemand") cpufreqdir (cstr "scaling_governor")])
          ([⟨.fopen govnah_settings (cstr "w"), true⟩], false)).1 ∧
    replies (fputs_each all_ok govnah_settings
        (settings_header ++ [echo_line (cstr "ondemand") cpufreqdir (cstr "scaling_governor")])
        ([⟨.fopen govnah_settings (cstr "w"), true⟩], false)).1 = [] := by
  have hb : fits MAXBUFLEN true_reply = true := fits_of_length _ 22 _ (by decide) (by omega)
  have hf : fits MAXLINLEN govnah_settings = true := fits_of_length _ 52 _ (by decide) (by omega)
  have hc : fits MAXLINLEN cpufreqdir = true := fits_of_length _ 36 _ (by decide) (by omega)
  have hg : fits MAXLINLEN (cpufreqdir ++ cstr "/" ++ cstr "ondemand") = true :=
    fits_of_length _ 45 _ (by decide) (by omega)
  have he : fits MAXLINLEN (echo_line (cstr "ondemand") cpufreqdir (cstr "scaling_governor"))
      = true := fits_of_length _ 75 _ (by decide) (by omega)
  have hd : (fputs_each all_ok govnah_settings settings_header
      ((all_ok.call [] (.fopen govnah_settings (cstr "w"))).1, false)).2 = false := by decide
  have ho : (all_ok.call [] (.fopen govnah_settings (cstr "w"))).2 = true := rfl
  have hv : check_entry (param_entry "scaling_governor" "ondemand")
      = .valid (cstr "scaling_governor") (cstr "ondemand") := by decide
  refine ⟨?_, by decide⟩
  unfold stick_cpufreq_params_method
  rw [find_genericParams, find_governorParams]
  simp only [hb, hf, hc, ho, hd, Bool.not_true, Bool.false_eq_true, if_false, if_true]
  rw [stick_generic_loop, hv]
  simp only [he, if_true]
  have hw : (all_ok.call (fputs_each all_ok govnah_settings settings_header
      ((all_ok.call [] (.fopen govnah_settings (cstr "w"))).1, false)).1
      (.fputs govnah_settings
        (echo_line (cstr "ondemand") cpufreqdir (cstr "scaling_governor")))).2 = true := rfl
  simp only [hw, Bool.not_true, Bool.false_eq_true, if_false]
  cases fuel with
  | zero =>
    simp only [stick_generic_loop, hg, if_true]
    rw [stick_governor_loop_overrun _ _ _ _ _ _ _ _ _ _ hentry hlong]
    rfl
  | succ n =>
    simp only [stick_generic_loop, hg, if_true]
    rw [stick_governor_loop_overrun _ _ _ _ _ _ _ _ _ _ hentry hlong]
    rfl

theorem stick_cpufreq_params_line_overrun_witness :
    stick_cpufreq_params_method all_ok 1024 1024 (0 + 1)
        (params_request [param_entry "scaling_governor" "ondemand"]
          (.JSON_OBJECT [(cstr "name", .JSON_STRING (cstr "up_threshold")),
            (cstr "value", .JSON_STRING (List.replicate 2048 57))] :: []))
      = undefined_after (fputs_each all_ok govnah_settings
          (settings_header ++ [echo_line (cstr "ondemand") cpufreqdir (cstr "scaling_governor")])
          ([⟨.fopen govnah_settings (cstr "w"), true⟩], false)).1 ∧
    replies (fputs_each all_ok govnah_settings
        (settings_header ++ [echo_line (cstr "ondemand") cpufreqdir (cstr "scaling_governor")])
        ([⟨.fopen govnah_settings (cstr "w"), true⟩], false)).1 = [] :=
  stick_cpufreq_params_line_overrun 1024 1024 0
    (.JSON_OBJECT [(cstr "name", .JSON_STRING (cstr "up_threshold")),
      (cstr "value", .JSON_STRING (List.replicate 2048 57))])
    (cstr "up_threshold") (List.replicate 2048 57) []
    (by decide) (by decide)
    (check_entry_replicate "up_threshold" 2048 57 (by decide) (by decide) (by decide))
    (echo_line_long 1024 2048 57 (cpufreqdir ++ cstr "/" ++ cstr "ondemand")
      (cstr "up_threshold") (by decide))

/-- Claim C19, evaluated on the code.  With every call succeeding, a
`compcache_memlimit` whose line
`insmod ... memlimit_kb=<memlimit> backing_swap=/dev/mapper/store-swap` does
not fit `line[MAXLINLEN]` makes `stick_compcache_config` write beyond `line`
(the text of the reply waits in `buffer`, declared after `line`, `filename`
and `directory`): the run leaves the defined behaviour when the header and two
commands are written, and it has sent no reply by then. -/
theorem stick_compcache_config_line_overrun (MAXLINLEN MAXBUFLEN fuel : Nat) (entry : json_t)
    (memlimit : List Nat) (hline : 54 ≤ MAXLINLEN) (hbuffer : 23 ≤ MAXBUFLEN)
    (hentry : check_entry entry = .valid (cstr "compcache_memlimit") memlimit)
    (hlong : MAXLINLEN ≤ (ramzswap_line memlimit).length) :
    stick_compcache_config_method all_ok MAXLINLEN MAXBUFLEN (fuel + 2)
        (compcache_request [param_entry "compcache_enabled" "1", entry])
      = undefined_after (fputs_each all_ok govnah_compcache
          (compcache_header ++ [cstr "swapoff -a\n",
            cstr "insmod /lib/modules/`uname -r`/extra/xvmalloc.ko\n"])
          ([⟨.fopen govnah_compcache (cstr "w"), true⟩], false)).1 ∧
    replies (fputs_each all_ok govnah_compcache
        (compcache_header ++ [cstr "swapoff -a\n",
          cstr "insmod /lib/modules/`uname -r`/extra/xvmalloc.ko\n"])
        ([⟨.fopen govnah_compcache (cstr "w"), true⟩], false)).1 = [] := by
  have hb : fits MAXBUFLEN true_reply = true := fits_of_length _ 22 _ (by decide) (by omega)
  have hf : fits MAXLINLEN govnah_compcache = true := fits_of_length _ 53 _ (by decide) (by omega)
  have hfind : json_find_first_label
      (compcache_request [param_entry "compcache_enabled" "1", entry]) (cstr "compcacheConfig")
      = some (.JSON_ARRAY [param_entry "compcache_enabled" "1", entry]) := rfl
  have hv : check_entry (param_entry "compcache_enabled" "1")
      = .valid (cstr "compcache_enabled") (cstr "1") := by decide
  have hloop : compcache_entry_loop (fuel + 2) [param_entry "compcache_enabled" "1", entry]
      ⟨false, none⟩ = some ⟨true, some memlimit⟩ := by
    rw [compcache_entry_loop, hv]
    simp only
    rw [compcache_entry_loop, hentry]
    simp only
    rw [compcache_entry_loop.eq_1]
    · rfl
  refine ⟨?_, by decide⟩
  unfold stick_compcache_config_method
  rw [hfind]
  simp only [hb, hf, hloop, if_true, not_fits_of_length _ _ hlong, Bool.false_eq_true, if_false]
  rfl

theorem stick_compcache_config_line_overrun_witness :
    stick_compcache_config_method all_ok 1024 1024 (0 + 2)
        (compcache_request [param_entry "compcache_enabled" "1",
          .JSON_OBJECT [(cstr "name", .JSON_STRING (cstr "compcache_memlimit")),
            (cstr "value", .JSON_STRING (List.replicate 3072 49))]])
      = undefined_after (fputs_each all_ok govnah_compcache
          (compcache_header ++ [cstr "swapoff -a\n",
            cstr "insmod /lib/modules/`uname -r`/extra/xvmalloc.ko\n"])
          ([⟨.fopen govnah_compcache (cstr "w"), true⟩], false)).1 ∧
    replies (fputs_each all_ok govnah_compcache
        (compcache_header ++ [cstr "swapoff -a\n",
          cstr "insmod /lib/modules/`uname -r`/extra/xvmalloc.ko\n"])
        ([⟨.fopen govnah_compcache (cstr "w"), true⟩], false)).1 = [] :=
  stick_compcache_config_line_overrun 1024 1024 0
    (.JSON_OBJECT [(cstr "name", .JSON_STRING (cstr "compcache_memlimit")),
      (cstr "value", .JSON_STRING (List.replicate 3072 49))])
    (List.replicate 3072 49) (by decide) (by decide)
    (check_entry_replicate "compcache_memlimit" 3072 49 (by decide) (by decide) (by decide))
    (ramzswap_line_long 1024 3072 49 (by decide))
/-! ## `set_compcache_config`: requests that do not come to an end -/

theorem first_line_newline (b rest : List Nat) (h : 10 ∉ b) :
    first_line (b ++ 10 :: rest) = b ++ [10] := by
  induction b with
  | nil => simp [first_line]
  | cons a b ih =>
    have ha : a ≠ 10 := fun e => h (by simp [e])
    have hb : 10 ∉ b := fun e => h (by simp [e])
    have e : (a :: b) ++ 10 :: rest = a :: (b ++ 10 :: rest) := rfl
    rw [e, first_line, if_neg ha, ih hb]
    rfl

theorem fgets_line (n : Nat) (b rest : List Nat) (h : 10 ∉ b)
    (hlen : (with_newline b).length < n) :
    fgets n (with_newline b ++ rest) = some (with_newline b) ∧
    fgets_rest n (with_newline b ++ rest) = rest := by
  unfold with_newline at hlen ⊢
  simp only [List.length_append, List.length_singleton] at hlen
  have hne : b ++ [10] ++ rest ≠ [] := by simp
  have htake : (b ++ [10] ++ rest).take (n - 1)
      = b ++ 10 :: rest.take (n - 1 - (b.length + 1)) := by
    rw [List.append_assoc, List.take_append_eq_append_take, List.take_of_length_le (by omega)]
    congr 1
    have e : n - 1 - b.length = (n - 1 - (b.length + 1)) + 1 := by omega
    rw [e]
    simp
  have hfl : first_line ((b ++ [10] ++ rest).take (n - 1)) = b ++ [10] := by
    rw [htake]; exact first_line_newline b _ h
  constructor
  · unfold fgets
    rw [if_neg hne, hfl]
  · unfold fgets_rest
    rw [hfl]
    simp

theorem c_string_nul_free (s : List Nat) (h : 0 ∉ s) : c_string s = s := by
  unfold c_string
  induction s with
  | nil => rfl
  | cons a s ih =>
    have ha : a ≠ 0 := fun e => h (by simp [e])
    have hs : 0 ∉ s := fun e => h (by simp [e])
    have ih1 := ih hs
    simp only [List.takeWhile_cons, ha, ne_eq, not_false_eq_true, decide_True, if_true]
    rw [ih1]

theorem chomp_line (b : List Nat) (h0 : 0 ∉ b) (h10 : 10 ∉ b) : chomp (with_newline b) = b := by
  unfold chomp with_newline
  have h : (0 : Nat) ∉ b ++ [10] := by simp [h0]
  rw [c_string_nul_free _ h]
  induction b with
  | nil => simp
  | cons a b ih =>
    have ha : a ≠ 10 := fun e => h10 (by simp [e])
    have hb0 : 0 ∉ b := fun e => h0 (by simp [e])
    have hb10 : 10 ∉ b := fun e => h10 (by simp [e])
    have hb : (0 : Nat) ∉ b ++ [10] := by simp [hb0]
    simp only [List.cons_append, List.takeWhile_cons, ha, ne_eq, not_false_eq_true, decide_True,
      if_true]
    rw [ih hb0 hb10 hb]

/-- A string of `n` double quotes that passes the length check of
`json_escape_str` takes `2 * n` bytes and a NUL when escaped: with
`MAXBUFLEN ≤ 2 * n` the writes go beyond `esc_buffer`. -/
theorem escape_within_quotes (MAXBUFLEN n : Nat) (hcheck : n ≤ MAXBUFLEN)
    (hlong : MAXBUFLEN ≤ 2 * n) : escape_within MAXBUFLEN (List.replicate n 34) = false := by
  obtain ⟨st, rest, h1, _, h3, h4⟩ := json_escape_run_spec MAXBUFLEN [] (List.replicate n 34)
    (by intro b hb; rw [List.eq_of_mem_replicate hb]; decide) (by simpa using hcheck)
  rw [escaped_replicate_quote] at h3
  unfold escape_within
  rw [h1]
  exact decide_eq_false (by omega)

/-- Claim C15, evaluated on the code.  A command that starts, prints one line
of `n` double quotes, shorter than `MAXLINLEN`, and exits with status zero has
its line escaped into `2 * n` bytes.  When they do not fit `esc_buffer`
(`MAXBUFLEN ≤ 2 * n`), `json_escape_str` writes beyond it, into
`run_command_buffer`, which is declared next and holds the reply: the run of
`simple_command` leaves the defined behaviour while the output is read, and no
reply is sent before. -/
theorem simple_command_overrun (w : World) (MAXLINLEN MAXBUFLEN stray n : Nat)
    (command : List Nat) (hstart : 13 ≤ MAXBUFLEN) (hline : n + 2 ≤ MAXLINLEN)
    (hcheck : n ≤ MAXBUFLEN) (hlong : MAXBUFLEN ≤ 2 * n)
    (hopen : w.ok [] (.popen command) = true)
    (hout : w.stdout [] command = with_newline (List.replicate n 34)) :
    simple_command w MAXLINLEN MAXBUFLEN stray command
      = undefined_after [⟨.popen command, true⟩] := by
  have hq10 : (10 : Nat) ∉ List.replicate n 34 := by
    intro h; have := List.eq_of_mem_replicate h; omega
  have hq0 : (0 : Nat) ∉ List.replicate n 34 := by
    intro h; have := List.eq_of_mem_replicate h; omega
  have hlen : (with_newline (List.replicate n 34)).length = n + 1 := by
    simp [with_newline]
  obtain ⟨g1, g2⟩ := fgets_line MAXLINLEN (List.replicate n 34) [] hq10 (by rw [hlen]; omega)
  rw [List.append_nil] at g1 g2
  have hs : fits MAXBUFLEN (cstr "\x7b\"stdOut\": [") = true :=
    fits_of_length _ 12 _ (by decide) (by omega)
  have hloop : ∃ s, read_loop MAXLINLEN MAXBUFLEN stray true
      (with_newline (List.replicate n 34)).length (with_newline (List.replicate n 34))
      ⟨true, false, cstr "\x7b\"stdOut\": [", false⟩ = some s ∧ s.overrun = true := by
    rw [hlen, read_loop, g1]
    simp only [g2]
    rw [read_loop_empty]
    refine ⟨_, rfl, ?_⟩
    simp only [read_step, chomp_line _ hq0 hq10, escape_within_quotes MAXBUFLEN n hcheck hlong,
      Bool.not_true, Bool.false_or, Bool.false_and, Bool.not_false, Bool.or_true]
  obtain ⟨s, hs1, hs2⟩ := hloop
  unfold simple_command
  rw [if_pos hs]
  unfold run_command
  simp only [World.call, hopen, hout, hs1, hs2, Bool.not_true, Bool.false_eq_true, if_false,
    if_true, overran, List.nil_append]

theorem simple_command_overrun_witness :
    simple_command quote_world 1024 1024 0 (cstr "/bin/cat /proc/cpuinfo 2>&1")
      = undefined_after [⟨.popen (cstr "/bin/cat /proc/cpuinfo 2>&1"), true⟩] :=
  simple_command_overrun quote_world 1024 1024 0 600 (cstr "/bin/cat /proc/cpuinfo 2>&1")
    (by decide) (by decide) (by decide) (by decide) rfl rfl

set_option maxRecDepth 16384 in
/-- Claim C16, evaluated on the code.  The name of a file goes into the reply
as it is, while the value goes through `json_escape_str`.  For a directory
whose one file is named `x", "writeable": true, "value": "0"}, {"name": "stats`
the reply of `get_cpufreq_params` is the text of a `params` array with two
objects, the second named `stats`. -/
theorem get_cpufreq_params_lists_stats :
    get_cpufreq_params_method quoted_world 1024 1024 (.JSON_OBJECT [])
      = ⟨[⟨.opendir cpufreqdir, true⟩,
          ⟨.stat (cpufreqdir ++ cstr "/x\", \"writeable\": true, \"value\": \"0\"\x7d, \x7b\"name\": \"stats"), true⟩,
          ⟨.fopen (cpufreqdir ++ cstr "/x\", \"writeable\": true, \"value\": \"0\"\x7d, \x7b\"name\": \"stats") (cstr "r"), true⟩,
          ⟨.fgets (cpufreqdir ++ cstr "/x\", \"writeable\": true, \"value\": \"0\"\x7d, \x7b\"name\": \"stats"), true⟩,
          ⟨.fclose (cpufreqdir ++ cstr "/x\", \"writeable\": true, \"value\": \"0\"\x7d, \x7b\"name\": \"stats"), true⟩,
          ⟨.closedir cpufreqdir, true⟩,
          ⟨.LSMessageReply
            (params_reply [⟨cstr "x", true, cstr "0"⟩, ⟨cstr "stats", true, cstr "1"⟩] none),
            true⟩],
         some true, false⟩ ∧
    params_reply [⟨cstr "x", true, cstr "0"⟩, ⟨cstr "stats", true, cstr "1"⟩] none
      = cstr "\x7b\"params\": [\x7b\"name\": \"x\", \"writeable\": true, \"value\": \"0\"\x7d, \x7b\"name\": \"stats\", \"writeable\": true, \"value\": \"1\"\x7d], \"returnValue\": true\x7d" ∧
    cstr "stats" ∉ quoted_world.readdir cpufreqdir := by
  refine ⟨?_, ?_, ?_⟩ <;> decide

set_option maxRecDepth 16384 in
/-- Claim C17, evaluated on the code.  The loop tests `st_mode & S_IFDIR`, and
the bit `S_IFDIR` is also set in the mode of a block device and of a socket.
For a directory whose one entry is the block device `ram0`, which is not a
directory, is not passed over by name and can be opened, read and closed,
`get_cpufreq_params` does not open the entry and replies with an empty
`params` array. -/
theorem get_cpufreq_params_skips_device :
    get_cpufreq_params_method device_world 1024 1024 (.JSON_OBJECT [])
      = ⟨[⟨.opendir cpufreqdir, true⟩,
          ⟨.stat (cpufreqdir ++ cstr "/ram0"), true⟩,
          ⟨.closedir cpufreqdir, true⟩,
          ⟨.LSMessageReply (cstr "\x7b\"params\": [], \"returnValue\": true\x7d"), true⟩],
         some true, false⟩ ∧
    S_ISDIR (device_world.st_mode (cpufreqdir ++ cstr "/ram0")) = false ∧
    device_world.st_mode (cpufreqdir ++ cstr "/ram0") &&& S_IFDIR ≠ 0 ∧
    cstr "ram0" ∉ skipped_names ∧
    device_world.readdir cpufreqdir = [cstr "ram0"] := by
  refine ⟨?_, ?_, ?_, ?_, ?_⟩ <;> decide

set_option maxRecDepth 16384 in
/-- Claim C25, evaluated on the code.  With arrays of 1024 bytes and a
directory of four files whose first lines have 300 digits,
`get_cpufreq_params` reads the first three files with success; the objects of
the first two take 746 bytes of `buffer` after the 12 of `{"params": [`, and
`sprintf(buffer+strlen(buffer), ...)` for the third, of 362 bytes, writes
beyond the end of `buffer`, into `esc_buffer`, which is declared next and is
where `json_escape_str` leaves the value of the file that follows.  The run
leaves the defined behaviour there, before the fourth file is read. -/
theorem get_cpufreq_params_reply_overrun :
    get_cpufreq_params_method long_world 1024 1024 (.JSON_OBJECT [])
      = undefined_after
          [⟨.opendir cpufreqdir, true⟩,
           ⟨.stat (cpufreqdir ++ cstr "/scaling_available_frequencies"), true⟩,
           ⟨.fopen (cpufreqdir ++ cstr "/scaling_available_frequencies") (cstr "r"), true⟩,
           ⟨.fgets (cpufreqdir ++ cstr "/scaling_available_frequencies"), true⟩,
           ⟨.fclose (cpufreqdir ++ cstr "/scaling_available_frequencies"), true⟩,
           ⟨.stat (cpufreqdir ++ cstr "/scaling_available_governors"), true⟩,
           ⟨.fopen (cpufreqdir ++ cstr "/scaling_available_governors") (cstr "r"), true⟩,
           ⟨.fgets (cpufreqdir ++ cstr "/scaling_available_governors"), true⟩,
           ⟨.fclose (cpufreqdir ++ cstr "/scaling_available_governors"), true⟩,
           ⟨.stat (cpufreqdir ++ cstr "/scaling_governor"), true⟩,
           ⟨.fopen (cpufreqdir ++ cstr "/scaling_governor") (cstr "r"), true⟩,
           ⟨.fgets (cpufreqdir ++ cstr "/scaling_governor"), true⟩,
           ⟨.fclose (cpufreqdir ++ cstr "/scaling_governor"), true⟩] ∧
    (param_object true (cstr "scaling_available_frequencies") false
        (List.replicate 299 48) ++
      param_object false (cstr "scaling_available_governors") false
        (List.replicate 299 48)).length = 746 ∧
    (param_object false (cstr "scaling_governor") false (List.replicate 299 48)).length = 362 := by
  refine ⟨?_, ?_, ?_⟩ <;> decide
end Govnah
